import Mathlib

/-!
Admin screens of the Abinexis storefront: search, pricing decoration and
optimistic collection editing.

A shallow embedding of the logic of three React components

* `src/components/FeaturedProducts.jsx`
* `src/components/TodaysOffers.jsx`
* `src/components/MainBanners.jsx` (component `BannerDashboard`)

Conventions of the embedding.

* A JavaScript string is a Lean `String` (a well-formed string, on which
  substring search by code point and by UTF-16 unit agree); the built-ins
  `trim` and `includes` are defined below on the character list, `toLowerCase`
  is a parameter of the functions that call it (every theorem holds for any
  lower-casing function).
* A JavaScript number is an exact rational (`ℚ`); a property that may be
  `undefined` or `null` is an `Option`.
* An `async` function is a value of `Async σ`: a tree of the effects it
  performs (state setters, token reads, dialogs, network requests), each
  network request carrying the continuation that receives its outcome.
  `Async.run` executes such a tree against an environment (token store, user,
  server) and records every effect in a trace.
-/

namespace Abinexis

/-! ## JavaScript built-ins -/

namespace Js

/-- Code points that `String.prototype.trim` strips: the ECMAScript `WhiteSpace`
and `LineTerminator` productions. -/
def isWhiteSpace (c : Char) : Bool :=
  let n := c.toNat
  n == 0x09 || n == 0x0A || n == 0x0B || n == 0x0C || n == 0x0D || n == 0x20 ||
  n == 0xA0 || n == 0x1680 || (0x2000 ≤ n && n ≤ 0x200A) || n == 0x2028 ||
  n == 0x2029 || n == 0x202F || n == 0x205F || n == 0x3000 || n == 0xFEFF

/-- The character list of `s.trim()`: white space removed from both ends. -/
def trimChars (cs : List Char) : List Char :=
  ((cs.dropWhile isWhiteSpace).reverse.dropWhile isWhiteSpace).reverse

/-- The built-in `String.prototype.trim`. -/
def trim (s : String) : String := ⟨trimChars s.data⟩

/-- Truthiness of a string value: every string but the empty one. -/
def truthy (s : String) : Bool := !s.data.isEmpty

/-- Whether `t` occurs in `cs` starting at some position (search from the left). -/
def includesChars : List Char → List Char → Bool
  | [], t => t.isEmpty
  | c :: cs, t => t.isPrefixOf (c :: cs) || includesChars cs t

/-- The built-in `String.prototype.includes`: `s.includes(t)`. -/
def includes (s t : String) : Bool := includesChars s.data t.data

/-- The built-in `String.prototype.startsWith`: `s.startsWith(t)`. -/
def startsWith (s t : String) : Bool := t.data.isPrefixOf s.data

/-- Lower-casing of the ASCII letters, every other character kept: agrees with
`String.prototype.toLowerCase` on ASCII strings. Used to instantiate the
`toLowerCase` parameter on concrete inputs. -/
def asciiToLowerCase (s : String) : String := ⟨s.data.map Char.toLower⟩

/-- A truthy operand of `a || b` on optional strings: `some s` with `s` non-empty. -/
def nonEmpty? : Option String → Option String
  | some s => if truthy s then some s else none
  | none => none

/-- The expression `x || 0` on an optional number. -/
def orZero : Option ℚ → ℚ
  | some x => x
  | none => 0

/-- The built-in `Math.round` on an exact number: the nearest integer, a tie
going to the larger one. -/
def mathRound (x : ℚ) : ℤ := ⌊x + 1 / 2⌋

/-- Insertion of a property into an object, seen as the list of its own
properties in creation order: an existing key keeps its place and takes the new
value, a new key goes last. (The language lists integer-like keys first; that
reordering is left out.) -/
def setProp (obj : List (String × String)) (key value : String) : List (String × String) :=
  if obj.any (fun kv => kv.1 == key) then
    obj.map (fun kv => if kv.1 == key then (key, value) else kv)
  else obj ++ [(key, value)]

/-- Object spread `{...a, ...b}` on property lists. -/
def spread (a b : List (String × String)) : List (String × String) :=
  b.foldl (fun acc kv => setProp acc kv.1 kv.2) a

end Js

/-- Errors thrown by the language itself. -/
inductive JSError where
  /-- Reading a property of `undefined` or `null`. -/
  | typeError (message : String)
  deriving DecidableEq, Repr

deriving instance DecidableEq for Except

/-! ## Data model -/

/-- One filter definition of a product: a name and its allowed values. -/
structure ProductFilter where
  name : String
  values : Option (List String)
  deriving DecidableEq, Repr

/-- A catalog product, with the pricing decoration of the offers screen
(`displayPrice`, `originalPrice`, `discount`) when it has been computed. -/
structure Product where
  _id : String
  name : Option String
  category : Option String
  brand : Option String
  images : List String
  price : Option ℚ
  filters : Option (List ProductFilter)
  displayPrice : Option ℚ
  originalPrice : Option ℚ
  discount : Option ℚ
  deriving DecidableEq, Repr

/-! ## Client-side search -/

/-- The array method `filter` with a callback that may throw: the first
exception aborts the whole call. -/
def filterE {α ε : Type} (f : α → Except ε Bool) : List α → Except ε (List α)
  | [] => .ok []
  | x :: xs =>
    match f x with
    | .error e => .error e
    | .ok b =>
      match filterE f xs with
      | .error e => .error e
      | .ok r => .ok (if b then x :: r else r)

/-- The expression `product.f.toLowerCase().includes(query.toLowerCase())` of
the featured and offers screens; a missing field throws. -/
def fieldIncludes (toLowerCase : String → String) (field : Option String) (query : String) :
    Except JSError Bool :=
  match field with
  | none => .error (.typeError "Cannot read properties of undefined (reading 'toLowerCase')")
  | some v => .ok (Js.includes (toLowerCase v) (toLowerCase query))

/-- The expression `product.f?.toLowerCase().includes(query.toLowerCase())` of
the banner screen; a missing field is falsy. -/
def fieldIncludesOpt (toLowerCase : String → String) (field : Option String) (query : String) :
    Bool :=
  match field with
  | none => false
  | some v => Js.includes (toLowerCase v) (toLowerCase query)

/-- The filter callback of `searchProducts` on the featured and offers screens:
name, category, brand joined by a short-circuiting `||`. -/
def productMatches (toLowerCase : String → String) (query : String) (product : Product) :
    Except JSError Bool :=
  match fieldIncludes toLowerCase product.name query with
  | .error e => .error e
  | .ok true => .ok true
  | .ok false =>
    match fieldIncludes toLowerCase product.category query with
    | .error e => .error e
    | .ok true => .ok true
    | .ok false => fieldIncludes toLowerCase product.brand query

namespace FeaturedProducts

/-- The function `searchProducts` of `FeaturedProducts.jsx` (lines 35-47): the
value handed to `setter`, or the exception thrown. `products` is the catalog held
in state. -/
def searchProducts (toLowerCase : String → String) (products : List Product) (query : String) :
    Except JSError (List Product) :=
  if Js.truthy (Js.trim query) then
    filterE (productMatches toLowerCase query) products
  else .ok []

end FeaturedProducts

namespace TodaysOffers

/-- The function `searchProducts` of `TodaysOffers.jsx` (lines 76-88). -/
def searchProducts (toLowerCase : String → String) (products : List Product) (query : String) :
    Except JSError (List Product) :=
  if Js.truthy (Js.trim query) then
    filterE (productMatches toLowerCase query) products
  else .ok []

end TodaysOffers

namespace BannerDashboard

/-- The function `searchProducts` of `MainBanners.jsx` (lines 139-151): the list
handed to `setFilteredProducts`. -/
def searchProducts (toLowerCase : String → String) (products : List Product) (query : String) :
    List Product :=
  if Js.truthy (Js.trim query) then
    products.filter (fun product =>
      fieldIncludesOpt toLowerCase product.name query ||
      fieldIncludesOpt toLowerCase product.category query ||
      fieldIncludesOpt toLowerCase product.brand query)
  else []

end BannerDashboard

/-! ## Specification vocabulary for the search -/

/-- The field holds a string that contains the query, both lower-cased. -/
def FieldContains (toLowerCase : String → String) (field : Option String) (query : String) :
    Prop :=
  ∃ v, field = some v ∧ (toLowerCase query).data <:+: (toLowerCase v).data

/-- The product matches the query in its name, category or brand. -/
def Matches (toLowerCase : String → String) (query : String) (product : Product) : Prop :=
  FieldContains toLowerCase product.name query ∨
  FieldContains toLowerCase product.category query ∨
  FieldContains toLowerCase product.brand query

/-- The product carries a string in each of name, category and brand. -/
def HasSearchFields (product : Product) : Prop :=
  product.name.isSome = true ∧ product.category.isSome = true ∧ product.brand.isSome = true

instance (toLowerCase : String → String) (field : Option String) (query : String) :
    Decidable (FieldContains toLowerCase field query) :=
  match field with
  | none => isFalse (by rintro ⟨v, h, _⟩; cases h)
  | some w =>
    if h : (toLowerCase query).data <:+: (toLowerCase w).data then
      isTrue ⟨w, rfl, h⟩
    else isFalse (by rintro ⟨v, hv, hc⟩; cases hv; exact h hc)

instance (toLowerCase : String → String) (query : String) (product : Product) :
    Decidable (Matches toLowerCase query product) := by
  unfold Matches; infer_instance

instance (product : Product) : Decidable (HasSearchFields product) := by
  unfold HasSearchFields; infer_instance

/-- The product of the search scenario: a shoe. -/
def shoe : Product :=
  { _id := "1", name := some "Shoe", category := some "Footwear", brand := some "Acme",
    images := [], price := none, filters := none,
    displayPrice := none, originalPrice := none, discount := none }

/-- The catalog of the search scenario. -/
def shoeCatalog : List Product := [shoe]

/-- A catalog whose only product has a space in its name. -/
def redShoeCatalog : List Product := [{ shoe with _id := "2", name := some "Red Shoe" }]

/-! ## Further data: banners, forms, pricing, the homepage document -/

/-- A homepage banner. `extra` lists the own properties no screen reads by name
(timestamps and the like), in creation order. -/
structure Banner where
  _id : String
  title : Option String
  description : Option String
  image : Option String
  searchProduct : Option Product
  extra : List (String × String)
  deriving DecidableEq, Repr

/-- A file picked in the image input. -/
structure File where
  name : String
  size : Nat
  deriving DecidableEq, Repr

/-- The banner form held in `formData`. -/
structure BannerForm where
  title : String
  description : String
  image : Option File
  imagePreview : String
  deriving DecidableEq, Repr

/-- One value of a multipart body. -/
inductive FormValue where
  | text (value : String)
  | file (file : File)
  | blob (source : String)
  deriving DecidableEq, Repr

/-- A multipart body (`FormData`): the appended parts in order. -/
abbrev FormData := List (String × FormValue)

/-- The body of `GET /products/{id}/price-details`. -/
structure PriceDetails where
  effectivePrice : Option ℚ
  normalPrice : Option ℚ
  deriving DecidableEq, Repr

/-- The body of `GET /homepage`. -/
structure HomepageDoc where
  featuredProducts : List Product
  todayOffers : List Product
  banners : Option (List Banner)
  deriving DecidableEq, Repr

/-- The `action` field of the collection endpoints. -/
inductive CollectionAction where
  | add
  | remove
  deriving DecidableEq, Repr

/-! ## Effects of an `async` function -/

/-- A request to the backend (or, for `fetchImage`, to a data URL). -/
inductive Request where
  /-- `GET /homepage` -/
  | getHomepage
  /-- `GET /products` -/
  | getProducts
  /-- `GET /products/{id}/price-details?selectedFilters=...` -/
  | getPriceDetails (productId : String) (selectedFilters : List (String × String))
  /-- `POST /homepage/featured` with a bearer token -/
  | postFeatured (token productId : String) (action : CollectionAction)
  /-- `POST /homepage/offers` with a bearer token -/
  | postOffers (token productId : String) (action : CollectionAction)
  /-- `POST /homepage/banners` with a bearer token -/
  | postBanner (token : String) (body : FormData)
  /-- `PUT /homepage/banners/{id}` with a bearer token -/
  | putBanner (token bannerId : String) (body : FormData)
  /-- `DELETE /homepage/banners/{id}` with a bearer token -/
  | deleteBanner (token bannerId : String)
  /-- `fetch(url)` of an image held as a data URL -/
  | fetchImage (url : String)
  deriving DecidableEq, Repr

/-- The body of a successful response, by request (section 6 of the
specification). -/
@[reducible] def Request.Payload : Request → Type
  | .getHomepage => HomepageDoc
  | .getProducts => List Product
  | .getPriceDetails _ _ => PriceDetails
  | .postFeatured _ _ _ => List Product
  | .postOffers _ _ _ => List Product
  | .postBanner _ _ => Banner
  | .putBanner _ _ _ => Banner
  | .deleteBanner _ _ => Unit
  | .fetchImage _ => String

/-- A failed request: no response at all, or a response with a non-success
status. `message` is `err.message` of axios, `dataMessage` is
`err.response.data.message`, `bodyText` is `response.text()` of fetch. -/
inductive NetError where
  | transport (message : String)
  | status (message : String) (dataMessage : Option String) (bodyText : String)
  deriving DecidableEq, Repr

/-- The property `err.message`. -/
def NetError.message : NetError → String
  | .transport m => m
  | .status m _ _ => m

/-- The expression `err.response?.data?.message || err.message`. -/
def NetError.display : NetError → String
  | .transport m => m
  | .status m dataMessage _ =>
    match Js.nonEmpty? dataMessage with
    | some d => d
    | none => m

/-- An `async` function over component state `σ`, as the tree of its effects. -/
inductive Async (σ : Type) : Type where
  /-- The function returns. -/
  | done : Async σ
  /-- A React state setter, in functional form. -/
  | setState (update : σ → σ) (next : Async σ) : Async σ
  /-- The call `localStorage.getItem('token')`. -/
  | getToken (next : Option String → Async σ) : Async σ
  /-- The call `alert(message)`. -/
  | alert (message : String) (next : Async σ) : Async σ
  /-- The call `window.confirm(message)`. -/
  | confirm (message : String) (next : Bool → Async σ) : Async σ
  /-- The call `console.error(message, ...)`. -/
  | consoleError (message : String) (next : Async σ) : Async σ
  /-- A network request and the code that runs on its outcome. -/
  | await (request : Request) (next : Except NetError request.Payload → Async σ) : Async σ
  /-- The call `setTimeout(callback, delay)`. -/
  | setTimeout (delay : Nat) (callback : Async σ) (next : Async σ) : Async σ

/-- An observable effect. -/
inductive Event where
  | tokenRead
  | alert (message : String)
  | confirm (message : String) (answer : Bool)
  | consoleError (message : String)
  | request (request : Request)
  | timer (delay : Nat)
  deriving DecidableEq, Repr

/-- The network requests of a trace, in order. -/
def requestsOf : List Event → List Request
  | [] => []
  | .request r :: es => r :: requestsOf es
  | _ :: es => requestsOf es

/-- What surrounds a component: the token store, the user answering
confirmation dialogs, and the server, whose answer may depend on the requests
it has received before. -/
structure Env where
  token : Option String
  confirm : String → Bool
  server : List Request → (request : Request) → Except NetError request.Payload

/-- The component state together with everything observed so far: the trace of
effects, the state shown at each suspension on a network request, and the
timers scheduled. -/
structure World (σ : Type) where
  state : σ
  trace : List Event
  visible : List σ
  timers : List (Nat × Async σ)

/-- Execution of an `async` function to completion. -/
def Async.run {σ : Type} (env : Env) : Async σ → World σ → World σ
  | .done, w => w
  | .setState update next, w => next.run env { w with state := update w.state }
  | .getToken next, w =>
    (next env.token).run env { w with trace := w.trace ++ [.tokenRead] }
  | .alert message next, w => next.run env { w with trace := w.trace ++ [.alert message] }
  | .confirm message next, w =>
    (next (env.confirm message)).run env
      { w with trace := w.trace ++ [.confirm message (env.confirm message)] }
  | .consoleError message next, w =>
    next.run env { w with trace := w.trace ++ [.consoleError message] }
  | .await request next, w =>
    (next (env.server (requestsOf w.trace) request)).run env
      { w with trace := w.trace ++ [.request request], visible := w.visible ++ [w.state] }
  | .setTimeout delay callback next, w =>
    next.run env
      { w with trace := w.trace ++ [.timer delay], timers := w.timers ++ [(delay, callback)] }

/-- Execution from a rendered state, with nothing observed yet. -/
def Async.exec {σ : Type} (env : Env) (task : Async σ) (s : σ) : World σ :=
  task.run env { state := s, trace := [], visible := [], timers := [] }

/-! ## The featured-products screen (`FeaturedProducts.jsx`) -/

namespace FeaturedProducts

/-- The object held in `homepage`. -/
structure Homepage where
  featuredProducts : List Product
  deriving DecidableEq, Repr

/-- The state of the component. -/
structure State where
  homepage : Homepage
  products : List Product
  loading : Bool
  error : Option String
  searchQuery : String
  searchResults : List Product
  deriving DecidableEq, Repr

/-- The function `fetchHomepageData` (lines 21-33), followed by `next`. -/
def fetchHomepageData (next : Async State) : Async State :=
  .setState (fun prev => { prev with loading := true }) <|
  .await .getHomepage fun homepageResponse =>
    match homepageResponse with
    | .error err =>
      .setState (fun prev => { prev with error := some err.message }) <|
      .setState (fun prev => { prev with loading := false }) next
    | .ok data =>
      .setState (fun prev => { prev with homepage := { featuredProducts := data.featuredProducts } }) <|
      .await .getProducts fun productsResponse =>
        match productsResponse with
        | .error err =>
          .setState (fun prev => { prev with error := some err.message }) <|
          .setState (fun prev => { prev with loading := false }) next
        | .ok products =>
          .setState (fun prev => { prev with products := products }) <|
          .setState (fun prev => { prev with loading := false }) next

/-- The function `addToFeatured` (lines 49-80), called in a render that shows
state `s`. -/
def addToFeatured (s : State) (product : Product) : Async State :=
  if (s.homepage.featuredProducts.find? (fun p => p._id == product._id)).isNone then
    .getToken fun token =>
      match Js.nonEmpty? token with
      | none => .alert "Please log in as admin to manage featured products" .done
      | some token =>
        .setState (fun prev => { prev with homepage :=
            { prev.homepage with
              featuredProducts := prev.homepage.featuredProducts ++ [product] } }) <|
        .await (.postFeatured token product._id .add) fun response =>
          match response with
          | .ok featuredProducts =>
            .setState (fun prev => { prev with homepage := { featuredProducts := featuredProducts } })
              .done
          | .error err =>
            fetchHomepageData <|
            .alert ("Error adding featured product: " ++ err.display) .done
  else .done

/-- The function `removeFromFeatured` (lines 82-111). -/
def removeFromFeatured (productId : String) : Async State :=
  .getToken fun token =>
    match Js.nonEmpty? token with
    | none => .alert "Please log in as admin to manage featured products" .done
    | some token =>
      .setState (fun prev => { prev with homepage :=
          { prev.homepage with
            featuredProducts := prev.homepage.featuredProducts.filter
              (fun p => p._id != productId) } }) <|
      .await (.postFeatured token productId .remove) fun response =>
        match response with
        | .ok featuredProducts =>
          .setState (fun prev => { prev with homepage := { featuredProducts := featuredProducts } })
            .done
        | .error err =>
          fetchHomepageData <|
          .alert ("Error removing featured product: " ++ err.display) .done

end FeaturedProducts

/-! ## The offers screen (`TodaysOffers.jsx`) -/

namespace TodaysOffers

/-- The object held in `homepage`. -/
structure Homepage where
  todayOffers : List Product
  deriving DecidableEq, Repr

/-- The state of the component. -/
structure State where
  homepage : Homepage
  products : List Product
  loading : Bool
  error : Option String
  offersSearchQuery : String
  offersSearchResults : List Product
  deriving DecidableEq, Repr

/-- The loop of lines 27-32: the default filter selection sent with the pricing
lookup of `fetchOfferPrices`. -/
def fetchOfferPrices_initialFilters (product : Product) : List (String × String) :=
  match product.filters with
  | none => []
  | some filters =>
    filters.foldl (fun initialFilters filter =>
      match filter.values with
      | some (first :: _) => Js.setProp initialFilters filter.name first
      | _ => initialFilters) []

/-- The `discount` expression of lines 43-51. A comparison with a missing
operand is false. -/
def fetchOfferPrices_discount (priceDetails : PriceDetails) : ℚ :=
  match priceDetails.normalPrice, priceDetails.effectivePrice with
  | some normalPrice, some effectivePrice =>
    if normalPrice > effectivePrice ∧ effectivePrice > 0 then
      (Js.mathRound ((normalPrice - effectivePrice) / normalPrice * 100) : ℚ)
    else 0
  | _, _ => 0

/-- The object literal of lines 39-52: the product decorated from a pricing
response. -/
def fetchOfferPrices_priced (product : Product) (priceDetails : PriceDetails) : Product :=
  { product with
    displayPrice := some (Js.orZero priceDetails.effectivePrice)
    originalPrice := some (Js.orZero priceDetails.normalPrice)
    discount := some (fetchOfferPrices_discount priceDetails) }

/-- The object literal of line 55: the product of a failed pricing lookup. -/
def fetchOfferPrices_unpriced (product : Product) : Product :=
  { product with displayPrice := some 0, originalPrice := some 0, discount := some 0 }

/-- The function `fetchOfferPrices` (lines 21-59), its result handed to `next`.
The lookups are issued in list order; each answer decides its own entry only. -/
def fetchOfferPrices {σ : Type} : List Product → (List Product → Async σ) → Async σ
  | [], next => next []
  | product :: offers, next =>
    if product.displayPrice.isSome then
      fetchOfferPrices offers fun rest => next (product :: rest)
    else
      .await (.getPriceDetails product._id (fetchOfferPrices_initialFilters product))
        fun priceResponse =>
          match priceResponse with
          | .ok priceDetails =>
            fetchOfferPrices offers fun rest =>
              next (fetchOfferPrices_priced product priceDetails :: rest)
          | .error err =>
            .consoleError
              ("Error fetching price details for product " ++ product._id ++ ": " ++ err.message) <|
            fetchOfferPrices offers fun rest => next (fetchOfferPrices_unpriced product :: rest)

/-- The function `fetchHomepageData` (lines 61-74), followed by `next`. -/
def fetchHomepageData (next : Async State) : Async State :=
  .setState (fun prev => { prev with loading := true }) <|
  .await .getHomepage fun homepageResponse =>
    match homepageResponse with
    | .error err =>
      .setState (fun prev => { prev with error := some err.message }) <|
      .setState (fun prev => { prev with loading := false }) next
    | .ok data =>
      fetchOfferPrices data.todayOffers fun offersWithPrice =>
      .setState (fun prev => { prev with homepage := { todayOffers := offersWithPrice } }) <|
      .await .getProducts fun productsResponse =>
        match productsResponse with
        | .error err =>
          .setState (fun prev => { prev with error := some err.message }) <|
          .setState (fun prev => { prev with loading := false }) next
        | .ok products =>
          .setState (fun prev => { prev with products := products }) <|
          .setState (fun prev => { prev with loading := false }) next

/-- The loop of lines 99-104: the default filter selection sent with the pricing
lookup of `addToOffers`. -/
def addToOffers_initialFilters (product : Product) : List (String × String) :=
  match product.filters with
  | none => []
  | some filters =>
    filters.foldl (fun initialFilters filter =>
      match filter.values with
      | some (first :: _) => Js.setProp initialFilters filter.name first
      | _ => initialFilters) []

/-- The `discount` expression of lines 119-127. -/
def addToOffers_discount (priceDetails : PriceDetails) : ℚ :=
  match priceDetails.normalPrice, priceDetails.effectivePrice with
  | some normalPrice, some effectivePrice =>
    if normalPrice > effectivePrice ∧ effectivePrice > 0 then
      (Js.mathRound ((normalPrice - effectivePrice) / normalPrice * 100) : ℚ)
    else 0
  | _, _ => 0

/-- The object literal of lines 115-128: the element appended optimistically. -/
def addToOffers_priced (product : Product) (priceDetails : PriceDetails) : Product :=
  { product with
    displayPrice := some (Js.orZero priceDetails.effectivePrice)
    originalPrice := some (Js.orZero priceDetails.normalPrice)
    discount := some (addToOffers_discount priceDetails) }

/-- The function `addToOffers` (lines 90-147), called in a render that shows
state `s`. The response of the add call is awaited and then dropped. -/
def addToOffers (s : State) (product : Product) : Async State :=
  if (s.homepage.todayOffers.find? (fun p => p._id == product._id)).isNone then
    .getToken fun token =>
      match Js.nonEmpty? token with
      | none => .alert "Please log in as admin to manage today offers" .done
      | some token =>
        .await (.getPriceDetails product._id (addToOffers_initialFilters product))
          fun priceResponse =>
            match priceResponse with
            | .error err =>
              fetchHomepageData <|
              .alert ("Error adding today's offer: " ++ err.display) .done
            | .ok priceDetails =>
              .setState (fun prev => { prev with homepage :=
                  { prev.homepage with
                    todayOffers := prev.homepage.todayOffers ++
                      [addToOffers_priced product priceDetails] } }) <|
              .await (.postOffers token product._id .add) fun response =>
                match response with
                | .ok _ => .done
                | .error err =>
                  fetchHomepageData <|
                  .alert ("Error adding today's offer: " ++ err.display) .done
  else .done

/-- The function `removeFromOffers` (lines 149-182). -/
def removeFromOffers (productId : String) : Async State :=
  .getToken fun token =>
    match Js.nonEmpty? token with
    | none => .alert "Please log in as admin to manage today offers" .done
    | some token =>
      .setState (fun prev => { prev with homepage :=
          { prev.homepage with
            todayOffers := prev.homepage.todayOffers.filter (fun p => p._id != productId) } }) <|
      .await (.postOffers token productId .remove) fun response =>
        match response with
        | .ok todayOffers =>
          fetchOfferPrices todayOffers fun updatedOffers =>
          .setState (fun prev => { prev with homepage :=
              { prev.homepage with todayOffers := updatedOffers } }) .done
        | .error err =>
          fetchHomepageData <|
          .alert ("Error removing today's offer: " ++ err.display) .done

end TodaysOffers

/-! ## The banner screen (`MainBanners.jsx`, component `BannerDashboard`) -/

namespace BannerDashboard

/-- The state of the component. -/
structure State where
  banners : List Banner
  products : List Product
  loading : Bool
  error : String
  success : String
  showCreateModal : Bool
  showEditModal : Bool
  showProductModal : Bool
  selectedBanner : Option Banner
  formData : BannerForm
  productSearch : String
  filteredProducts : List Product
  selectedProduct : Option Product
  submitting : Bool
  refreshing : Bool
  deriving DecidableEq, Repr

/-- The expression `a || ''` on an optional string. -/
def orEmpty (a : Option String) : String :=
  match Js.nonEmpty? a with
  | some s => s
  | none => ""

/-- The expression `a || b` on optional strings. -/
def orElse (a b : Option String) : Option String :=
  match Js.nonEmpty? a with
  | some s => some s
  | none => b

/-- The object literal of lines 82-88: a banner of the homepage document with
its fields defaulted. -/
def processBanner (banner : Banner) : Banner :=
  { banner with
    searchProduct := banner.searchProduct
    image := Js.nonEmpty? banner.image
    title := some (orEmpty banner.title)
    description := some (orEmpty banner.description) }

/-- The function `loadInitialData` (lines 66-102), followed by `next`. Both
fetches are issued before either outcome is looked at. -/
def loadInitialData (silent : Bool) (next : Async State) : Async State :=
  let finish : Async State :=
    if !silent then .setState (fun prev => { prev with loading := false }) next else next
  let body : Async State :=
    .await .getHomepage fun bannersRes =>
    .await .getProducts fun productsRes =>
      match bannersRes, productsRes with
      | .ok bannersData, .ok productsData =>
        .setState (fun prev => { prev with
          banners := (bannersData.banners.getD []).map processBanner }) <|
        .setState (fun prev => { prev with products := productsData }) <|
        if !silent then .setState (fun prev => { prev with error := "" }) finish else finish
      | _, _ =>
        if !silent then
          .setState (fun prev => { prev with error := "Failed to load data. Please try again." }) <|
          .consoleError "Load error:" finish
        else finish
  if !silent then .setState (fun prev => { prev with loading := true }) body else body

/-- The function `resetForm` (lines 111-121), followed by `next`. -/
def resetForm (next : Async State) : Async State :=
  .setState (fun prev => { prev with
    formData := { title := "", description := "", image := none, imagePreview := "" } }) <|
  .setState (fun prev => { prev with selectedProduct := none }) <|
  .setState (fun prev => { prev with productSearch := "" }) <|
  .setState (fun prev => { prev with filteredProducts := [] }) next

/-- The multipart body built by `createBanner` (lines 196-206). -/
def createBanner_submitData (s : State) : FormData :=
  [("title", .text s.formData.title),
   ("description", .text (orEmpty (some s.formData.description)))] ++
  (match s.formData.image with
   | some image => [("image", .file image)]
   | none => []) ++
  (match s.selectedProduct with
   | some selectedProduct => [("searchProduct", .text selectedProduct._id)]
   | none => [])

/-- The function `createBanner` (lines 182-241), called in a render that shows
state `s`. -/
def createBanner (s : State) : Async State :=
  if !Js.truthy (Js.trim s.formData.title) then
    .setState (fun prev => { prev with error := "Banner title is required" }) .done
  else
    .getToken fun token =>
      match Js.nonEmpty? token with
      | none => .setState (fun prev => { prev with error := "Please log in as admin" }) .done
      | some token =>
        .setState (fun prev => { prev with submitting := true }) <|
        .await (.postBanner token (createBanner_submitData s)) fun response =>
          match response with
          | .ok _ =>
            loadInitialData false <|
            .setState (fun prev => { prev with showCreateModal := false }) <|
            .setState (fun prev => { prev with success := "Banner created successfully" }) <|
            resetForm <|
            .setState (fun prev => { prev with submitting := false }) .done
          | .error _ =>
            .setState (fun prev => { prev with error := "Failed to create banner" }) <|
            .consoleError "Create error:" <|
            .setState (fun prev => { prev with submitting := false }) .done

/-- The multipart body built by `updateBanner` (lines 257-269). -/
def updateBanner_submitData (s : State) : FormData :=
  [("title", .text s.formData.title),
   ("description", .text (orEmpty (some s.formData.description)))] ++
  (match s.formData.image with
   | some image => [("image", .file image)]
   | none =>
     match Js.nonEmpty? (s.selectedBanner.bind (fun b => b.image)) with
     | some image => [("imageUrl", .text image)]
     | none => []) ++
  (match s.selectedProduct with
   | some selectedProduct => [("searchProduct", .text selectedProduct._id)]
   | none => [])

/-- The function `updateBanner` (lines 243-295), called in a render that shows
state `s`. With no banner selected, reading `selectedBanner._id` throws inside
the `try`. -/
def updateBanner (s : State) : Async State :=
  if !Js.truthy (Js.trim s.formData.title) then
    .setState (fun prev => { prev with error := "Banner title is required" }) .done
  else
    .getToken fun token =>
      match Js.nonEmpty? token with
      | none => .setState (fun prev => { prev with error := "Please log in as admin" }) .done
      | some token =>
        let failed : Async State :=
          .setState (fun prev => { prev with error := "Failed to update banner" }) <|
          .consoleError "Update error:" <|
          .setState (fun prev => { prev with submitting := false }) .done
        .setState (fun prev => { prev with submitting := true }) <|
        match s.selectedBanner with
        | none => failed
        | some selectedBanner =>
          .await (.putBanner token selectedBanner._id (updateBanner_submitData s)) fun response =>
            match response with
            | .ok _ =>
              loadInitialData false <|
              .setState (fun prev => { prev with showEditModal := false }) <|
              .setState (fun prev => { prev with success := "Banner updated successfully" }) <|
              resetForm <|
              .setState (fun prev => { prev with submitting := false }) .done
            | .error _ => failed

/-- The object literal of lines 347-355: the selected banner after a successful
product update, merged from the original and the response. -/
def updateBannerProduct_merged (originalBanner updatedBanner : Banner)
    (selectedProduct : Option Product) : Banner :=
  { _id := originalBanner._id
    searchProduct := selectedProduct
    title := orElse updatedBanner.title originalBanner.title
    description := orElse updatedBanner.description originalBanner.description
    image := orElse updatedBanner.image originalBanner.image
    extra := Js.spread originalBanner.extra updatedBanner.extra }

/-- The message `err.message` seen by the `catch` of `updateBannerProduct`. -/
def updateBannerProduct_errorMessage : NetError → String
  | .transport m => m
  | .status _ _ bodyText => "Failed to update banner product: " ++ bodyText

/-- The function `updateBannerProduct` (lines 297-382), called in a render that
shows state `s`. -/
def updateBannerProduct (s : State) : Async State :=
  .getToken fun token =>
    match Js.nonEmpty? token with
    | none => .setState (fun prev => { prev with error := "Please log in as admin" }) .done
    | some token =>
      let failed (message : String) : Async State :=
        loadInitialData true <|
        .setState (fun prev => { prev with error := "Failed to update banner product: " ++ message }) <|
        .consoleError "Product update error:" <|
        .setState (fun prev => { prev with submitting := false }) .done
      .setState (fun prev => { prev with submitting := true }) <|
      match s.selectedBanner with
      | none => failed "Cannot read properties of null (reading 'title')"
      | some selectedBanner =>
        let head : FormData :=
          [("title", .text (selectedBanner.title.getD "undefined")),
           ("description", .text (orEmpty selectedBanner.description))]
        let tail : FormData :=
          match s.selectedProduct with
          | some selectedProduct => [("searchProduct", .text selectedProduct._id)]
          | none => []
        let submit (submitData : FormData) : Async State :=
          .await (.putBanner token selectedBanner._id submitData) fun response =>
            match response with
            | .error err => failed (updateBannerProduct_errorMessage err)
            | .ok updatedBanner =>
              .setState (fun prev => { prev with banners := prev.banners.map (fun banner =>
                if banner._id == selectedBanner._id then
                  updateBannerProduct_merged selectedBanner updatedBanner s.selectedProduct
                else banner) }) <|
              .setState (fun prev => { prev with showProductModal := false }) <|
              .setState (fun prev => { prev with success :=
                if s.selectedProduct.isSome then "Featured product added successfully"
                else "Featured product removed successfully" }) <|
              .setState (fun prev => { prev with selectedProduct := none }) <|
              .setState (fun prev => { prev with productSearch := "" }) <|
              .setState (fun prev => { prev with filteredProducts := [] }) <|
              .setTimeout 1000 (loadInitialData true .done) <|
              .setState (fun prev => { prev with submitting := false }) .done
        match Js.nonEmpty? selectedBanner.image with
        | none => submit (head ++ tail)
        | some image =>
          if Js.startsWith image "data:image/" then
            .await (.fetchImage image) fun response =>
              match response with
              | .error err => failed err.message
              | .ok blob => submit (head ++ [("image", .blob blob)] ++ tail)
          else submit (head ++ [("imageUrl", .text image)] ++ tail)

/-- The function `deleteBanner` (lines 384-414). -/
def deleteBanner (bannerId : String) : Async State :=
  .confirm "Are you sure you want to delete this banner?" fun confirmed =>
    if !confirmed then .done
    else
      .getToken fun token =>
        match Js.nonEmpty? token with
        | none => .setState (fun prev => { prev with error := "Please log in as admin" }) .done
        | some token =>
          .await (.deleteBanner token bannerId) fun response =>
            match response with
            | .ok _ =>
              loadInitialData false <|
              .setState (fun prev => { prev with success := "Banner deleted successfully" }) .done
            | .error _ =>
              .setState (fun prev => { prev with error := "Failed to delete banner" }) <|
              .consoleError "Delete error:" .done

end BannerDashboard

/-! ## Further functions of the components: the image input and the views -/

namespace BannerDashboard

/-- The function `handleImageChange` (lines 123-137) on the file picked in the
input, if any; `createObjectURL` stands for `URL.createObjectURL`. -/
def handleImageChange (createObjectURL : File → String) (file : Option File) (s : State) :
    State :=
  match file with
  | some file =>
    if file.size > 5 * 1024 * 1024 then
      { s with error := "Image must be smaller than 5MB" }
    else
      { s with formData :=
          { s.formData with image := some file, imagePreview := createObjectURL file } }
  | none => s

end BannerDashboard

/-- What a collection screen renders. -/
inductive View where
  | loading
  | error (message : String)
  | collection
  deriving DecidableEq, Repr

/-- The render of `FeaturedProducts` (lines 113-140): the spinner while
`loading`, the error with its Retry button while `error` is truthy, the
collection otherwise. -/
def FeaturedProducts.view (s : FeaturedProducts.State) : View :=
  if s.loading then .loading
  else
    match Js.nonEmpty? s.error with
    | some message => .error message
    | none => .collection

/-- The render of `TodaysOffers` (lines 184-211). -/
def TodaysOffers.view (s : TodaysOffers.State) : View :=
  if s.loading then .loading
  else
    match Js.nonEmpty? s.error with
    | some message => .error message
    | none => .collection

/-- The render of `BannerDashboard` (lines 416-428): the spinner while
`loading`, the dashboard otherwise (an error is a dismissible notice inside
it). -/
def BannerDashboard.view (s : BannerDashboard.State) : View :=
  if s.loading then .loading else .collection

/-- The number of parts of a multipart body under a key. -/
def partCount (key : String) (body : FormData) : Nat :=
  (body.filter (fun part => part.1 == key)).length

/-- A multipart body respects the write rules of the banner endpoints: not both
an `image` part and an `imageUrl` part, and one `searchProduct` part when a
product is selected, none otherwise. -/
def ExclusiveBody (selectedProduct : Option Product) (body : FormData) : Prop :=
  ¬ (0 < partCount "image" body ∧ 0 < partCount "imageUrl" body) ∧
    partCount "searchProduct" body = (if selectedProduct.isSome then 1 else 0) ∧
    ∀ product, selectedProduct = some product →
      ("searchProduct", FormValue.text product._id) ∈ body

/-! ## Specification vocabulary for the pricing decoration -/

namespace TodaysOffers

/-- The entry of `fetchOfferPrices` for one product, from the outcome of that
product's pricing lookup: a product that carries `displayPrice` is kept, a
successful lookup decorates, a failed one degrades to zero prices. -/
def decorated (product : Product) (outcome : Except NetError PriceDetails) : Product :=
  if product.displayPrice.isSome then product
  else
    match outcome with
    | .ok priceDetails => fetchOfferPrices_priced product priceDetails
    | .error _ => fetchOfferPrices_unpriced product

/-- The pricing lookups `fetchOfferPrices` sends for a list: one for each
product without `displayPrice`, in list order. -/
def pricingRequests : List Product → List Request
  | [] => []
  | product :: offers =>
    if product.displayPrice.isSome then pricingRequests offers
    else
      .getPriceDetails product._id (fetchOfferPrices_initialFilters product) ::
        pricingRequests offers

/-- The list `fetchOfferPrices` resolves to in front of a server that has
received the requests `history` before: `fetchOfferPrices` in direct style. -/
def pricedOffers (env : Env) : List Request → List Product → List Product
  | _, [] => []
  | history, product :: offers =>
    decorated product
        (env.server history
          (.getPriceDetails product._id (fetchOfferPrices_initialFilters product))) ::
      pricedOffers env (history ++ pricingRequests [product]) offers

/-- The effects of `fetchOfferPrices` on the way: a request for each product
without `displayPrice`, followed by a console message when it fails. -/
def pricingEvents (env : Env) : List Request → List Product → List Event
  | _, [] => []
  | history, product :: offers =>
    if product.displayPrice.isSome then pricingEvents env history offers
    else
      match env.server history
          (.getPriceDetails product._id (fetchOfferPrices_initialFilters product)) with
      | .ok _ =>
        .request (.getPriceDetails product._id (fetchOfferPrices_initialFilters product)) ::
          pricingEvents env
            (history ++ [.getPriceDetails product._id (fetchOfferPrices_initialFilters product)])
            offers
      | .error err =>
        .request (.getPriceDetails product._id (fetchOfferPrices_initialFilters product)) ::
          .consoleError
            ("Error fetching price details for product " ++ product._id ++ ": " ++
              err.message) ::
          pricingEvents env
            (history ++ [.getPriceDetails product._id (fetchOfferPrices_initialFilters product)])
            offers

end TodaysOffers

/-! ## Specification vocabulary for the default filter selection -/

/-- The first value of a filter definition, when its values sequence is present
and non-empty. -/
def ProductFilter.firstValue (filter : ProductFilter) : Option String :=
  match filter.values with
  | some (first :: _) => some first
  | _ => none

/-- The filter definitions of a product, none counting as the empty sequence. -/
def Product.filterList (product : Product) : List ProductFilter :=
  product.filters.getD []

/-! ## Scenario data -/

/-- A second product, a hat, with one filter. -/
def hat : Product :=
  { _id := "7", name := some "Hat", category := some "Headwear", brand := some "Acme",
    images := [], price := none,
    filters := some [{ name := "size", values := some ["M", "L"] }],
    displayPrice := none, originalPrice := none, discount := none }

/-- A server that answers every collection call with the collection hat, shoe,
every pricing lookup with the prices 150 and 200, and refuses banner calls. -/
def scenarioServer : List Request → (request : Request) → Except NetError request.Payload
  | _, .getHomepage =>
    .ok { featuredProducts := [hat, shoe], todayOffers := [hat, shoe], banners := some [] }
  | _, .getProducts => .ok [shoe, hat]
  | _, .getPriceDetails _ _ => .ok { effectivePrice := some 150, normalPrice := some 200 }
  | _, .postFeatured _ _ _ => .ok [hat, shoe]
  | _, .postOffers _ _ _ => .ok [hat, shoe]
  | _, .postBanner _ _ => .error (.status "Forbidden" none "Forbidden")
  | _, .putBanner _ _ _ => .error (.status "Forbidden" none "Forbidden")
  | _, .deleteBanner _ _ => .error (.status "Forbidden" none "Forbidden")
  | _, .fetchImage _ => .error (.transport "Failed to fetch")

/-- A logged-in administrator who confirms every dialog, in front of
`scenarioServer`. -/
def adminEnv : Env :=
  { token := some "admin-token", confirm := fun _ => true, server := scenarioServer }

/-- The same surroundings with nobody logged in. -/
def anonymousEnv : Env :=
  { token := none, confirm := fun _ => true, server := scenarioServer }

/-- The featured screen showing the given collection over the shoe-and-hat
catalog. -/
def featuredShowing (featuredProducts : List Product) : FeaturedProducts.State :=
  { homepage := { featuredProducts := featuredProducts }, products := [shoe, hat],
    loading := false, error := none, searchQuery := "", searchResults := [] }

/-- The offers screen showing the given collection over the shoe-and-hat
catalog. -/
def offersShowing (todayOffers : List Product) : TodaysOffers.State :=
  { homepage := { todayOffers := todayOffers }, products := [shoe, hat],
    loading := false, error := none, offersSearchQuery := "", offersSearchResults := [] }

/-- A banner as the banner screen holds it after a load. -/
def saleBanner : Banner :=
  { _id := "b1", title := some "Sale", description := some "", image := none,
    searchProduct := none, extra := [] }

/-- The banner screen showing one banner, that banner selected and its title in
the form. -/
def bannersShowing : BannerDashboard.State :=
  { banners := [saleBanner], products := [shoe, hat], loading := false, error := "",
    success := "", showCreateModal := false, showEditModal := false,
    showProductModal := false, selectedBanner := some saleBanner,
    formData := { title := "Sale", description := "", image := none, imagePreview := "" },
    productSearch := "", filteredProducts := [], selectedProduct := some shoe,
    submitting := false, refreshing := false }

/-- A server whose collection endpoints are down (status 500) while the reads
work: the homepage document holds the hat alone. -/
def outageServer : List Request → (request : Request) → Except NetError request.Payload
  | _, .getHomepage =>
    .ok { featuredProducts := [hat], todayOffers := [hat], banners := some [] }
  | _, .getProducts => .ok [shoe, hat]
  | _, .getPriceDetails _ _ => .ok { effectivePrice := some 150, normalPrice := some 200 }
  | _, .postFeatured _ _ _ =>
    .error (.status "Request failed with status code 500" (some "Database unavailable") "")
  | _, .postOffers _ _ _ =>
    .error (.status "Request failed with status code 500" (some "Database unavailable") "")
  | _, .postBanner _ _ => .error (.status "Forbidden" none "Forbidden")
  | _, .putBanner _ _ _ => .error (.status "Forbidden" none "Forbidden")
  | _, .deleteBanner _ _ => .error (.status "Forbidden" none "Forbidden")
  | _, .fetchImage _ => .error (.transport "Failed to fetch")

/-- A logged-in administrator in front of `outageServer`. -/
def outageEnv : Env :=
  { token := some "admin-token", confirm := fun _ => true, server := outageServer }

/-- The shoe as a server might send it: with a `displayPrice` and nothing else
of the pricing decoration. -/
def staleShoe : Product := { shoe with displayPrice := some 10 }

/-- A server that answers the offers calls with the stale shoe. -/
def staleServer : List Request → (request : Request) → Except NetError request.Payload
  | _, .postOffers _ _ _ => .ok [staleShoe]
  | history, request => scenarioServer history request

/-- A logged-in administrator in front of `staleServer`. -/
def staleEnv : Env :=
  { token := some "admin-token", confirm := fun _ => true, server := staleServer }

/-- The failure `outageServer` answers the collection calls with. -/
def outageError : NetError :=
  .status "Request failed with status code 500" (some "Database unavailable") ""

/-- The homepage document `outageServer` holds. -/
def outageHomepage : HomepageDoc :=
  { featuredProducts := [hat], todayOffers := [hat], banners := some [] }

/-- The shoe with two filter definitions of the same name. -/
def twoSizes : Product :=
  { shoe with filters := some [{ name := "size", values := some ["M"] },
                               { name := "size", values := some ["L"] }] }

/-- The shoe with a filter definition without values and a later one of the
same name with values. -/
def lateSize : Product :=
  { shoe with filters := some [{ name := "size", values := some [] },
                               { name := "size", values := some ["L"] }] }

/-- The shoe with three filter definitions of distinct names, the second without
values. -/
def threeFilters : Product :=
  { shoe with filters := some [{ name := "size", values := some ["M", "L"] },
                               { name := "colour", values := none },
                               { name := "width", values := some ["wide"] }] }

/-- A logged-in administrator who declines every confirmation dialog. -/
def decliningEnv : Env :=
  { token := some "admin-token", confirm := fun _ => false, server := scenarioServer }

/-- A banner as the server sends it: no description, an empty image. -/
def rawBanner : Banner :=
  { _id := "b2", title := some "New", description := none, image := some "",
    searchProduct := none, extra := [("createdAt", "2024-01-01")] }

/-- A server that accepts the banner calls; its homepage document holds
`rawBanner`. -/
def bannerServer : List Request → (request : Request) → Except NetError request.Payload
  | _, .getHomepage =>
    .ok { featuredProducts := [], todayOffers := [], banners := some [rawBanner] }
  | _, .postBanner _ _ => .ok rawBanner
  | _, .putBanner _ _ _ => .ok rawBanner
  | _, .deleteBanner _ _ => .ok ()
  | history, request => scenarioServer history request

/-- A logged-in administrator in front of `bannerServer`. -/
def bannerEnv : Env :=
  { token := some "admin-token", confirm := fun _ => true, server := bannerServer }

/-- A server that accepts the banner calls and fails to deliver the homepage
document. -/
def reloadDownServer : List Request → (request : Request) → Except NetError request.Payload
  | _, .getHomepage => .error (.status "Service Unavailable" none "")
  | history, request => bannerServer history request

/-- A logged-in administrator in front of `reloadDownServer`. -/
def reloadDownEnv : Env :=
  { token := some "admin-token", confirm := fun _ => true, server := reloadDownServer }

/-- A file of exactly 5 MB. -/
def fiveMegabytes : File := { name := "banner.png", size := 5 * 1024 * 1024 }

/-- A file of 2 MB. -/
def twoMegabytes : File := { name := "small.png", size := 2 * 1024 * 1024 }

/-- A stand-in for `URL.createObjectURL`. -/
def objectUrl (file : File) : String := "blob:" ++ file.name

/-- The featured screen as a failed first load leaves it: nothing loaded, the
error recorded. -/
def featuredFailed : FeaturedProducts.State :=
  { homepage := { featuredProducts := [] }, products := [], loading := false,
    error := some "Network Error", searchQuery := "", searchResults := [] }

/-- The offers screen as a failed first load leaves it. -/
def offersFailed : TodaysOffers.State :=
  { homepage := { todayOffers := [] }, products := [], loading := false,
    error := some "Network Error", offersSearchQuery := "", offersSearchResults := [] }

/-- A banner with a hosted image and two further fields of the document. -/
def photoBanner : Banner :=
  { _id := "b3", title := some "Spring", description := some "Fresh arrivals",
    image := some "https://cdn.example/spring.png", searchProduct := none,
    extra := [("createdAt", "2023-12-01"), ("position", "2")] }

/-- The banner screen showing two banners, the second one selected in the
product dialog with the shoe picked. -/
def photoShowing : BannerDashboard.State :=
  { bannersShowing with banners := [saleBanner, photoBanner], selectedBanner := some photoBanner }

/-- A server on which the pricing lookup is down while everything else works. -/
def priceDownServer : List Request → (request : Request) → Except NetError request.Payload
  | _, .getPriceDetails _ _ => .error (.transport "Network Error")
  | history, request => scenarioServer history request

/-- A logged-in administrator in front of `priceDownServer`. -/
def priceDownEnv : Env :=
  { token := some "admin-token", confirm := fun _ => true, server := priceDownServer }

/-! # Properties -/

/-! ## Lemmas on the built-ins -/

theorem Js.includesChars_iff (cs t : List Char) :
    Js.includesChars cs t = true ↔ t <:+: cs := by
  induction cs with
  | nil => simp [Js.includesChars, List.isEmpty_iff]
  | cons c cs ih =>
    simp only [Js.includesChars, Bool.or_eq_true, ih, List.infix_cons_iff,
      List.isPrefixOf_iff_prefix]

theorem Js.includes_iff (s t : String) : Js.includes s t = true ↔ t.data <:+: s.data :=
  Js.includesChars_iff s.data t.data

/-! ## Lemmas on the search -/

theorem fieldIncludesOpt_eq (toLowerCase : String → String) (field : Option String)
    (query : String) :
    fieldIncludesOpt toLowerCase field query = decide (FieldContains toLowerCase field query) := by
  cases field with
  | none => simp [fieldIncludesOpt, FieldContains]
  | some v =>
    simp only [fieldIncludesOpt, FieldContains, Option.some.injEq, exists_eq_left']
    rw [Bool.eq_iff_iff, Js.includes_iff]
    simp

theorem fieldIncludes_ok (toLowerCase : String → String) (field : Option String)
    (query : String) (b : Bool) (h : fieldIncludes toLowerCase field query = .ok b) :
    b = decide (FieldContains toLowerCase field query) := by
  cases field with
  | none => simp [fieldIncludes] at h
  | some v =>
    simp only [fieldIncludes, Except.ok.injEq] at h
    rw [← h, ← fieldIncludesOpt_eq]
    rfl

theorem fieldIncludes_some (toLowerCase : String → String) (field : Option String)
    (query : String) (h : field.isSome = true) :
    fieldIncludes toLowerCase field query =
      .ok (decide (FieldContains toLowerCase field query)) := by
  cases field with
  | none => simp at h
  | some v =>
    rw [← fieldIncludesOpt_eq]
    rfl

/-- Whenever the filter callback returns, it returns whether the product matches. -/
theorem productMatches_ok (toLowerCase : String → String) (query : String) (product : Product)
    (b : Bool) (h : productMatches toLowerCase query product = .ok b) :
    b = decide (Matches toLowerCase query product) := by
  unfold productMatches at h
  unfold Matches
  split at h
  · cases h
  · next h1 =>
    have := fieldIncludes_ok _ _ _ _ h1
    simp only [Except.ok.injEq] at h
    subst h
    simp only [true_eq_decide_iff] at this
    simp [this]
  · next h1 =>
    have n := fieldIncludes_ok _ _ _ _ h1
    simp only [false_eq_decide_iff] at n
    split at h
    · cases h
    · next h2 =>
      have := fieldIncludes_ok _ _ _ _ h2
      simp only [Except.ok.injEq] at h
      subst h
      simp only [true_eq_decide_iff] at this
      simp [this]
    · next h2 =>
      have c := fieldIncludes_ok _ _ _ _ h2
      simp only [false_eq_decide_iff] at c
      have := fieldIncludes_ok _ _ _ _ h
      rw [this]
      simp [n, c]

/-- On a product that carries the three fields the filter callback returns. -/
theorem productMatches_total (toLowerCase : String → String) (query : String)
    (product : Product) (h : HasSearchFields product) :
    productMatches toLowerCase query product =
      .ok (decide (Matches toLowerCase query product)) := by
  obtain ⟨hn, hc, hb⟩ := h
  have key : ∃ b, productMatches toLowerCase query product = .ok b := by
    unfold productMatches
    rw [fieldIncludes_some _ _ _ hn, fieldIncludes_some _ _ _ hc, fieldIncludes_some _ _ _ hb]
    by_cases h1 : FieldContains toLowerCase product.name query
    · simp [h1]
    · by_cases h2 : FieldContains toLowerCase product.category query
      · simp [h1, h2]
      · simp [h1, h2]
  obtain ⟨b, hb'⟩ := key
  rw [hb', productMatches_ok _ _ _ _ hb']

theorem filterE_ok {α ε : Type} (f : α → Except ε Bool) (p : α → Bool) :
    ∀ (xs r : List α), (∀ x ∈ xs, ∀ b, f x = .ok b → b = p x) →
      filterE f xs = .ok r → r = xs.filter p
  | [], r, _, h => by
    simp only [filterE, Except.ok.injEq] at h
    simp [← h]
  | x :: xs, r, hf, h => by
    unfold filterE at h
    split at h
    · cases h
    · next b hb =>
      split at h
      · cases h
      · next r' hr =>
        have ih := filterE_ok f p xs r' (fun y hy => hf y (List.mem_cons_of_mem _ hy)) hr
        have hbx := hf x (List.mem_cons_self _ _) b hb
        simp only [Except.ok.injEq] at h
        subst h
        subst ih
        subst hbx
        cases hp : p x <;> simp [List.filter_cons, hp]

theorem filterE_total {α ε : Type} (f : α → Except ε Bool) (p : α → Bool) :
    ∀ (xs : List α), (∀ x ∈ xs, f x = .ok (p x)) → filterE f xs = .ok (xs.filter p)
  | [], _ => by simp [filterE]
  | x :: xs, hf => by
    have ih := filterE_total f p xs (fun y hy => hf y (List.mem_cons_of_mem _ hy))
    unfold filterE
    rw [hf x (List.mem_cons_self _ _), ih]
    cases hp : p x <;> simp [List.filter_cons, hp]

theorem Js.truthy_trim_iff (query : String) :
    Js.truthy (Js.trim query) = true ↔ Js.trim query ≠ "" := by
  unfold Js.truthy
  rw [← not_iff_not]
  simp only [Bool.not_eq_true', Bool.not_eq_false, List.isEmpty_iff, ne_eq, not_not, Bool.not_eq_true,
    Bool.not_eq_eq_eq_not, Bool.not_true]
  constructor
  · intro h; exact String.ext h
  · intro h; rw [h]

/-- The banner screen's search is the filter by `Matches`, on every catalog. -/
theorem banner_searchProducts_eq (toLowerCase : String → String)
    (products : List Product) (query : String) (h : Js.trim query ≠ "") :
    BannerDashboard.searchProducts toLowerCase products query =
      products.filter (fun p => decide (Matches toLowerCase query p)) := by
  unfold BannerDashboard.searchProducts
  rw [if_pos ((Js.truthy_trim_iff query).2 h)]
  congr 1
  funext p
  simp only [fieldIncludesOpt_eq, Matches]
  simp [Bool.decide_or, Bool.or_assoc]

theorem filterE_sublist {α ε : Type} (f : α → Except ε Bool) :
    ∀ (xs r : List α), filterE f xs = .ok r → r.Sublist xs
  | [], r, h => by
    simp only [filterE, Except.ok.injEq] at h
    simp [← h]
  | x :: xs, r, h => by
    unfold filterE at h
    split at h
    · cases h
    · next b hb =>
      split at h
      · cases h
      · next r' hr =>
        have ih := filterE_sublist f xs r' hr
        simp only [Except.ok.injEq] at h
        subst h
        cases b
        · exact List.Sublist.cons x ih
        · exact List.Sublist.cons₂ x ih

theorem Js.truthy_trim_false (query : String) (h : Js.trim query = "") :
    Js.truthy (Js.trim query) = false := by
  rw [h]; rfl

/-- The featured screen's search on a catalog of complete products. -/
theorem featured_searchProducts_eq (toLowerCase : String → String)
    (products : List Product) (query : String) (hfields : ∀ p ∈ products, HasSearchFields p)
    (hquery : Js.trim query ≠ "") :
    FeaturedProducts.searchProducts toLowerCase products query =
      .ok (products.filter (fun p => decide (Matches toLowerCase query p))) := by
  unfold FeaturedProducts.searchProducts
  rw [if_pos ((Js.truthy_trim_iff query).2 hquery)]
  exact filterE_total _ _ products (fun p hp => productMatches_total _ _ p (hfields p hp))

/-- The offers screen's search on a catalog of complete products. -/
theorem offers_searchProducts_eq (toLowerCase : String → String)
    (products : List Product) (query : String) (hfields : ∀ p ∈ products, HasSearchFields p)
    (hquery : Js.trim query ≠ "") :
    TodaysOffers.searchProducts toLowerCase products query =
      .ok (products.filter (fun p => decide (Matches toLowerCase query p))) := by
  unfold TodaysOffers.searchProducts
  rw [if_pos ((Js.truthy_trim_iff query).2 hquery)]
  exact filterE_total _ _ products (fun p hp => productMatches_total _ _ p (hfields p hp))

/-- The blank-query branch of the three searches. -/
theorem searchProducts_of_blank (toLowerCase : String → String) (products : List Product)
    (query : String) (hquery : Js.trim query = "") :
    FeaturedProducts.searchProducts toLowerCase products query = .ok [] ∧
      TodaysOffers.searchProducts toLowerCase products query = .ok [] ∧
      BannerDashboard.searchProducts toLowerCase products query = [] := by
  have h := Js.truthy_trim_false query hquery
  simp [FeaturedProducts.searchProducts, TodaysOffers.searchProducts,
    BannerDashboard.searchProducts, h]

/-! ## The search (C1 - C4) -/

/-- C1: on a catalog whose products all carry a string name, category and brand,
and for a query whose trim is non-empty, `searchProducts` returns on each of the
three screens exactly the products that contain the lower-cased query in their
lower-cased name, category or brand. -/
theorem searchProducts_exact (toLowerCase : String → String) (products : List Product)
    (query : String) (hfields : ∀ p ∈ products, HasSearchFields p)
    (hquery : Js.trim query ≠ "") :
    FeaturedProducts.searchProducts toLowerCase products query =
        .ok (products.filter (fun p => decide (Matches toLowerCase query p))) ∧
      TodaysOffers.searchProducts toLowerCase products query =
        .ok (products.filter (fun p => decide (Matches toLowerCase query p))) ∧
      BannerDashboard.searchProducts toLowerCase products query =
        products.filter (fun p => decide (Matches toLowerCase query p)) := by
  exact ⟨featured_searchProducts_eq _ _ _ hfields hquery,
    offers_searchProducts_eq _ _ _ hfields hquery,
    banner_searchProducts_eq _ _ _ hquery⟩

/-- The search scenario on the shoe catalog, query "sho". -/
theorem searchProducts_exact_witness :
    (∀ p ∈ shoeCatalog, HasSearchFields p) ∧ Js.trim "sho" ≠ "" ∧
      (FeaturedProducts.searchProducts Js.asciiToLowerCase shoeCatalog "sho" =
          .ok (shoeCatalog.filter (fun p => decide (Matches Js.asciiToLowerCase "sho" p))) ∧
        TodaysOffers.searchProducts Js.asciiToLowerCase shoeCatalog "sho" =
          .ok (shoeCatalog.filter (fun p => decide (Matches Js.asciiToLowerCase "sho" p))) ∧
        BannerDashboard.searchProducts Js.asciiToLowerCase shoeCatalog "sho" =
          shoeCatalog.filter (fun p => decide (Matches Js.asciiToLowerCase "sho" p))) :=
  ⟨by decide, by decide,
    searchProducts_exact Js.asciiToLowerCase shoeCatalog "sho" (by decide) (by decide)⟩

/-- The three queries of the search scenario, evaluated on every screen. -/
theorem searchProducts_scenario :
    FeaturedProducts.searchProducts Js.asciiToLowerCase shoeCatalog "sho" = .ok [shoe] ∧
      FeaturedProducts.searchProducts Js.asciiToLowerCase shoeCatalog "xyz" = .ok [] ∧
      FeaturedProducts.searchProducts Js.asciiToLowerCase shoeCatalog "" = .ok [] ∧
      TodaysOffers.searchProducts Js.asciiToLowerCase shoeCatalog "sho" = .ok [shoe] ∧
      TodaysOffers.searchProducts Js.asciiToLowerCase shoeCatalog "xyz" = .ok [] ∧
      TodaysOffers.searchProducts Js.asciiToLowerCase shoeCatalog "" = .ok [] ∧
      BannerDashboard.searchProducts Js.asciiToLowerCase shoeCatalog "sho" = [shoe] ∧
      BannerDashboard.searchProducts Js.asciiToLowerCase shoeCatalog "xyz" = [] ∧
      BannerDashboard.searchProducts Js.asciiToLowerCase shoeCatalog "" = [] := by
  decide

/-- C2: a query whose trim is empty (empty or white space only) yields the empty
list on all three screens, whatever the catalog holds. -/
theorem searchProducts_blank (toLowerCase : String → String) (products : List Product)
    (query : String) (hquery : Js.trim query = "") :
    FeaturedProducts.searchProducts toLowerCase products query = .ok [] ∧
      TodaysOffers.searchProducts toLowerCase products query = .ok [] ∧
      BannerDashboard.searchProducts toLowerCase products query = [] :=
  searchProducts_of_blank toLowerCase products query hquery

/-- A query of blanks and a tab on the shoe catalog. -/
theorem searchProducts_blank_witness :
    Js.trim "  \t " = "" ∧
      (FeaturedProducts.searchProducts Js.asciiToLowerCase shoeCatalog "  \t " = .ok [] ∧
        TodaysOffers.searchProducts Js.asciiToLowerCase shoeCatalog "  \t " = .ok [] ∧
        BannerDashboard.searchProducts Js.asciiToLowerCase shoeCatalog "  \t " = []) :=
  ⟨by decide, searchProducts_blank Js.asciiToLowerCase shoeCatalog "  \t " (by decide)⟩

/-- C3 as stated fails: the query " " has length 1, the search returns nothing
on every screen, and yet the product "Red Shoe", which is not in the result,
contains the query in its name. -/
theorem searchProducts_whitespace_counterexample :
    " ".length > 0 ∧
      FeaturedProducts.searchProducts Js.asciiToLowerCase redShoeCatalog " " = .ok [] ∧
      TodaysOffers.searchProducts Js.asciiToLowerCase redShoeCatalog " " = .ok [] ∧
      BannerDashboard.searchProducts Js.asciiToLowerCase redShoeCatalog " " = [] ∧
      ∃ p ∈ redShoeCatalog, p ∉ ([] : List Product) ∧ Matches Js.asciiToLowerCase " " p := by
  decide

/-- C3, amended: for every query whose trim is non-empty and every catalog, every
element of a search result matches the query in its name, category or brand, and
every catalog element left out matches in none of them. The banner screen always
returns; the other two return whenever every product carries the three fields. -/
theorem searchProducts_sound_complete (toLowerCase : String → String)
    (products : List Product) (query : String) (hquery : Js.trim query ≠ "") :
    (∀ r, FeaturedProducts.searchProducts toLowerCase products query = .ok r →
        (∀ p ∈ r, Matches toLowerCase query p) ∧
        (∀ p ∈ products, p ∉ r → ¬ Matches toLowerCase query p)) ∧
      (∀ r, TodaysOffers.searchProducts toLowerCase products query = .ok r →
        (∀ p ∈ r, Matches toLowerCase query p) ∧
        (∀ p ∈ products, p ∉ r → ¬ Matches toLowerCase query p)) ∧
      ((∀ p ∈ BannerDashboard.searchProducts toLowerCase products query,
          Matches toLowerCase query p) ∧
        (∀ p ∈ products, p ∉ BannerDashboard.searchProducts toLowerCase products query →
          ¬ Matches toLowerCase query p)) ∧
      ((∀ p ∈ products, HasSearchFields p) →
        ∃ r, FeaturedProducts.searchProducts toLowerCase products query = .ok r ∧
          TodaysOffers.searchProducts toLowerCase products query = .ok r) := by
  have key : ∀ r : List Product,
      r = products.filter (fun p => decide (Matches toLowerCase query p)) →
      (∀ p ∈ r, Matches toLowerCase query p) ∧
        (∀ p ∈ products, p ∉ r → ¬ Matches toLowerCase query p) := by
    intro r hr
    subst hr
    constructor
    · intro p hp
      simpa using (List.mem_filter.1 hp).2
    · intro p hp hnot hm
      exact hnot (List.mem_filter.2 ⟨hp, by simpa using hm⟩)
  have hcb : ∀ r, filterE (productMatches toLowerCase query) products = .ok r →
      r = products.filter (fun p => decide (Matches toLowerCase query p)) :=
    fun r h => filterE_ok _ _ products r (fun p _ b hb => productMatches_ok _ _ p b hb) h
  have ht := (Js.truthy_trim_iff query).2 hquery
  refine ⟨?_, ?_, ?_, ?_⟩
  · intro r h
    unfold FeaturedProducts.searchProducts at h
    rw [if_pos ht] at h
    exact key r (hcb r h)
  · intro r h
    unfold TodaysOffers.searchProducts at h
    rw [if_pos ht] at h
    exact key r (hcb r h)
  · exact key _ (banner_searchProducts_eq _ _ _ hquery)
  · intro hfields
    exact ⟨_, featured_searchProducts_eq _ _ _ hfields hquery,
      offers_searchProducts_eq _ _ _ hfields hquery⟩

/-- The amended C3 on the catalog shoe, hat and the query "sho": the featured
screen returns the shoe, which matches, and leaves out the hat, which does not;
the other screens agree. -/
theorem searchProducts_sound_complete_witness :
    Js.trim "sho" ≠ "" ∧
      FeaturedProducts.searchProducts Js.asciiToLowerCase [shoe, hat] "sho" = .ok [shoe] ∧
      ((∀ p ∈ [shoe], Matches Js.asciiToLowerCase "sho" p) ∧
        (∀ p ∈ [shoe, hat], p ∉ [shoe] → ¬ Matches Js.asciiToLowerCase "sho" p)) ∧
      TodaysOffers.searchProducts Js.asciiToLowerCase [shoe, hat] "sho" = .ok [shoe] ∧
      ((∀ p ∈ [shoe], Matches Js.asciiToLowerCase "sho" p) ∧
        (∀ p ∈ [shoe, hat], p ∉ [shoe] → ¬ Matches Js.asciiToLowerCase "sho" p)) ∧
      (∀ p ∈ BannerDashboard.searchProducts Js.asciiToLowerCase [shoe, hat] "sho",
        Matches Js.asciiToLowerCase "sho" p) ∧
      (∀ p ∈ [shoe, hat], HasSearchFields p) ∧
      ∃ r, FeaturedProducts.searchProducts Js.asciiToLowerCase [shoe, hat] "sho" = .ok r ∧
        TodaysOffers.searchProducts Js.asciiToLowerCase [shoe, hat] "sho" = .ok r :=
  ⟨by decide, by decide,
    (searchProducts_sound_complete Js.asciiToLowerCase [shoe, hat] "sho" (by decide)).1
      [shoe] (by decide),
    by decide,
    (searchProducts_sound_complete Js.asciiToLowerCase [shoe, hat] "sho" (by decide)).2.1
      [shoe] (by decide),
    (searchProducts_sound_complete Js.asciiToLowerCase [shoe, hat] "sho" (by decide)).2.2.1.1,
    by decide,
    (searchProducts_sound_complete Js.asciiToLowerCase [shoe, hat] "sho" (by decide)).2.2.2
      (by decide)⟩

/-- C4: for every query and catalog the search result is a sublist of the
catalog, so results keep catalog order and no entry is repeated. The banner
screen always returns; the other two return whenever every product carries the
three fields. -/
theorem searchProducts_sublist (toLowerCase : String → String) (products : List Product)
    (query : String) :
    (BannerDashboard.searchProducts toLowerCase products query).Sublist products ∧
      (∀ r, FeaturedProducts.searchProducts toLowerCase products query = .ok r →
        r.Sublist products) ∧
      (∀ r, TodaysOffers.searchProducts toLowerCase products query = .ok r →
        r.Sublist products) ∧
      ((∀ p ∈ products, HasSearchFields p) →
        ∃ r, FeaturedProducts.searchProducts toLowerCase products query = .ok r ∧
          TodaysOffers.searchProducts toLowerCase products query = .ok r ∧
          r.Sublist products) := by
  have hF : ∀ r, FeaturedProducts.searchProducts toLowerCase products query = .ok r →
      r.Sublist products := by
    intro r h
    unfold FeaturedProducts.searchProducts at h
    split at h
    · exact filterE_sublist _ _ _ h
    · simp only [Except.ok.injEq] at h
      simp [← h]
  refine ⟨?_, hF, ?_, ?_⟩
  · unfold BannerDashboard.searchProducts
    split
    · exact List.filter_sublist _
    · simp
  · intro r h
    unfold TodaysOffers.searchProducts at h
    split at h
    · exact filterE_sublist _ _ _ h
    · simp only [Except.ok.injEq] at h
      simp [← h]
  · intro hfields
    by_cases hq : Js.trim query = ""
    · have h := searchProducts_of_blank toLowerCase products query hq
      exact ⟨[], h.1, h.2.1, by simp⟩
    · have h := featured_searchProducts_eq toLowerCase products query hfields hq
      exact ⟨_, h, offers_searchProducts_eq toLowerCase products query hfields hq,
        hF _ h⟩

/-- The sublist property on the catalog shoe, hat and the query "a", which the
hat matches by name and both match by brand. -/
theorem searchProducts_sublist_witness :
    FeaturedProducts.searchProducts Js.asciiToLowerCase [shoe, hat] "a" = .ok [shoe, hat] ∧
      [shoe, hat].Sublist [shoe, hat] ∧
      TodaysOffers.searchProducts Js.asciiToLowerCase [shoe, hat] "a" = .ok [shoe, hat] ∧
      [shoe, hat].Sublist [shoe, hat] ∧
      (∀ p ∈ [shoe, hat], HasSearchFields p) ∧
      ∃ r, FeaturedProducts.searchProducts Js.asciiToLowerCase [shoe, hat] "a" = .ok r ∧
        TodaysOffers.searchProducts Js.asciiToLowerCase [shoe, hat] "a" = .ok r ∧
        r.Sublist [shoe, hat] :=
  ⟨by decide,
    (searchProducts_sublist Js.asciiToLowerCase [shoe, hat] "a").2.1 [shoe, hat] (by decide),
    by decide,
    (searchProducts_sublist Js.asciiToLowerCase [shoe, hat] "a").2.2.1 [shoe, hat] (by decide),
    by decide,
    (searchProducts_sublist Js.asciiToLowerCase [shoe, hat] "a").2.2.2 (by decide)⟩

/-! ## Pricing decoration (C5, C6) -/

/-- C5: for every pricing response over exact numbers, the decorated offer of
`fetchOfferPrices` and the element appended by `addToOffers` have
`displayPrice` = `effectivePrice` (0 when missing), `originalPrice` =
`normalPrice` (0 when missing), and `discount` equal to the rounded percentage
when `originalPrice > displayPrice > 0` and to 0 in every other case. -/
theorem pricing_decoration (product : Product) (priceDetails : PriceDetails) :
    ((TodaysOffers.fetchOfferPrices_priced product priceDetails).displayPrice =
        some (priceDetails.effectivePrice.getD 0) ∧
      (TodaysOffers.fetchOfferPrices_priced product priceDetails).originalPrice =
        some (priceDetails.normalPrice.getD 0) ∧
      (TodaysOffers.fetchOfferPrices_priced product priceDetails).discount =
        some (if priceDetails.normalPrice.getD 0 > priceDetails.effectivePrice.getD 0 ∧
                priceDetails.effectivePrice.getD 0 > 0 then
            (Js.mathRound ((priceDetails.normalPrice.getD 0 - priceDetails.effectivePrice.getD 0) /
              priceDetails.normalPrice.getD 0 * 100) : ℚ)
          else 0)) ∧
    ((TodaysOffers.addToOffers_priced product priceDetails).displayPrice =
        some (priceDetails.effectivePrice.getD 0) ∧
      (TodaysOffers.addToOffers_priced product priceDetails).originalPrice =
        some (priceDetails.normalPrice.getD 0) ∧
      (TodaysOffers.addToOffers_priced product priceDetails).discount =
        some (if priceDetails.normalPrice.getD 0 > priceDetails.effectivePrice.getD 0 ∧
                priceDetails.effectivePrice.getD 0 > 0 then
            (Js.mathRound ((priceDetails.normalPrice.getD 0 - priceDetails.effectivePrice.getD 0) /
              priceDetails.normalPrice.getD 0 * 100) : ℚ)
          else 0)) := by
  obtain ⟨e, n⟩ := priceDetails
  cases e with
  | none =>
    cases n <;>
      simp [TodaysOffers.fetchOfferPrices_priced, TodaysOffers.addToOffers_priced,
        TodaysOffers.fetchOfferPrices_discount, TodaysOffers.addToOffers_discount, Js.orZero]
  | some e =>
    cases n with
    | none =>
      simp only [TodaysOffers.fetchOfferPrices_priced, TodaysOffers.addToOffers_priced,
        TodaysOffers.fetchOfferPrices_discount, TodaysOffers.addToOffers_discount, Js.orZero,
        Option.getD_some, Option.getD_none, true_and, Option.some.injEq]
      have h : ¬ ((0 : ℚ) > e ∧ e > 0) := fun h => lt_asymm h.1 h.2
      simp [h]
    | some n =>
      simp [TodaysOffers.fetchOfferPrices_priced, TodaysOffers.addToOffers_priced,
        TodaysOffers.fetchOfferPrices_discount, TodaysOffers.addToOffers_discount, Js.orZero]

/-- The pricing scenario: `normalPrice` 200 and `effectivePrice` 150 give
`displayPrice` 150, `originalPrice` 200 and `discount` 25, on both paths. -/
theorem pricing_scenario :
    (TodaysOffers.fetchOfferPrices_priced shoe
        { effectivePrice := some 150, normalPrice := some 200 }) =
      { shoe with displayPrice := some 150, originalPrice := some 200, discount := some 25 } ∧
    (TodaysOffers.addToOffers_priced shoe
        { effectivePrice := some 150, normalPrice := some 200 }) =
      { shoe with displayPrice := some 150, originalPrice := some 200, discount := some 25 } := by
  norm_num [TodaysOffers.fetchOfferPrices_priced, TodaysOffers.addToOffers_priced,
    TodaysOffers.fetchOfferPrices_discount, TodaysOffers.addToOffers_discount, Js.orZero,
    Js.mathRound]

/-- C6 as stated fails: for `normalPrice` 100 and `effectivePrice` -50 the
decorated offer has `originalPrice` 100 > `displayPrice` -50 with `displayPrice`
not 0, so the claim asks for the rounded percentage, 150, while the code sets
`discount` to 0. -/
theorem discount_negative_counterexample :
    (TodaysOffers.fetchOfferPrices_priced shoe
        { effectivePrice := some (-50), normalPrice := some 100 }).displayPrice = some (-50) ∧
      (TodaysOffers.fetchOfferPrices_priced shoe
        { effectivePrice := some (-50), normalPrice := some 100 }).originalPrice = some 100 ∧
      (TodaysOffers.fetchOfferPrices_priced shoe
        { effectivePrice := some (-50), normalPrice := some 100 }).discount = some 0 ∧
      ¬ ((100 : ℚ) ≤ -50 ∨ (-50 : ℚ) = 0) ∧
      Js.mathRound (((100 : ℚ) - (-50)) / 100 * 100) = 150 := by
  norm_num [TodaysOffers.fetchOfferPrices_priced, TodaysOffers.fetchOfferPrices_discount,
    Js.orZero, Js.mathRound]

/-- C6, amended: for every numeric pricing response, the decorated offer of
`fetchOfferPrices` carries the two prices of the response, its `discount` is 0
whenever `originalPrice <= displayPrice` or `displayPrice <= 0`, and in every
other case it is the rounded percentage. -/
theorem discount_invariant (product : Product) (effectivePrice normalPrice : ℚ) :
    (TodaysOffers.fetchOfferPrices_priced product
        { effectivePrice := some effectivePrice, normalPrice := some normalPrice }).displayPrice =
      some effectivePrice ∧
    (TodaysOffers.fetchOfferPrices_priced product
        { effectivePrice := some effectivePrice, normalPrice := some normalPrice }).originalPrice =
      some normalPrice ∧
    ((normalPrice ≤ effectivePrice ∨ effectivePrice ≤ 0) →
      (TodaysOffers.fetchOfferPrices_priced product
        { effectivePrice := some effectivePrice, normalPrice := some normalPrice }).discount =
      some 0) ∧
    (¬ (normalPrice ≤ effectivePrice ∨ effectivePrice ≤ 0) →
      (TodaysOffers.fetchOfferPrices_priced product
        { effectivePrice := some effectivePrice, normalPrice := some normalPrice }).discount =
      some (Js.mathRound ((normalPrice - effectivePrice) / normalPrice * 100) : ℚ)) := by
  refine ⟨rfl, rfl, ?_, ?_⟩
  · intro h
    have hc : ¬ (normalPrice > effectivePrice ∧ effectivePrice > 0) := by
      rintro ⟨h1, h2⟩
      rcases h with h | h
      · exact absurd h1 (not_lt.2 h)
      · exact absurd h2 (not_lt.2 h)
    simp [TodaysOffers.fetchOfferPrices_priced, TodaysOffers.fetchOfferPrices_discount, hc]
  · intro h
    have hc : normalPrice > effectivePrice ∧ effectivePrice > 0 := by
      constructor
      · exact not_le.1 (fun h' => h (Or.inl h'))
      · exact not_le.1 (fun h' => h (Or.inr h'))
    simp [TodaysOffers.fetchOfferPrices_priced, TodaysOffers.fetchOfferPrices_discount, hc]

/-- The amended C6 on the prices 150 and 200 (a discount) and 200 and 200 (none). -/
theorem discount_invariant_witness :
    ¬ ((200 : ℚ) ≤ 150 ∨ (150 : ℚ) ≤ 0) ∧
      (TodaysOffers.fetchOfferPrices_priced shoe
        { effectivePrice := some 150, normalPrice := some 200 }).discount =
      some (Js.mathRound (((200 : ℚ) - 150) / 200 * 100) : ℚ) ∧
    ((200 : ℚ) ≤ 200 ∨ (200 : ℚ) ≤ 0) ∧
      (TodaysOffers.fetchOfferPrices_priced shoe
        { effectivePrice := some 200, normalPrice := some 200 }).discount = some 0 :=
  ⟨by norm_num, (discount_invariant shoe 150 200).2.2.2 (by norm_num),
    by norm_num, (discount_invariant shoe 200 200).2.2.1 (by norm_num)⟩

/-! ## Lemmas on execution -/

theorem requestsOf_append (xs ys : List Event) :
    requestsOf (xs ++ ys) = requestsOf xs ++ requestsOf ys := by
  induction xs with
  | nil => rfl
  | cons e es ih => cases e <;> simp [requestsOf, ih]

/-- Execution only ever adds to the states shown at suspensions. -/
theorem Async.run_visible {σ : Type} (env : Env) (task : Async σ) :
    ∀ w : World σ, ∃ rest, (task.run env w).visible = w.visible ++ rest := by
  induction task with
  | done => intro w; exact ⟨[], by simp [Async.run]⟩
  | setState update next ih => intro w; simpa [Async.run] using ih _
  | getToken next ih => intro w; simpa [Async.run] using ih _ _
  | alert message next ih => intro w; simpa [Async.run] using ih _
  | confirm message next ih => intro w; simpa [Async.run] using ih _ _
  | consoleError message next ih => intro w; simpa [Async.run] using ih _
  | await request next ih =>
    intro w
    obtain ⟨rest, h⟩ := ih (env.server (requestsOf w.trace) request)
      { w with trace := w.trace ++ [.request request], visible := w.visible ++ [w.state] }
    exact ⟨w.state :: rest, by simp [Async.run, h]⟩
  | setTimeout delay callback next _ ih => intro w; simpa [Async.run] using ih _

theorem find_present (xs : List Product) (id : String) (h : ∃ x ∈ xs, x._id = id) :
    (xs.find? (fun p => p._id == id)).isNone = false := by
  rw [← Bool.not_eq_true, Option.isNone_iff_eq_none, ← ne_eq, Option.ne_none_iff_isSome,
    List.find?_isSome]
  obtain ⟨x, hx, hid⟩ := h
  exact ⟨x, hx, by simp [hid]⟩

theorem find_absent (xs : List Product) (id : String) (h : ∀ x ∈ xs, x._id ≠ id) :
    (xs.find? (fun p => p._id == id)).isNone = true := by
  rw [Option.isNone_iff_eq_none, List.find?_eq_none]
  intro x hx
  simp [h x hx]

/-- The guard of `addToFeatured`: a product already shown makes the call return
at once. -/
theorem addToFeatured_present (s : FeaturedProducts.State) (product : Product)
    (h : ∃ x ∈ s.homepage.featuredProducts, x._id = product._id) :
    FeaturedProducts.addToFeatured s product = .done := by
  simp [FeaturedProducts.addToFeatured, find_present _ _ h]

/-- The guard of `addToOffers`. -/
theorem addToOffers_present (s : TodaysOffers.State) (product : Product)
    (h : ∃ x ∈ s.homepage.todayOffers, x._id = product._id) :
    TodaysOffers.addToOffers s product = .done := by
  simp [TodaysOffers.addToOffers, find_present _ _ h]

theorem count_id_append_absent (xs : List Product) (product added : Product)
    (hid : added._id = product._id) (h : ∀ x ∈ xs, x._id ≠ product._id) :
    ((xs ++ [added]).map (fun p => p._id)).count product._id = 1 := by
  have h0 : (xs.map (fun p => p._id)).count product._id = 0 := by
    rw [List.count_eq_zero]
    intro hm
    obtain ⟨x, hx, hxid⟩ := List.mem_map.1 hm
    exact h x hx hxid
  simp [List.count_append, h0, hid]

/-! ## Adding to a collection (C7) -/

/-- C7: on both collection screens, an add call for a product whose id is
already in the local collection changes no state and performs no effect at all
(so no network request), and a collection without duplicate ids then holds
exactly one element of that id. In particular, with a token present and the
product absent, the state shown after the optimistic append of a first call
holds the appended product once, and a second call made in that state is such a
no-op (on the offers screen the append follows a successful pricing lookup). -/
theorem addItem_idempotent (env : Env) (product : Product) :
    (∀ s : FeaturedProducts.State,
        (s.homepage.featuredProducts.map (fun p => p._id)).Nodup →
        (∃ x ∈ s.homepage.featuredProducts, x._id = product._id) →
        ((FeaturedProducts.addToFeatured s product).exec env s).state = s ∧
          ((FeaturedProducts.addToFeatured s product).exec env s).trace = [] ∧
          (s.homepage.featuredProducts.map (fun p => p._id)).count product._id = 1) ∧
    (∀ s : TodaysOffers.State,
        (s.homepage.todayOffers.map (fun p => p._id)).Nodup →
        (∃ x ∈ s.homepage.todayOffers, x._id = product._id) →
        ((TodaysOffers.addToOffers s product).exec env s).state = s ∧
          ((TodaysOffers.addToOffers s product).exec env s).trace = [] ∧
          (s.homepage.todayOffers.map (fun p => p._id)).count product._id = 1) ∧
    (∀ (s : FeaturedProducts.State) (token : String),
        Js.nonEmpty? env.token = some token →
        (∀ x ∈ s.homepage.featuredProducts, x._id ≠ product._id) →
        ∃ s' rest,
          ((FeaturedProducts.addToFeatured s product).exec env s).visible = s' :: rest ∧
          s'.homepage.featuredProducts = s.homepage.featuredProducts ++ [product] ∧
          ((FeaturedProducts.addToFeatured s' product).exec env s').state = s' ∧
          ((FeaturedProducts.addToFeatured s' product).exec env s').trace = [] ∧
          (s'.homepage.featuredProducts.map (fun p => p._id)).count product._id = 1) ∧
    (∀ (s : TodaysOffers.State) (token : String) (priceDetails : PriceDetails),
        Js.nonEmpty? env.token = some token →
        (∀ x ∈ s.homepage.todayOffers, x._id ≠ product._id) →
        env.server [] (.getPriceDetails product._id
          (TodaysOffers.addToOffers_initialFilters product)) = .ok priceDetails →
        ∃ s' rest,
          ((TodaysOffers.addToOffers s product).exec env s).visible = s :: s' :: rest ∧
          s'.homepage.todayOffers =
            s.homepage.todayOffers ++ [TodaysOffers.addToOffers_priced product priceDetails] ∧
          ((TodaysOffers.addToOffers s' product).exec env s').state = s' ∧
          ((TodaysOffers.addToOffers s' product).exec env s').trace = [] ∧
          (s'.homepage.todayOffers.map (fun p => p._id)).count product._id = 1) := by
  refine ⟨?_, ?_, ?_, ?_⟩
  · intro s hnodup hpresent
    rw [addToFeatured_present s product hpresent]
    refine ⟨rfl, rfl, List.count_eq_one_of_mem hnodup ?_⟩
    obtain ⟨x, hx, hid⟩ := hpresent
    exact List.mem_map.2 ⟨x, hx, hid⟩
  · intro s hnodup hpresent
    rw [addToOffers_present s product hpresent]
    refine ⟨rfl, rfl, List.count_eq_one_of_mem hnodup ?_⟩
    obtain ⟨x, hx, hid⟩ := hpresent
    exact List.mem_map.2 ⟨x, hx, hid⟩
  · intro s token ht ha
    obtain ⟨rest, h⟩ : ∃ rest, ((FeaturedProducts.addToFeatured s product).exec env s).visible =
        { s with homepage := { s.homepage with
          featuredProducts := s.homepage.featuredProducts ++ [product] } } :: rest := by
      simp only [FeaturedProducts.addToFeatured, find_absent _ _ ha, if_true, Async.exec,
        Async.run, ht]
      exact Async.run_visible env _ _
    have hnoop := addToFeatured_present
      { s with homepage := { s.homepage with
          featuredProducts := s.homepage.featuredProducts ++ [product] } } product
      ⟨product, by simp, rfl⟩
    exact ⟨_, rest, h, rfl, by rw [hnoop]; rfl, by rw [hnoop]; rfl,
      count_id_append_absent _ product product rfl ha⟩
  · intro s token priceDetails ht ha hs
    obtain ⟨rest, h⟩ : ∃ rest, ((TodaysOffers.addToOffers s product).exec env s).visible =
        s :: { s with homepage := { s.homepage with
          todayOffers := s.homepage.todayOffers ++
            [TodaysOffers.addToOffers_priced product priceDetails] } } :: rest := by
      simp only [TodaysOffers.addToOffers, find_absent _ _ ha, if_true, Async.exec, Async.run,
        ht, List.nil_append, requestsOf, hs]
      exact Async.run_visible env _ _
    have hnoop := addToOffers_present
      { s with homepage := { s.homepage with
          todayOffers := s.homepage.todayOffers ++
            [TodaysOffers.addToOffers_priced product priceDetails] } } product
      ⟨TodaysOffers.addToOffers_priced product priceDetails, by simp, rfl⟩
    exact ⟨_, rest, h, rfl, by rw [hnoop]; rfl, by rw [hnoop]; rfl,
      count_id_append_absent _ product _ rfl ha⟩

/-- Idempotence on concrete screens: the shoe is added to collections that hold
it already, and twice in a row to collections that hold only the hat. -/
theorem addItem_idempotent_witness :
    (((featuredShowing [hat, shoe]).homepage.featuredProducts.map (fun p => p._id)).Nodup ∧
      (∃ x ∈ (featuredShowing [hat, shoe]).homepage.featuredProducts, x._id = shoe._id) ∧
      ((FeaturedProducts.addToFeatured (featuredShowing [hat, shoe]) shoe).exec adminEnv
          (featuredShowing [hat, shoe])).state = featuredShowing [hat, shoe] ∧
      ((FeaturedProducts.addToFeatured (featuredShowing [hat, shoe]) shoe).exec adminEnv
          (featuredShowing [hat, shoe])).trace = [] ∧
      ((featuredShowing [hat, shoe]).homepage.featuredProducts.map
          (fun p => p._id)).count shoe._id = 1) ∧
    (((offersShowing [hat, shoe]).homepage.todayOffers.map (fun p => p._id)).Nodup ∧
      (∃ x ∈ (offersShowing [hat, shoe]).homepage.todayOffers, x._id = shoe._id) ∧
      ((TodaysOffers.addToOffers (offersShowing [hat, shoe]) shoe).exec adminEnv
          (offersShowing [hat, shoe])).state = offersShowing [hat, shoe] ∧
      ((TodaysOffers.addToOffers (offersShowing [hat, shoe]) shoe).exec adminEnv
          (offersShowing [hat, shoe])).trace = [] ∧
      ((offersShowing [hat, shoe]).homepage.todayOffers.map
          (fun p => p._id)).count shoe._id = 1) ∧
    (Js.nonEmpty? adminEnv.token = some "admin-token" ∧
      (∀ x ∈ (featuredShowing [hat]).homepage.featuredProducts, x._id ≠ shoe._id) ∧
      ∃ s' rest,
        ((FeaturedProducts.addToFeatured (featuredShowing [hat]) shoe).exec adminEnv
            (featuredShowing [hat])).visible = s' :: rest ∧
        s'.homepage.featuredProducts =
          (featuredShowing [hat]).homepage.featuredProducts ++ [shoe] ∧
        ((FeaturedProducts.addToFeatured s' shoe).exec adminEnv s').state = s' ∧
        ((FeaturedProducts.addToFeatured s' shoe).exec adminEnv s').trace = [] ∧
        (s'.homepage.featuredProducts.map (fun p => p._id)).count shoe._id = 1) ∧
    ((∀ x ∈ (offersShowing [hat]).homepage.todayOffers, x._id ≠ shoe._id) ∧
      adminEnv.server [] (.getPriceDetails shoe._id
          (TodaysOffers.addToOffers_initialFilters shoe)) =
        .ok { effectivePrice := some 150, normalPrice := some 200 } ∧
      ∃ s' rest,
        ((TodaysOffers.addToOffers (offersShowing [hat]) shoe).exec adminEnv
            (offersShowing [hat])).visible = offersShowing [hat] :: s' :: rest ∧
        s'.homepage.todayOffers = (offersShowing [hat]).homepage.todayOffers ++
          [TodaysOffers.addToOffers_priced shoe
            { effectivePrice := some 150, normalPrice := some 200 }] ∧
        ((TodaysOffers.addToOffers s' shoe).exec adminEnv s').state = s' ∧
        ((TodaysOffers.addToOffers s' shoe).exec adminEnv s').trace = [] ∧
        (s'.homepage.todayOffers.map (fun p => p._id)).count shoe._id = 1) :=
  ⟨⟨by decide, by decide,
      (addItem_idempotent adminEnv shoe).1 (featuredShowing [hat, shoe]) (by decide)
        (by decide)⟩,
    ⟨by decide, by decide,
      (addItem_idempotent adminEnv shoe).2.1 (offersShowing [hat, shoe]) (by decide)
        (by decide)⟩,
    ⟨by decide, by decide,
      (addItem_idempotent adminEnv shoe).2.2.1 (featuredShowing [hat]) "admin-token"
        (by decide) (by decide)⟩,
    by decide, rfl,
    (addItem_idempotent adminEnv shoe).2.2.2 (offersShowing [hat]) "admin-token"
      { effectivePrice := some 150, normalPrice := some 200 } (by decide) (by decide) rfl⟩

/-! ## Mutations without a token (C8) -/

/-- C8: when the token store returns no token (`null`, or the empty string,
which the guard `!token` treats alike), none of the eight mutating operations
issues a network request, not even the pricing lookup of `addToOffers`, and the
local sub-collection stays as it was. -/
theorem no_token_no_request (env : Env) (htoken : Js.nonEmpty? env.token = none) :
    (∀ (s : FeaturedProducts.State) (product : Product),
        requestsOf ((FeaturedProducts.addToFeatured s product).exec env s).trace = [] ∧
        ((FeaturedProducts.addToFeatured s product).exec env s).state = s) ∧
    (∀ (s : FeaturedProducts.State) (productId : String),
        requestsOf ((FeaturedProducts.removeFromFeatured productId).exec env s).trace = [] ∧
        ((FeaturedProducts.removeFromFeatured productId).exec env s).state = s) ∧
    (∀ (s : TodaysOffers.State) (product : Product),
        requestsOf ((TodaysOffers.addToOffers s product).exec env s).trace = [] ∧
        ((TodaysOffers.addToOffers s product).exec env s).state = s) ∧
    (∀ (s : TodaysOffers.State) (productId : String),
        requestsOf ((TodaysOffers.removeFromOffers productId).exec env s).trace = [] ∧
        ((TodaysOffers.removeFromOffers productId).exec env s).state = s) ∧
    (∀ s : BannerDashboard.State,
        requestsOf ((BannerDashboard.createBanner s).exec env s).trace = [] ∧
        ((BannerDashboard.createBanner s).exec env s).state.banners = s.banners) ∧
    (∀ s : BannerDashboard.State,
        requestsOf ((BannerDashboard.updateBanner s).exec env s).trace = [] ∧
        ((BannerDashboard.updateBanner s).exec env s).state.banners = s.banners) ∧
    (∀ s : BannerDashboard.State,
        requestsOf ((BannerDashboard.updateBannerProduct s).exec env s).trace = [] ∧
        ((BannerDashboard.updateBannerProduct s).exec env s).state.banners = s.banners) ∧
    (∀ (s : BannerDashboard.State) (bannerId : String),
        requestsOf ((BannerDashboard.deleteBanner bannerId).exec env s).trace = [] ∧
        ((BannerDashboard.deleteBanner bannerId).exec env s).state.banners = s.banners) := by
  refine ⟨?_, ?_, ?_, ?_, ?_, ?_, ?_, ?_⟩
  · intro s product
    unfold FeaturedProducts.addToFeatured
    split <;> simp [Async.exec, Async.run, htoken, requestsOf]
  · intro s productId
    simp [FeaturedProducts.removeFromFeatured, Async.exec, Async.run, htoken, requestsOf]
  · intro s product
    unfold TodaysOffers.addToOffers
    split <;> simp [Async.exec, Async.run, htoken, requestsOf]
  · intro s productId
    simp [TodaysOffers.removeFromOffers, Async.exec, Async.run, htoken, requestsOf]
  · intro s
    unfold BannerDashboard.createBanner
    split <;> simp [Async.exec, Async.run, htoken, requestsOf]
  · intro s
    unfold BannerDashboard.updateBanner
    split <;> simp [Async.exec, Async.run, htoken, requestsOf]
  · intro s
    simp [BannerDashboard.updateBannerProduct, Async.exec, Async.run, htoken, requestsOf]
  · intro s bannerId
    unfold BannerDashboard.deleteBanner
    cases hc : env.confirm "Are you sure you want to delete this banner?" <;>
      simp [Async.exec, Async.run, htoken, requestsOf, hc]

/-- Nobody logged in: adding the shoe to the offers and updating the selected
banner's product send nothing and leave the collections alone. -/
theorem no_token_no_request_witness :
    Js.nonEmpty? anonymousEnv.token = none ∧
      (requestsOf ((TodaysOffers.addToOffers (offersShowing [hat]) shoe).exec anonymousEnv
          (offersShowing [hat])).trace = [] ∧
        ((TodaysOffers.addToOffers (offersShowing [hat]) shoe).exec anonymousEnv
          (offersShowing [hat])).state = offersShowing [hat]) ∧
      (requestsOf ((BannerDashboard.updateBannerProduct bannersShowing).exec anonymousEnv
          bannersShowing).trace = [] ∧
        ((BannerDashboard.updateBannerProduct bannersShowing).exec anonymousEnv
          bannersShowing).state.banners = bannersShowing.banners) :=
  ⟨by decide, (no_token_no_request anonymousEnv (by decide)).2.2.1 (offersShowing [hat]) shoe,
    (no_token_no_request anonymousEnv (by decide)).2.2.2.2.2.2.1 bannersShowing⟩

/-! ## Adopting the server's collection after an add (C9, C10) -/

/-- C9: on the featured screen, for a product not in the rendered collection, a
token present and a successful response to the add call, the local
`featuredProducts` after `addToFeatured` completes is the collection of the
response, whatever state the component was in when the call ran; the add call
is the one request issued. -/
theorem addToFeatured_adopts_response (env : Env) (s : FeaturedProducts.State)
    (product : Product) (token : String) (w : World FeaturedProducts.State)
    (featuredProducts : List Product)
    (habsent : ∀ x ∈ s.homepage.featuredProducts, x._id ≠ product._id)
    (htoken : Js.nonEmpty? env.token = some token)
    (hresponse : env.server (requestsOf w.trace) (.postFeatured token product._id .add) =
      .ok featuredProducts) :
    ((FeaturedProducts.addToFeatured s product).run env w).state.homepage.featuredProducts =
        featuredProducts ∧
      requestsOf ((FeaturedProducts.addToFeatured s product).run env w).trace =
        requestsOf w.trace ++ [.postFeatured token product._id .add] := by
  simp only [FeaturedProducts.addToFeatured, find_absent _ _ habsent, if_true, Async.run, htoken,
    requestsOf_append, requestsOf, List.append_nil, hresponse, and_self]

/-- The administrator adds the shoe to a featured collection showing nothing;
the server answers with hat and shoe. -/
theorem addToFeatured_adopts_response_witness :
    (∀ x ∈ (featuredShowing []).homepage.featuredProducts, x._id ≠ shoe._id) ∧
      Js.nonEmpty? adminEnv.token = some "admin-token" ∧
      ((FeaturedProducts.addToFeatured (featuredShowing []) shoe).run adminEnv
          { state := featuredShowing [], trace := [], visible := [],
            timers := [] }).state.homepage.featuredProducts = [hat, shoe] ∧
      requestsOf ((FeaturedProducts.addToFeatured (featuredShowing []) shoe).run adminEnv
          { state := featuredShowing [], trace := [], visible := [], timers := [] }).trace =
        requestsOf [] ++ [.postFeatured "admin-token" shoe._id .add] :=
  ⟨by decide, by decide,
    addToFeatured_adopts_response adminEnv (featuredShowing []) shoe "admin-token"
      { state := featuredShowing [], trace := [], visible := [], timers := [] } [hat, shoe]
      (by decide) (by decide) rfl⟩

/-- On the offers screen a successful add leaves the optimistic list in place:
the response of the add call is never read. -/
theorem addToOffers_success (env : Env) (s : TodaysOffers.State)
    (product : Product) (token : String) (priceDetails : PriceDetails)
    (todayOffers : List Product)
    (habsent : ∀ x ∈ s.homepage.todayOffers, x._id ≠ product._id)
    (htoken : Js.nonEmpty? env.token = some token)
    (hprice : env.server [] (.getPriceDetails product._id
      (TodaysOffers.addToOffers_initialFilters product)) = .ok priceDetails)
    (hresponse : env.server
      [.getPriceDetails product._id (TodaysOffers.addToOffers_initialFilters product)]
      (.postOffers token product._id .add) = .ok todayOffers) :
    ((TodaysOffers.addToOffers s product).exec env s).state.homepage.todayOffers =
      s.homepage.todayOffers ++ [TodaysOffers.addToOffers_priced product priceDetails] := by
  simp only [TodaysOffers.addToOffers, find_absent _ _ habsent, if_true, Async.exec, Async.run,
    htoken, requestsOf_append, requestsOf, List.append_nil, List.nil_append, hprice, hresponse]

/-- C10 fails on the code: the administrator adds the shoe to an offers screen
showing nothing, the pricing lookup and the add call both succeed, the add call
answers with the server's collection hat, shoe - and the local `todayOffers`
ends as the optimistic one-element list, not the server's collection. -/
theorem addToOffers_drops_response :
    adminEnv.server [.getPriceDetails shoe._id (TodaysOffers.addToOffers_initialFilters shoe)]
        (.postOffers "admin-token" shoe._id .add) = .ok [hat, shoe] ∧
      ((TodaysOffers.addToOffers (offersShowing []) shoe).exec adminEnv
          (offersShowing [])).state.homepage.todayOffers =
        [{ shoe with displayPrice := some 150, originalPrice := some 200,
                     discount := some 25 }] ∧
      (((TodaysOffers.addToOffers (offersShowing []) shoe).exec adminEnv
          (offersShowing [])).state.homepage.todayOffers).length ≠
        ([hat, shoe] : List Product).length := by
  have h := addToOffers_success adminEnv (offersShowing []) shoe "admin-token"
    { effectivePrice := some 150, normalPrice := some 200 } [hat, shoe] (by decide) (by decide)
    rfl rfl
  refine ⟨rfl, ?_, ?_⟩
  · rw [h, pricing_scenario.2]
    rfl
  · rw [h]
    decide

/-! ## Lemmas on the pricing decoration -/

theorem requestsOf_pricingEvents (env : Env) :
    ∀ (offers : List Product) (history : List Request),
      requestsOf (TodaysOffers.pricingEvents env history offers) =
        TodaysOffers.pricingRequests offers
  | [], _ => rfl
  | product :: offers, history => by
    unfold TodaysOffers.pricingEvents TodaysOffers.pricingRequests
    split
    · exact requestsOf_pricingEvents env offers history
    · split <;> simp [requestsOf, requestsOf_pricingEvents env offers]

/-- The embedding of `fetchOfferPrices` agrees with its direct-style reading: it
always reaches its continuation, with the list `pricedOffers`, after the effects
`pricingEvents`, the state untouched. -/
theorem fetchOfferPrices_run {σ : Type} (env : Env) :
    ∀ (offers : List Product) (next : List Product → Async σ) (w : World σ),
      (TodaysOffers.fetchOfferPrices offers next).run env w =
        (next (TodaysOffers.pricedOffers env (requestsOf w.trace) offers)).run env
          { w with
            trace := w.trace ++ TodaysOffers.pricingEvents env (requestsOf w.trace) offers
            visible := w.visible ++
              List.replicate (TodaysOffers.pricingRequests offers).length w.state }
  | [], next, w => by
    simp [TodaysOffers.fetchOfferPrices, TodaysOffers.pricedOffers, TodaysOffers.pricingEvents,
      TodaysOffers.pricingRequests]
  | product :: offers, next, w => by
    unfold TodaysOffers.fetchOfferPrices
    by_cases hd : product.displayPrice.isSome = true
    · rw [if_pos hd, fetchOfferPrices_run env offers]
      simp [TodaysOffers.pricedOffers, TodaysOffers.pricingEvents, TodaysOffers.pricingRequests,
        TodaysOffers.decorated, hd]
    · rw [if_neg hd]
      simp only [Async.run]
      cases hs : env.server (requestsOf w.trace)
          (.getPriceDetails product._id (TodaysOffers.fetchOfferPrices_initialFilters product)) with
      | ok priceDetails =>
        simp only [fetchOfferPrices_run env offers]
        simp [TodaysOffers.pricedOffers, TodaysOffers.pricingEvents,
          TodaysOffers.pricingRequests, TodaysOffers.decorated, hd, hs, requestsOf_append,
          requestsOf, List.replicate_succ]
      | error err =>
        simp only [Async.run, fetchOfferPrices_run env offers]
        simp [TodaysOffers.pricedOffers, TodaysOffers.pricingEvents,
          TodaysOffers.pricingRequests, TodaysOffers.decorated, hd, hs, requestsOf_append,
          requestsOf, List.replicate_succ]

/-! ## Lemmas on the reload of the collection screens -/

/-- The reload of the featured screen always reaches its continuation; it asks
for the homepage document, then at most for the catalog, and a homepage
document that arrives is adopted. -/
theorem featured_fetchHomepageData_run (env : Env) (next : Async FeaturedProducts.State)
    (w : World FeaturedProducts.State) :
    ∃ w', (FeaturedProducts.fetchHomepageData next).run env w = next.run env w' ∧
      (∃ rest, requestsOf w'.trace = requestsOf w.trace ++ .getHomepage :: rest ∧
        ∀ r ∈ rest, r = .getProducts) ∧
      (∀ e ∈ w.trace, e ∈ w'.trace) ∧
      ∀ F, env.server (requestsOf w.trace) .getHomepage = .ok F →
        w'.state.homepage.featuredProducts = F.featuredProducts := by
  simp only [FeaturedProducts.fetchHomepageData, Async.run]
  cases hh : env.server (requestsOf w.trace) .getHomepage with
  | error err =>
    refine ⟨_, rfl, ⟨[], ?_, by simp⟩, ?_, ?_⟩
    · simp [requestsOf_append, requestsOf]
    · intro e he; simp [he]
    · intro F hF; cases hF
  | ok data =>
    simp only [Async.run]
    cases hp : env.server (requestsOf (w.trace ++ [Event.request Request.getHomepage]))
        .getProducts with
    | error err =>
      refine ⟨_, rfl, ⟨[.getProducts], ?_, by simp⟩, ?_, ?_⟩
      · simp [requestsOf_append, requestsOf]
      · intro e he; simp [he]
      · intro F hF; cases hF; rfl
    | ok products =>
      refine ⟨_, rfl, ⟨[.getProducts], ?_, by simp⟩, ?_, ?_⟩
      · simp [requestsOf_append, requestsOf]
      · intro e he; simp [he]
      · intro F hF; cases hF; rfl

/-- The reload of the offers screen always reaches its continuation; it asks
for the homepage document first, and a homepage document that arrives is
adopted with its offers decorated. -/
theorem offers_fetchHomepageData_run (env : Env) (next : Async TodaysOffers.State)
    (w : World TodaysOffers.State) :
    ∃ w', (TodaysOffers.fetchHomepageData next).run env w = next.run env w' ∧
      (∃ rest, requestsOf w'.trace = requestsOf w.trace ++ .getHomepage :: rest) ∧
      (∀ e ∈ w.trace, e ∈ w'.trace) ∧
      ∀ F, env.server (requestsOf w.trace) .getHomepage = .ok F →
        w'.state.homepage.todayOffers =
          TodaysOffers.pricedOffers env (requestsOf w.trace ++ [.getHomepage]) F.todayOffers := by
  simp only [TodaysOffers.fetchHomepageData, Async.run]
  cases hh : env.server (requestsOf w.trace) .getHomepage with
  | error err =>
    refine ⟨_, rfl, ⟨[], ?_⟩, ?_, ?_⟩
    · simp [requestsOf_append, requestsOf]
    · intro e he; simp [he]
    · intro F hF; cases hF
  | ok data =>
    simp only [fetchOfferPrices_run, Async.run]
    cases hp : env.server (requestsOf (w.trace ++ [Event.request Request.getHomepage] ++
        TodaysOffers.pricingEvents env
          (requestsOf (w.trace ++ [Event.request Request.getHomepage])) data.todayOffers))
        .getProducts with
    | error err =>
      refine ⟨_, rfl, ⟨TodaysOffers.pricingRequests data.todayOffers ++ [.getProducts], ?_⟩,
        ?_, ?_⟩
      · simp [requestsOf_append, requestsOf, requestsOf_pricingEvents]
      · intro e he; simp [he]
      · intro F hF; cases hF; simp [requestsOf_append, requestsOf]
    | ok products =>
      refine ⟨_, rfl, ⟨TodaysOffers.pricingRequests data.todayOffers ++ [.getProducts], ?_⟩,
        ?_, ?_⟩
      · simp [requestsOf_append, requestsOf, requestsOf_pricingEvents]
      · intro e he; simp [he]
      · intro F hF; cases hF; simp [requestsOf_append, requestsOf]

/-- After a failed mutation on the featured screen: the reload adopts the
homepage document that arrives. -/
theorem featured_rollback_state (env : Env) (message : String)
    (w : World FeaturedProducts.State) (F : HomepageDoc)
    (h : env.server (requestsOf w.trace) .getHomepage = .ok F) :
    ((FeaturedProducts.fetchHomepageData (.alert message .done)).run env
      w).state.homepage.featuredProducts = F.featuredProducts := by
  obtain ⟨w', hrun, _, _, hF⟩ := featured_fetchHomepageData_run env (.alert message .done) w
  rw [hrun]
  exact hF F h

/-- After a failed mutation on the featured screen: the reload asks for the
homepage document, and the alert follows. -/
theorem featured_rollback_trace (env : Env) (message : String)
    (w : World FeaturedProducts.State) :
    (∃ rest,
        requestsOf ((FeaturedProducts.fetchHomepageData (.alert message .done)).run env
          w).trace = requestsOf w.trace ++ .getHomepage :: rest ∧
        ∀ r ∈ rest, r = .getProducts) ∧
      (∀ e ∈ w.trace,
        e ∈ ((FeaturedProducts.fetchHomepageData (.alert message .done)).run env w).trace) ∧
      .alert message ∈
        ((FeaturedProducts.fetchHomepageData (.alert message .done)).run env w).trace := by
  obtain ⟨w', hrun, ⟨rest, hreq, hrest⟩, hmem, _⟩ :=
    featured_fetchHomepageData_run env (.alert message .done) w
  rw [hrun]
  refine ⟨⟨rest, ?_, hrest⟩, ?_, ?_⟩
  · simp [Async.run, requestsOf_append, requestsOf, hreq]
  · intro e he
    simp [Async.run, hmem e he]
  · simp [Async.run]

/-- After a failed mutation on the offers screen: the reload adopts the offers
of the homepage document that arrives, decorated. -/
theorem offers_rollback_state (env : Env) (message : String)
    (w : World TodaysOffers.State) (F : HomepageDoc)
    (h : env.server (requestsOf w.trace) .getHomepage = .ok F) :
    ((TodaysOffers.fetchHomepageData (.alert message .done)).run env
      w).state.homepage.todayOffers =
        TodaysOffers.pricedOffers env (requestsOf w.trace ++ [.getHomepage]) F.todayOffers := by
  obtain ⟨w', hrun, _, _, hF⟩ := offers_fetchHomepageData_run env (.alert message .done) w
  rw [hrun]
  exact hF F h

/-- After a failed mutation on the offers screen: the reload asks for the
homepage document, and the alert follows. -/
theorem offers_rollback_trace (env : Env) (message : String)
    (w : World TodaysOffers.State) :
    (∃ rest,
        requestsOf ((TodaysOffers.fetchHomepageData (.alert message .done)).run env
          w).trace = requestsOf w.trace ++ .getHomepage :: rest) ∧
      (∀ e ∈ w.trace,
        e ∈ ((TodaysOffers.fetchHomepageData (.alert message .done)).run env w).trace) ∧
      .alert message ∈
        ((TodaysOffers.fetchHomepageData (.alert message .done)).run env w).trace := by
  obtain ⟨w', hrun, ⟨rest, hreq⟩, hmem, _⟩ :=
    offers_fetchHomepageData_run env (.alert message .done) w
  rw [hrun]
  refine ⟨⟨rest, ?_⟩, ?_, ?_⟩
  · simp [Async.run, requestsOf_append, requestsOf, hreq]
  · intro e he
    simp [Async.run, hmem e he]
  · simp [Async.run]

/-! ## The failure branch of the four collection operations -/

/-- A failed add call on the featured screen leads to the reload and the alert,
run from the optimistic state. -/
theorem addToFeatured_run_error (env : Env) (s : FeaturedProducts.State) (product : Product)
    (token : String) (err : NetError) (w : World FeaturedProducts.State)
    (habsent : ∀ x ∈ s.homepage.featuredProducts, x._id ≠ product._id)
    (htoken : Js.nonEmpty? env.token = some token)
    (hpost : env.server (requestsOf w.trace) (.postFeatured token product._id .add) =
      .error err) :
    (FeaturedProducts.addToFeatured s product).run env w =
      (FeaturedProducts.fetchHomepageData
        (.alert ("Error adding featured product: " ++ err.display) .done)).run env
        { state := { w.state with homepage := { w.state.homepage with
            featuredProducts := w.state.homepage.featuredProducts ++ [product] } }
          trace := w.trace ++ [.tokenRead, .request (.postFeatured token product._id .add)]
          visible := w.visible ++ [{ w.state with homepage := { w.state.homepage with
            featuredProducts := w.state.homepage.featuredProducts ++ [product] } }]
          timers := w.timers } := by
  simp only [FeaturedProducts.addToFeatured, find_absent _ _ habsent, if_true, Async.run,
    htoken, requestsOf_append, requestsOf, List.append_nil, hpost, List.append_assoc,
    List.singleton_append]

/-- A failed remove call on the featured screen leads to the reload and the
alert, run from the optimistic state. -/
theorem removeFromFeatured_run_error (env : Env) (productId token : String) (err : NetError)
    (w : World FeaturedProducts.State) (htoken : Js.nonEmpty? env.token = some token)
    (hpost : env.server (requestsOf w.trace) (.postFeatured token productId .remove) =
      .error err) :
    (FeaturedProducts.removeFromFeatured productId).run env w =
      (FeaturedProducts.fetchHomepageData
        (.alert ("Error removing featured product: " ++ err.display) .done)).run env
        { state := { w.state with homepage := { w.state.homepage with
            featuredProducts := w.state.homepage.featuredProducts.filter
              (fun p => p._id != productId) } }
          trace := w.trace ++ [.tokenRead, .request (.postFeatured token productId .remove)]
          visible := w.visible ++ [{ w.state with homepage := { w.state.homepage with
            featuredProducts := w.state.homepage.featuredProducts.filter
              (fun p => p._id != productId) } }]
          timers := w.timers } := by
  simp only [FeaturedProducts.removeFromFeatured, Async.run, htoken, requestsOf_append,
    requestsOf, List.append_nil, hpost, List.append_assoc, List.singleton_append]

/-- A failed add call on the offers screen, after a successful pricing lookup,
leads to the reload and the alert, run from the optimistic state. -/
theorem addToOffers_run_error (env : Env) (s : TodaysOffers.State) (product : Product)
    (token : String) (priceDetails : PriceDetails) (err : NetError)
    (w : World TodaysOffers.State)
    (habsent : ∀ x ∈ s.homepage.todayOffers, x._id ≠ product._id)
    (htoken : Js.nonEmpty? env.token = some token)
    (hprice : env.server (requestsOf w.trace)
      (.getPriceDetails product._id (TodaysOffers.addToOffers_initialFilters product)) =
      .ok priceDetails)
    (hpost : env.server
      (requestsOf w.trace ++
        [.getPriceDetails product._id (TodaysOffers.addToOffers_initialFilters product)])
      (.postOffers token product._id .add) = .error err) :
    (TodaysOffers.addToOffers s product).run env w =
      (TodaysOffers.fetchHomepageData
        (.alert ("Error adding today's offer: " ++ err.display) .done)).run env
        { state := { w.state with homepage := { w.state.homepage with
            todayOffers := w.state.homepage.todayOffers ++
              [TodaysOffers.addToOffers_priced product priceDetails] } }
          trace := w.trace ++
            [.tokenRead,
              .request (.getPriceDetails product._id
                (TodaysOffers.addToOffers_initialFilters product)),
              .request (.postOffers token product._id .add)]
          visible := w.visible ++ [w.state, { w.state with homepage := { w.state.homepage with
            todayOffers := w.state.homepage.todayOffers ++
              [TodaysOffers.addToOffers_priced product priceDetails] } }]
          timers := w.timers } := by
  simp only [TodaysOffers.addToOffers, find_absent _ _ habsent, if_true, Async.run,
    htoken, requestsOf_append, requestsOf, List.append_nil, hprice, hpost, List.append_assoc,
    List.singleton_append, fetchOfferPrices_run, List.cons_append, List.nil_append]

/-- A failed remove call on the offers screen leads to the reload and the alert,
run from the optimistic state. -/
theorem removeFromOffers_run_error (env : Env) (productId token : String) (err : NetError)
    (w : World TodaysOffers.State) (htoken : Js.nonEmpty? env.token = some token)
    (hpost : env.server (requestsOf w.trace) (.postOffers token productId .remove) =
      .error err) :
    (TodaysOffers.removeFromOffers productId).run env w =
      (TodaysOffers.fetchHomepageData
        (.alert ("Error removing today's offer: " ++ err.display) .done)).run env
        { state := { w.state with homepage := { w.state.homepage with
            todayOffers := w.state.homepage.todayOffers.filter
              (fun p => p._id != productId) } }
          trace := w.trace ++ [.tokenRead, .request (.postOffers token productId .remove)]
          visible := w.visible ++ [{ w.state with homepage := { w.state.homepage with
            todayOffers := w.state.homepage.todayOffers.filter
              (fun p => p._id != productId) } }]
          timers := w.timers } := by
  simp only [TodaysOffers.removeFromOffers, Async.run, htoken, requestsOf_append,
    requestsOf, List.append_nil, hpost, List.append_assoc, List.singleton_append,
    fetchOfferPrices_run, List.cons_append, List.nil_append]

/-! ## Removing from a collection (C11, C12) -/

/-- C11: on the featured screen, with a token present and for every id, in the
local collection or not, `removeFromFeatured` issues the remove call for that id
exactly once (any further request is a read of the reload after a failure), and
on a successful response the local `featuredProducts` is the collection of the
response, the remove call being the only request. -/
theorem removeFromFeatured_calls_once (env : Env) (productId token : String)
    (w : World FeaturedProducts.State) (htoken : Js.nonEmpty? env.token = some token) :
    (∃ rest,
        requestsOf ((FeaturedProducts.removeFromFeatured productId).run env w).trace =
          requestsOf w.trace ++ .postFeatured token productId .remove :: rest ∧
        ∀ r ∈ rest, r = .getHomepage ∨ r = .getProducts) ∧
      ∀ featuredProducts,
        env.server (requestsOf w.trace) (.postFeatured token productId .remove) =
          .ok featuredProducts →
        ((FeaturedProducts.removeFromFeatured productId).run env
            w).state.homepage.featuredProducts = featuredProducts ∧
          requestsOf ((FeaturedProducts.removeFromFeatured productId).run env w).trace =
            requestsOf w.trace ++ [.postFeatured token productId .remove] := by
  simp only [FeaturedProducts.removeFromFeatured, Async.run, htoken, requestsOf_append,
    requestsOf, List.append_nil]
  cases hs : env.server (requestsOf w.trace) (.postFeatured token productId .remove) with
  | ok featuredProducts =>
    simp [Async.run, requestsOf_append, requestsOf]
  | error err =>
    simp only [false_implies, implies_true, and_true, reduceCtorEq]
    obtain ⟨rest, hreq, hrest⟩ := (featured_rollback_trace env
      ("Error removing featured product: " ++ err.display)
      { w with
        state := { w.state with homepage := { w.state.homepage with
          featuredProducts := w.state.homepage.featuredProducts.filter
            (fun p => p._id != productId) } }
        trace := w.trace ++ [.tokenRead] ++ [.request (.postFeatured token productId .remove)]
        visible := w.visible ++ [{ w.state with homepage := { w.state.homepage with
          featuredProducts := w.state.homepage.featuredProducts.filter
            (fun p => p._id != productId) } }] }).1
    refine ⟨.getHomepage :: rest, ?_, ?_⟩
    · rw [hreq]
      simp [requestsOf_append, requestsOf]
    · intro r hr
      rcases List.mem_cons.1 hr with h | h
      · exact Or.inl h
      · exact Or.inr (hrest r h)

/-- The scenario of C11: the administrator removes id "5" from a featured
collection that holds the hat and the shoe; the call is sent and the answer
adopted. -/
theorem removeFromFeatured_calls_once_witness :
    Js.nonEmpty? adminEnv.token = some "admin-token" ∧
      (∀ x ∈ (featuredShowing [shoe]).homepage.featuredProducts, x._id ≠ "5") ∧
      ((FeaturedProducts.removeFromFeatured "5").run adminEnv
          { state := featuredShowing [shoe], trace := [], visible := [],
            timers := [] }).state.homepage.featuredProducts = [hat, shoe] ∧
      requestsOf ((FeaturedProducts.removeFromFeatured "5").run adminEnv
          { state := featuredShowing [shoe], trace := [], visible := [], timers := [] }).trace =
        requestsOf [] ++ [.postFeatured "admin-token" "5" .remove] :=
  ⟨by decide, by decide,
    (removeFromFeatured_calls_once adminEnv "5" "admin-token"
      { state := featuredShowing [shoe], trace := [], visible := [], timers := [] }
      (by decide)).2 [hat, shoe] rfl⟩

/-! ## Lemmas on decorated entries -/

theorem decorated_of_priced (product : Product) (outcome : Except NetError PriceDetails)
    (h : product.displayPrice.isSome = true) :
    TodaysOffers.decorated product outcome = product := by
  simp [TodaysOffers.decorated, h]

theorem decorated_id (product : Product) (outcome : Except NetError PriceDetails) :
    (TodaysOffers.decorated product outcome)._id = product._id := by
  unfold TodaysOffers.decorated
  split
  · rfl
  · cases outcome <;> rfl

theorem decorated_displayPrice (product : Product) (outcome : Except NetError PriceDetails) :
    (TodaysOffers.decorated product outcome).displayPrice.isSome = true := by
  unfold TodaysOffers.decorated
  split
  · assumption
  · cases outcome <;> rfl

theorem decorated_of_unpriced (product : Product) (outcome : Except NetError PriceDetails)
    (h : product.displayPrice = none) :
    (TodaysOffers.decorated product outcome).originalPrice.isSome = true ∧
      (TodaysOffers.decorated product outcome).discount.isSome = true := by
  unfold TodaysOffers.decorated
  rw [h]
  cases outcome <;> exact ⟨rfl, rfl⟩

theorem pricingRequests_append (xs ys : List Product) :
    TodaysOffers.pricingRequests (xs ++ ys) =
      TodaysOffers.pricingRequests xs ++ TodaysOffers.pricingRequests ys := by
  induction xs with
  | nil => rfl
  | cons x xs ih =>
    simp only [List.cons_append, TodaysOffers.pricingRequests]
    split <;> simp [ih]

theorem pricedOffers_length (env : Env) :
    ∀ (offers : List Product) (history : List Request),
      (TodaysOffers.pricedOffers env history offers).length = offers.length
  | [], _ => rfl
  | _ :: offers, history => by
    simp [TodaysOffers.pricedOffers, pricedOffers_length env offers]

/-- Entry `j` of the decorated list is product `j` decorated from the outcome of
its own lookup; the requests sent before it are those of the products before it. -/
theorem pricedOffers_getElem? (env : Env) :
    ∀ (offers : List Product) (history : List Request) (j : Nat),
      (TodaysOffers.pricedOffers env history offers)[j]? =
        offers[j]?.map (fun product =>
          TodaysOffers.decorated product
            (env.server (history ++ TodaysOffers.pricingRequests (offers.take j))
              (.getPriceDetails product._id
                (TodaysOffers.fetchOfferPrices_initialFilters product))))
  | [], _, j => by simp [TodaysOffers.pricedOffers]
  | product :: offers, history, 0 => by
    simp [TodaysOffers.pricedOffers, TodaysOffers.pricingRequests]
  | product :: offers, history, j + 1 => by
    have ih := pricedOffers_getElem? env offers
      (history ++ TodaysOffers.pricingRequests [product]) j
    have hsplit : TodaysOffers.pricingRequests (product :: List.take j offers) =
        TodaysOffers.pricingRequests [product] ++
          TodaysOffers.pricingRequests (List.take j offers) :=
      pricingRequests_append [product] (List.take j offers)
    simp only [TodaysOffers.pricedOffers, List.getElem?_cons_succ, List.take_succ_cons, ih,
      hsplit, List.append_assoc]

/-- Every entry of the decorated list is its product decorated from some
outcome, position by position. -/
theorem pricedOffers_forall₂ (env : Env) :
    ∀ (offers : List Product) (history : List Request),
      List.Forall₂ (fun product entry => ∃ outcome, entry = TodaysOffers.decorated product outcome)
        offers (TodaysOffers.pricedOffers env history offers)
  | [], _ => List.Forall₂.nil
  | _ :: offers, _ =>
    List.Forall₂.cons ⟨_, rfl⟩ (pricedOffers_forall₂ env offers _)

theorem pricingRequests_of_priced :
    ∀ offers : List Product, (∀ p ∈ offers, p.displayPrice.isSome = true) →
      TodaysOffers.pricingRequests offers = []
  | [], _ => rfl
  | product :: offers, h => by
    simp [TodaysOffers.pricingRequests, h product (List.mem_cons_self _ _),
      pricingRequests_of_priced offers (fun p hp => h p (List.mem_cons_of_mem _ hp))]

theorem pricingEvents_of_priced (env : Env) :
    ∀ (offers : List Product) (history : List Request),
      (∀ p ∈ offers, p.displayPrice.isSome = true) →
      TodaysOffers.pricingEvents env history offers = []
  | [], _, _ => rfl
  | product :: offers, history, h => by
    simp [TodaysOffers.pricingEvents, h product (List.mem_cons_self _ _),
      pricingEvents_of_priced env offers history (fun p hp => h p (List.mem_cons_of_mem _ hp))]

theorem pricedOffers_of_priced (env : Env) :
    ∀ (offers : List Product) (history : List Request),
      (∀ p ∈ offers, p.displayPrice.isSome = true) →
      TodaysOffers.pricedOffers env history offers = offers
  | [], _, _ => rfl
  | product :: offers, history, h => by
    simp [TodaysOffers.pricedOffers, decorated_of_priced _ _ (h product (List.mem_cons_self _ _)),
      pricedOffers_of_priced env offers _ (fun p hp => h p (List.mem_cons_of_mem _ hp))]

theorem pricedOffers_priced (env : Env) (offers : List Product) (history : List Request) :
    ∀ p ∈ TodaysOffers.pricedOffers env history offers, p.displayPrice.isSome = true := by
  intro p hp
  obtain ⟨j, hj⟩ := List.getElem?_of_mem hp
  rw [pricedOffers_getElem?] at hj
  cases hx : offers[j]? with
  | none => rw [hx] at hj; cases hj
  | some x =>
    rw [hx] at hj
    simp only [Option.map_some', Option.some.injEq] at hj
    rw [← hj]
    exact decorated_displayPrice _ _

/-- On a list whose products all carry `displayPrice`, `fetchOfferPrices` is its
continuation on that very list: no request, no effect. -/
theorem fetchOfferPrices_of_priced {σ : Type} :
    ∀ (offers : List Product) (next : List Product → Async σ),
      (∀ p ∈ offers, p.displayPrice.isSome = true) →
      TodaysOffers.fetchOfferPrices offers next = next offers
  | [], _, _ => rfl
  | product :: offers, next, h => by
    unfold TodaysOffers.fetchOfferPrices
    rw [if_pos (h product (List.mem_cons_self _ _)),
      fetchOfferPrices_of_priced offers _ (fun p hp => h p (List.mem_cons_of_mem _ hp))]

/-- C12 as stated fails: the server answers the remove call with a shoe that
carries `displayPrice` 10 and neither `originalPrice` nor `discount`;
`fetchOfferPrices` passes it through, so the adopted item carries no
`originalPrice` and no `discount`. -/
theorem removeFromOffers_stale_counterexample :
    staleEnv.server [] (.postOffers "admin-token" "7" .remove) = .ok [staleShoe] ∧
      ((TodaysOffers.removeFromOffers "7").exec staleEnv
          (offersShowing [hat, shoe])).state.homepage.todayOffers = [staleShoe] ∧
      staleShoe.displayPrice = some 10 ∧ staleShoe.originalPrice = none ∧
      staleShoe.discount = none := by
  refine ⟨rfl, ?_, rfl, rfl, rfl⟩
  simp only [TodaysOffers.removeFromOffers, Async.exec, Async.run, fetchOfferPrices_run]

/-- C12, amended: on the offers screen, with a token present, for every id and
every successful response to the remove call, the local `todayOffers` after
`removeFromOffers` completes is `fetchOfferPrices` of the response's collection:
the same length, the same ids in the same order, every item carrying
`displayPrice`; an item the server sent without `displayPrice` carries
`originalPrice` and `discount` too, an item sent with it is kept as sent. -/
theorem removeFromOffers_adopts_decorated (env : Env) (productId token : String)
    (w : World TodaysOffers.State) (todayOffers : List Product)
    (htoken : Js.nonEmpty? env.token = some token)
    (hresponse : env.server (requestsOf w.trace) (.postOffers token productId .remove) =
      .ok todayOffers) :
    ((TodaysOffers.removeFromOffers productId).run env w).state.homepage.todayOffers =
        TodaysOffers.pricedOffers env
          (requestsOf w.trace ++ [.postOffers token productId .remove]) todayOffers ∧
      List.Forall₂
        (fun sent shown =>
          shown._id = sent._id ∧ shown.displayPrice.isSome = true ∧
          (sent.displayPrice = none →
            shown.originalPrice.isSome = true ∧ shown.discount.isSome = true) ∧
          (sent.displayPrice.isSome = true → shown = sent))
        todayOffers
        ((TodaysOffers.removeFromOffers productId).run env w).state.homepage.todayOffers := by
  have hstate : ((TodaysOffers.removeFromOffers productId).run env w).state.homepage.todayOffers =
      TodaysOffers.pricedOffers env
        (requestsOf w.trace ++ [.postOffers token productId .remove]) todayOffers := by
    simp only [TodaysOffers.removeFromOffers, Async.run, htoken, requestsOf_append, requestsOf,
      List.append_nil, hresponse, fetchOfferPrices_run]
  rw [hstate]
  refine ⟨rfl, ?_⟩
  refine List.Forall₂.imp ?_ (pricedOffers_forall₂ env todayOffers _)
  rintro sent shown ⟨outcome, rfl⟩
  exact ⟨decorated_id _ _, decorated_displayPrice _ _, decorated_of_unpriced _ _,
    decorated_of_priced _ _⟩

/-- The amended C12 on a concrete screen: the administrator removes id "5"; the
server answers with hat and shoe, which come back decorated. -/
theorem removeFromOffers_adopts_decorated_witness :
    Js.nonEmpty? adminEnv.token = some "admin-token" ∧
      adminEnv.server [] (.postOffers "admin-token" "5" .remove) = .ok [hat, shoe] ∧
      ((TodaysOffers.removeFromOffers "5").run adminEnv
          { state := offersShowing [shoe], trace := [], visible := [],
            timers := [] }).state.homepage.todayOffers =
        TodaysOffers.pricedOffers adminEnv
          (requestsOf [] ++ [.postOffers "admin-token" "5" .remove]) [hat, shoe] :=
  ⟨by decide, rfl,
    (removeFromOffers_adopts_decorated adminEnv "5" "admin-token"
      { state := offersShowing [shoe], trace := [], visible := [], timers := [] }
      [hat, shoe] (by decide) rfl).1⟩

/-! ## Rollback after a failed mutation (C13) -/

/-- C13: for add and remove on the featured and offers screens, when the
mutating call fails and the reload then receives the homepage document `F`, the
collection after the operation completes is `F`'s sub-collection (on the offers
screen: `fetchOfferPrices` of it), whatever the optimistic state was and
whatever becomes of the catalog fetch that follows. -/
theorem rollback_adopts_reload (env : Env) (token : String) (err : NetError)
    (F : HomepageDoc) (htoken : Js.nonEmpty? env.token = some token) :
    (∀ (s : FeaturedProducts.State) (product : Product) (w : World FeaturedProducts.State),
        (∀ x ∈ s.homepage.featuredProducts, x._id ≠ product._id) →
        env.server (requestsOf w.trace) (.postFeatured token product._id .add) = .error err →
        env.server (requestsOf w.trace ++ [.postFeatured token product._id .add])
          .getHomepage = .ok F →
        ((FeaturedProducts.addToFeatured s product).run env
          w).state.homepage.featuredProducts = F.featuredProducts) ∧
    (∀ (productId : String) (w : World FeaturedProducts.State),
        env.server (requestsOf w.trace) (.postFeatured token productId .remove) = .error err →
        env.server (requestsOf w.trace ++ [.postFeatured token productId .remove])
          .getHomepage = .ok F →
        ((FeaturedProducts.removeFromFeatured productId).run env
          w).state.homepage.featuredProducts = F.featuredProducts) ∧
    (∀ (s : TodaysOffers.State) (product : Product) (w : World TodaysOffers.State)
        (priceDetails : PriceDetails),
        (∀ x ∈ s.homepage.todayOffers, x._id ≠ product._id) →
        env.server (requestsOf w.trace)
          (.getPriceDetails product._id (TodaysOffers.addToOffers_initialFilters product)) =
          .ok priceDetails →
        env.server
          (requestsOf w.trace ++
            [.getPriceDetails product._id (TodaysOffers.addToOffers_initialFilters product)])
          (.postOffers token product._id .add) = .error err →
        env.server
          (requestsOf w.trace ++
            [.getPriceDetails product._id (TodaysOffers.addToOffers_initialFilters product),
              .postOffers token product._id .add])
          .getHomepage = .ok F →
        ((TodaysOffers.addToOffers s product).run env w).state.homepage.todayOffers =
          TodaysOffers.pricedOffers env
            (requestsOf w.trace ++
              [.getPriceDetails product._id (TodaysOffers.addToOffers_initialFilters product),
                .postOffers token product._id .add, .getHomepage])
            F.todayOffers) ∧
    (∀ (productId : String) (w : World TodaysOffers.State),
        env.server (requestsOf w.trace) (.postOffers token productId .remove) = .error err →
        env.server (requestsOf w.trace ++ [.postOffers token productId .remove])
          .getHomepage = .ok F →
        ((TodaysOffers.removeFromOffers productId).run env w).state.homepage.todayOffers =
          TodaysOffers.pricedOffers env
            (requestsOf w.trace ++ [.postOffers token productId .remove, .getHomepage])
            F.todayOffers) := by
  refine ⟨?_, ?_, ?_, ?_⟩
  · intro s product w habsent hpost hhome
    rw [addToFeatured_run_error env s product token err w habsent htoken hpost]
    exact featured_rollback_state env _ _ F
      (by simpa [requestsOf_append, requestsOf] using hhome)
  · intro productId w hpost hhome
    rw [removeFromFeatured_run_error env productId token err w htoken hpost]
    exact featured_rollback_state env _ _ F
      (by simpa [requestsOf_append, requestsOf] using hhome)
  · intro s product w priceDetails habsent hprice hpost hhome
    rw [addToOffers_run_error env s product token priceDetails err w habsent htoken hprice
      hpost]
    rw [offers_rollback_state env _ _ F
      (by simpa [requestsOf_append, requestsOf] using hhome)]
    simp [requestsOf_append, requestsOf]
  · intro productId w hpost hhome
    rw [removeFromOffers_run_error env productId token err w htoken hpost]
    rw [offers_rollback_state env _ _ F
      (by simpa [requestsOf_append, requestsOf] using hhome)]
    simp [requestsOf_append, requestsOf]

/-- The rollback on concrete screens: the collection endpoints answer with
status 500, the homepage document holds the hat alone; adding the shoe or
removing id "1" ends with the hat alone on either screen. -/
theorem rollback_adopts_reload_witness :
    Js.nonEmpty? outageEnv.token = some "admin-token" ∧
      ((FeaturedProducts.addToFeatured (featuredShowing []) shoe).run outageEnv
          { state := featuredShowing [], trace := [], visible := [],
            timers := [] }).state.homepage.featuredProducts = outageHomepage.featuredProducts ∧
      ((FeaturedProducts.removeFromFeatured "1").run outageEnv
          { state := featuredShowing [shoe], trace := [], visible := [],
            timers := [] }).state.homepage.featuredProducts = outageHomepage.featuredProducts ∧
      ((TodaysOffers.addToOffers (offersShowing []) shoe).run outageEnv
          { state := offersShowing [], trace := [], visible := [],
            timers := [] }).state.homepage.todayOffers =
        TodaysOffers.pricedOffers outageEnv
          (requestsOf [] ++
            [.getPriceDetails shoe._id (TodaysOffers.addToOffers_initialFilters shoe),
              .postOffers "admin-token" shoe._id .add, .getHomepage])
          outageHomepage.todayOffers ∧
      ((TodaysOffers.removeFromOffers "1").run outageEnv
          { state := offersShowing [shoe], trace := [], visible := [],
            timers := [] }).state.homepage.todayOffers =
        TodaysOffers.pricedOffers outageEnv
          (requestsOf [] ++ [.postOffers "admin-token" "1" .remove, .getHomepage])
          outageHomepage.todayOffers :=
  ⟨by decide,
    (rollback_adopts_reload outageEnv "admin-token" outageError outageHomepage (by decide)).1
      (featuredShowing []) shoe
      { state := featuredShowing [], trace := [], visible := [], timers := [] }
      (by decide) rfl rfl,
    (rollback_adopts_reload outageEnv "admin-token" outageError outageHomepage (by decide)).2.1
      "1" { state := featuredShowing [shoe], trace := [], visible := [], timers := [] }
      rfl rfl,
    (rollback_adopts_reload outageEnv "admin-token" outageError outageHomepage (by decide)).2.2.1
      (offersShowing []) shoe
      { state := offersShowing [], trace := [], visible := [], timers := [] }
      { effectivePrice := some 150, normalPrice := some 200 } (by decide) rfl rfl rfl,
    (rollback_adopts_reload outageEnv "admin-token" outageError outageHomepage (by decide)).2.2.2
      "1" { state := offersShowing [shoe], trace := [], visible := [], timers := [] }
      rfl rfl⟩

/-! ## Lemmas on the reload of the banner screen -/

/-- The reload of the banner screen always reaches its continuation, after
asking for the homepage document and the catalog. When both arrive the banners
(normalised) and the catalog are adopted; otherwise they are kept. A silent
reload touches neither `loading` nor `error`. -/
theorem banner_loadInitialData_run (env : Env) (silent : Bool)
    (next : Async BannerDashboard.State) (w : World BannerDashboard.State) :
    ∃ w', (BannerDashboard.loadInitialData silent next).run env w = next.run env w' ∧
      requestsOf w'.trace = requestsOf w.trace ++ [.getHomepage, .getProducts] ∧
      (∀ e ∈ w.trace, e ∈ w'.trace) ∧
      w'.visible = w.visible ++
        [{ w.state with loading := if silent then w.state.loading else true },
         { w.state with loading := if silent then w.state.loading else true }] ∧
      w'.timers = w.timers ∧
      (∀ doc products,
        env.server (requestsOf w.trace) .getHomepage = .ok doc →
        env.server (requestsOf w.trace ++ [.getHomepage]) .getProducts = .ok products →
        w'.state = { w.state with
          banners := (doc.banners.getD []).map BannerDashboard.processBanner
          products := products
          error := if silent then w.state.error else ""
          loading := if silent then w.state.loading else false }) ∧
      ((∀ doc products,
          ¬ (env.server (requestsOf w.trace) .getHomepage = .ok doc ∧
            env.server (requestsOf w.trace ++ [.getHomepage]) .getProducts = .ok products)) →
        w'.state = { w.state with
          error := if silent then w.state.error else "Failed to load data. Please try again."
          loading := if silent then w.state.loading else false }) := by
  cases silent <;>
  · simp only [BannerDashboard.loadInitialData, Async.run, requestsOf_append, requestsOf,
      List.append_nil, Bool.not_false, Bool.not_true, if_true, if_false, Bool.false_eq_true]
    cases hH : env.server (requestsOf w.trace) .getHomepage <;>
    cases hP : env.server (requestsOf w.trace ++ [.getHomepage]) .getProducts <;>
    · simp only [Async.run]
      refine ⟨_, rfl, ?_, ?_, ?_, rfl, ?_, ?_⟩
      · simp [requestsOf_append, requestsOf]
      · intro e he; simp [he]
      · simp
      · intro doc products h1 h2
        first
          | (cases h1; cases h2; rfl)
          | (cases h1; cases h2)
          | cases h1
      · intro h
        first
          | rfl
          | exact absurd ⟨rfl, rfl⟩ (h _ _)

/-! ## One step of execution, effect by effect -/

theorem Async.run_done {σ : Type} (env : Env) (w : World σ) :
    (Async.done : Async σ).run env w = w := rfl

theorem Async.run_setState {σ : Type} (env : Env) (update : σ → σ) (next : Async σ)
    (w : World σ) :
    (Async.setState update next).run env w = next.run env { w with state := update w.state } :=
  rfl

theorem Async.run_getToken {σ : Type} (env : Env) (next : Option String → Async σ)
    (w : World σ) :
    (Async.getToken next).run env w =
      (next env.token).run env { w with trace := w.trace ++ [.tokenRead] } := rfl

theorem Async.run_alert {σ : Type} (env : Env) (message : String) (next : Async σ)
    (w : World σ) :
    (Async.alert message next).run env w =
      next.run env { w with trace := w.trace ++ [.alert message] } := rfl

theorem Async.run_confirm {σ : Type} (env : Env) (message : String) (next : Bool → Async σ)
    (w : World σ) :
    (Async.confirm message next).run env w =
      (next (env.confirm message)).run env
        { w with trace := w.trace ++ [.confirm message (env.confirm message)] } := rfl

theorem Async.run_consoleError {σ : Type} (env : Env) (message : String) (next : Async σ)
    (w : World σ) :
    (Async.consoleError message next).run env w =
      next.run env { w with trace := w.trace ++ [.consoleError message] } := rfl

theorem Async.run_await {σ : Type} (env : Env) (request : Request)
    (next : Except NetError request.Payload → Async σ) (w : World σ) :
    (Async.await request next).run env w =
      (next (env.server (requestsOf w.trace) request)).run env
        { w with trace := w.trace ++ [.request request], visible := w.visible ++ [w.state] } :=
  rfl

theorem Async.run_setTimeout {σ : Type} (env : Env) (delay : Nat) (callback next : Async σ)
    (w : World σ) :
    (Async.setTimeout delay callback next).run env w =
      next.run env
        { w with trace := w.trace ++ [.timer delay],
                 timers := w.timers ++ [(delay, callback)] } := rfl

/-- The `catch` of `updateBannerProduct`: a silent reload, then the error
message, with `submitting` lowered at the end. -/
theorem updateBannerProduct_failed_run (env : Env) (message : String)
    (w : World BannerDashboard.State) :
    .getHomepage ∈ requestsOf
        ((BannerDashboard.loadInitialData true
          (.setState (fun prev => { prev with
              error := "Failed to update banner product: " ++ message }) <|
            .consoleError "Product update error:" <|
            .setState (fun prev => { prev with submitting := false }) .done)).run env
          w).trace ∧
      ((BannerDashboard.loadInitialData true
          (.setState (fun prev => { prev with
              error := "Failed to update banner product: " ++ message }) <|
            .consoleError "Product update error:" <|
            .setState (fun prev => { prev with submitting := false }) .done)).run env
          w).state.error = "Failed to update banner product: " ++ message := by
  obtain ⟨w', hrun, hreq, _, _, _, _, _⟩ := banner_loadInitialData_run env true
    (.setState (fun prev => { prev with
        error := "Failed to update banner product: " ++ message }) <|
      .consoleError "Product update error:" <|
      .setState (fun prev => { prev with submitting := false }) .done) w
  rw [hrun]
  simp only [Async.run_setState, Async.run_consoleError, Async.run_done, requestsOf_append,
    requestsOf, List.append_nil, hreq]
  simp

/-! ## Failure of a mutating call (C14) -/

/-- C14 as stated fails: the administrator submits the create form, the server
refuses the call, and `createBanner` sets its error message without asking for
the homepage document again; the only request is the create call. -/
theorem createBanner_no_reload_counterexample :
    adminEnv.server [] (.postBanner "admin-token"
        [("title", .text "Sale"), ("description", .text ""), ("searchProduct", .text "1")]) =
      .error (.status "Forbidden" none "Forbidden") ∧
    requestsOf ((BannerDashboard.createBanner bannersShowing).exec adminEnv
        bannersShowing).trace =
      [.postBanner "admin-token"
        [("title", .text "Sale"), ("description", .text ""), ("searchProduct", .text "1")]] ∧
    Request.getHomepage ∉ requestsOf ((BannerDashboard.createBanner bannersShowing).exec
        adminEnv bannersShowing).trace ∧
    ((BannerDashboard.createBanner bannersShowing).exec adminEnv bannersShowing).state.error =
      "Failed to create banner" := by
  decide

/-- C14, amended: a failure of the backend call of add/remove featured,
add/remove offer and `updateBannerProduct` is followed by a request for the
homepage document and surfaces an error message (an alert on the collection
screens, the error text on the banner screen); a failure of the call of
`createBanner`, `updateBanner` and `deleteBanner` surfaces its error message and
is followed by no request at all, the banner list staying as it was. -/
theorem mutation_failure_handling (env : Env) (token : String) (err : NetError)
    (htoken : Js.nonEmpty? env.token = some token) :
    (∀ (s : FeaturedProducts.State) (product : Product) (w : World FeaturedProducts.State),
        (∀ x ∈ s.homepage.featuredProducts, x._id ≠ product._id) →
        env.server (requestsOf w.trace) (.postFeatured token product._id .add) = .error err →
        (∃ rest, requestsOf ((FeaturedProducts.addToFeatured s product).run env w).trace =
          requestsOf w.trace ++
            .postFeatured token product._id .add :: .getHomepage :: rest) ∧
        .alert ("Error adding featured product: " ++ err.display) ∈
          ((FeaturedProducts.addToFeatured s product).run env w).trace) ∧
    (∀ (productId : String) (w : World FeaturedProducts.State),
        env.server (requestsOf w.trace) (.postFeatured token productId .remove) = .error err →
        (∃ rest, requestsOf ((FeaturedProducts.removeFromFeatured productId).run env w).trace =
          requestsOf w.trace ++
            .postFeatured token productId .remove :: .getHomepage :: rest) ∧
        .alert ("Error removing featured product: " ++ err.display) ∈
          ((FeaturedProducts.removeFromFeatured productId).run env w).trace) ∧
    (∀ (s : TodaysOffers.State) (product : Product) (w : World TodaysOffers.State)
        (priceDetails : PriceDetails),
        (∀ x ∈ s.homepage.todayOffers, x._id ≠ product._id) →
        env.server (requestsOf w.trace)
          (.getPriceDetails product._id (TodaysOffers.addToOffers_initialFilters product)) =
          .ok priceDetails →
        env.server
          (requestsOf w.trace ++
            [.getPriceDetails product._id (TodaysOffers.addToOffers_initialFilters product)])
          (.postOffers token product._id .add) = .error err →
        (∃ rest, requestsOf ((TodaysOffers.addToOffers s product).run env w).trace =
          requestsOf w.trace ++
            .getPriceDetails product._id (TodaysOffers.addToOffers_initialFilters product) ::
            .postOffers token product._id .add :: .getHomepage :: rest) ∧
        .alert ("Error adding today's offer: " ++ err.display) ∈
          ((TodaysOffers.addToOffers s product).run env w).trace) ∧
    (∀ (productId : String) (w : World TodaysOffers.State),
        env.server (requestsOf w.trace) (.postOffers token productId .remove) = .error err →
        (∃ rest, requestsOf ((TodaysOffers.removeFromOffers productId).run env w).trace =
          requestsOf w.trace ++ .postOffers token productId .remove :: .getHomepage :: rest) ∧
        .alert ("Error removing today's offer: " ++ err.display) ∈
          ((TodaysOffers.removeFromOffers productId).run env w).trace) ∧
    (∀ (s : BannerDashboard.State) (banner : Banner),
        s.selectedBanner = some banner →
        (∀ history body, env.server history (.putBanner token banner._id body) = .error err) →
        .getHomepage ∈ requestsOf ((BannerDashboard.updateBannerProduct s).exec env s).trace ∧
        ∃ message, ((BannerDashboard.updateBannerProduct s).exec env s).state.error =
          "Failed to update banner product: " ++ message) ∧
    (∀ s : BannerDashboard.State,
        Js.trim s.formData.title ≠ "" →
        env.server [] (.postBanner token (BannerDashboard.createBanner_submitData s)) =
          .error err →
        requestsOf ((BannerDashboard.createBanner s).exec env s).trace =
          [.postBanner token (BannerDashboard.createBanner_submitData s)] ∧
        ((BannerDashboard.createBanner s).exec env s).state.error = "Failed to create banner" ∧
        ((BannerDashboard.createBanner s).exec env s).state.banners = s.banners) ∧
    (∀ (s : BannerDashboard.State) (banner : Banner),
        Js.trim s.formData.title ≠ "" →
        s.selectedBanner = some banner →
        env.server [] (.putBanner token banner._id (BannerDashboard.updateBanner_submitData s)) =
          .error err →
        requestsOf ((BannerDashboard.updateBanner s).exec env s).trace =
          [.putBanner token banner._id (BannerDashboard.updateBanner_submitData s)] ∧
        ((BannerDashboard.updateBanner s).exec env s).state.error = "Failed to update banner" ∧
        ((BannerDashboard.updateBanner s).exec env s).state.banners = s.banners) ∧
    (∀ (s : BannerDashboard.State) (bannerId : String),
        env.confirm "Are you sure you want to delete this banner?" = true →
        env.server [] (.deleteBanner token bannerId) = .error err →
        requestsOf ((BannerDashboard.deleteBanner bannerId).exec env s).trace =
          [.deleteBanner token bannerId] ∧
        ((BannerDashboard.deleteBanner bannerId).exec env s).state.error =
          "Failed to delete banner" ∧
        ((BannerDashboard.deleteBanner bannerId).exec env s).state.banners = s.banners) := by
  refine ⟨?_, ?_, ?_, ?_, ?_, ?_, ?_, ?_⟩
  · intro s product w habsent hpost
    rw [addToFeatured_run_error env s product token err w habsent htoken hpost]
    obtain ⟨⟨rest, hreq, _⟩, _, halert⟩ := featured_rollback_trace env
      ("Error adding featured product: " ++ err.display)
      { state := { w.state with homepage := { w.state.homepage with
          featuredProducts := w.state.homepage.featuredProducts ++ [product] } }
        trace := w.trace ++ [.tokenRead, .request (.postFeatured token product._id .add)]
        visible := w.visible ++ [{ w.state with homepage := { w.state.homepage with
          featuredProducts := w.state.homepage.featuredProducts ++ [product] } }]
        timers := w.timers }
    exact ⟨⟨rest, by rw [hreq]; simp [requestsOf_append, requestsOf]⟩, halert⟩
  · intro productId w hpost
    rw [removeFromFeatured_run_error env productId token err w htoken hpost]
    obtain ⟨⟨rest, hreq, _⟩, _, halert⟩ := featured_rollback_trace env
      ("Error removing featured product: " ++ err.display)
      { state := { w.state with homepage := { w.state.homepage with
          featuredProducts := w.state.homepage.featuredProducts.filter
            (fun p => p._id != productId) } }
        trace := w.trace ++ [.tokenRead, .request (.postFeatured token productId .remove)]
        visible := w.visible ++ [{ w.state with homepage := { w.state.homepage with
          featuredProducts := w.state.homepage.featuredProducts.filter
            (fun p => p._id != productId) } }]
        timers := w.timers }
    exact ⟨⟨rest, by rw [hreq]; simp [requestsOf_append, requestsOf]⟩, halert⟩
  · intro s product w priceDetails habsent hprice hpost
    rw [addToOffers_run_error env s product token priceDetails err w habsent htoken hprice
      hpost]
    obtain ⟨⟨rest, hreq⟩, _, halert⟩ := offers_rollback_trace env
      ("Error adding today's offer: " ++ err.display)
      { state := { w.state with homepage := { w.state.homepage with
          todayOffers := w.state.homepage.todayOffers ++
            [TodaysOffers.addToOffers_priced product priceDetails] } }
        trace := w.trace ++
          [.tokenRead,
            .request (.getPriceDetails product._id
              (TodaysOffers.addToOffers_initialFilters product)),
            .request (.postOffers token product._id .add)]
        visible := w.visible ++ [w.state, { w.state with homepage := { w.state.homepage with
          todayOffers := w.state.homepage.todayOffers ++
            [TodaysOffers.addToOffers_priced product priceDetails] } }]
        timers := w.timers }
    exact ⟨⟨rest, by rw [hreq]; simp [requestsOf_append, requestsOf]⟩, halert⟩
  · intro productId w hpost
    rw [removeFromOffers_run_error env productId token err w htoken hpost]
    obtain ⟨⟨rest, hreq⟩, _, halert⟩ := offers_rollback_trace env
      ("Error removing today's offer: " ++ err.display)
      { state := { w.state with homepage := { w.state.homepage with
          todayOffers := w.state.homepage.todayOffers.filter (fun p => p._id != productId) } }
        trace := w.trace ++ [.tokenRead, .request (.postOffers token productId .remove)]
        visible := w.visible ++ [{ w.state with homepage := { w.state.homepage with
          todayOffers := w.state.homepage.todayOffers.filter
            (fun p => p._id != productId) } }]
        timers := w.timers }
    exact ⟨⟨rest, by rw [hreq]; simp [requestsOf_append, requestsOf]⟩, halert⟩
  · intro s banner hs hput
    have fin := fun message w => updateBannerProduct_failed_run env message w
    simp only [BannerDashboard.updateBannerProduct, Async.exec, Async.run_getToken, htoken,
      Async.run_setState, hs]
    repeat' first
      | exact ⟨(fin _ _).1, _, (fin _ _).2⟩
      | simp only [Async.run_await, Async.run_setState, hput]
      | split
  · intro s htitle hpost
    have ht := (Js.truthy_trim_iff s.formData.title).2 htitle
    simp [BannerDashboard.createBanner, ht, Async.exec, Async.run, htoken, requestsOf, hpost]
  · intro s banner htitle hs hput
    have ht := (Js.truthy_trim_iff s.formData.title).2 htitle
    simp [BannerDashboard.updateBanner, ht, Async.exec, Async.run, htoken, requestsOf, hs, hput]
  · intro s bannerId hconfirm hdelete
    simp [BannerDashboard.deleteBanner, Async.exec, Async.run, htoken, requestsOf, hconfirm,
      hdelete]

/-- The amended C14 on concrete screens: behind the outage the four collection
operations reload and alert; behind the server that refuses banner calls the
product update reloads, and create, update and delete only set their message. -/
theorem mutation_failure_handling_witness :
    (Js.nonEmpty? outageEnv.token = some "admin-token" ∧
      ((∃ rest, requestsOf ((FeaturedProducts.addToFeatured (featuredShowing []) shoe).run
            outageEnv { state := featuredShowing [], trace := [], visible := [],
                        timers := [] }).trace =
          requestsOf [] ++ .postFeatured "admin-token" shoe._id .add :: .getHomepage :: rest) ∧
        .alert ("Error adding featured product: " ++ outageError.display) ∈
          ((FeaturedProducts.addToFeatured (featuredShowing []) shoe).run outageEnv
            { state := featuredShowing [], trace := [], visible := [], timers := [] }).trace) ∧
      ((∃ rest, requestsOf ((FeaturedProducts.removeFromFeatured "1").run
            outageEnv { state := featuredShowing [shoe], trace := [], visible := [],
                        timers := [] }).trace =
          requestsOf [] ++ .postFeatured "admin-token" "1" .remove :: .getHomepage :: rest) ∧
        .alert ("Error removing featured product: " ++ outageError.display) ∈
          ((FeaturedProducts.removeFromFeatured "1").run outageEnv
            { state := featuredShowing [shoe], trace := [], visible := [],
              timers := [] }).trace) ∧
      ((∃ rest, requestsOf ((TodaysOffers.addToOffers (offersShowing []) shoe).run
            outageEnv { state := offersShowing [], trace := [], visible := [],
                        timers := [] }).trace =
          requestsOf [] ++
            .getPriceDetails shoe._id (TodaysOffers.addToOffers_initialFilters shoe) ::
            .postOffers "admin-token" shoe._id .add :: .getHomepage :: rest) ∧
        .alert ("Error adding today's offer: " ++ outageError.display) ∈
          ((TodaysOffers.addToOffers (offersShowing []) shoe).run outageEnv
            { state := offersShowing [], trace := [], visible := [], timers := [] }).trace) ∧
      ((∃ rest, requestsOf ((TodaysOffers.removeFromOffers "1").run
            outageEnv { state := offersShowing [shoe], trace := [], visible := [],
                        timers := [] }).trace =
          requestsOf [] ++ .postOffers "admin-token" "1" .remove :: .getHomepage :: rest) ∧
        .alert ("Error removing today's offer: " ++ outageError.display) ∈
          ((TodaysOffers.removeFromOffers "1").run outageEnv
            { state := offersShowing [shoe], trace := [], visible := [],
              timers := [] }).trace)) ∧
    (Js.nonEmpty? adminEnv.token = some "admin-token" ∧
      (.getHomepage ∈ requestsOf ((BannerDashboard.updateBannerProduct bannersShowing).exec
          adminEnv bannersShowing).trace ∧
        ∃ message, ((BannerDashboard.updateBannerProduct bannersShowing).exec adminEnv
          bannersShowing).state.error = "Failed to update banner product: " ++ message) ∧
      (requestsOf ((BannerDashboard.createBanner bannersShowing).exec adminEnv
          bannersShowing).trace =
          [.postBanner "admin-token" (BannerDashboard.createBanner_submitData bannersShowing)] ∧
        ((BannerDashboard.createBanner bannersShowing).exec adminEnv bannersShowing).state.error =
          "Failed to create banner" ∧
        ((BannerDashboard.createBanner bannersShowing).exec adminEnv
          bannersShowing).state.banners = bannersShowing.banners) ∧
      (requestsOf ((BannerDashboard.updateBanner bannersShowing).exec adminEnv
          bannersShowing).trace =
          [.putBanner "admin-token" saleBanner._id
            (BannerDashboard.updateBanner_submitData bannersShowing)] ∧
        ((BannerDashboard.updateBanner bannersShowing).exec adminEnv bannersShowing).state.error =
          "Failed to update banner" ∧
        ((BannerDashboard.updateBanner bannersShowing).exec adminEnv
          bannersShowing).state.banners = bannersShowing.banners) ∧
      (requestsOf ((BannerDashboard.deleteBanner "b1").exec adminEnv bannersShowing).trace =
          [.deleteBanner "admin-token" "b1"] ∧
        ((BannerDashboard.deleteBanner "b1").exec adminEnv bannersShowing).state.error =
          "Failed to delete banner" ∧
        ((BannerDashboard.deleteBanner "b1").exec adminEnv bannersShowing).state.banners =
          bannersShowing.banners)) :=
  ⟨⟨by decide,
      (mutation_failure_handling outageEnv "admin-token" outageError (by decide)).1
        (featuredShowing []) shoe
        { state := featuredShowing [], trace := [], visible := [], timers := [] }
        (by decide) rfl,
      (mutation_failure_handling outageEnv "admin-token" outageError (by decide)).2.1
        "1" { state := featuredShowing [shoe], trace := [], visible := [], timers := [] } rfl,
      (mutation_failure_handling outageEnv "admin-token" outageError (by decide)).2.2.1
        (offersShowing []) shoe
        { state := offersShowing [], trace := [], visible := [], timers := [] }
        { effectivePrice := some 150, normalPrice := some 200 } (by decide) rfl rfl,
      (mutation_failure_handling outageEnv "admin-token" outageError (by decide)).2.2.2.1
        "1" { state := offersShowing [shoe], trace := [], visible := [], timers := [] } rfl⟩,
    by decide,
    (mutation_failure_handling adminEnv "admin-token" (.status "Forbidden" none "Forbidden")
      (by decide)).2.2.2.2.1 bannersShowing saleBanner rfl (fun _ _ => rfl),
    (mutation_failure_handling adminEnv "admin-token" (.status "Forbidden" none "Forbidden")
      (by decide)).2.2.2.2.2.1 bannersShowing (by decide) rfl,
    (mutation_failure_handling adminEnv "admin-token" (.status "Forbidden" none "Forbidden")
      (by decide)).2.2.2.2.2.2.1 bannersShowing saleBanner (by decide) rfl rfl,
    (mutation_failure_handling adminEnv "admin-token" (.status "Forbidden" none "Forbidden")
      (by decide)).2.2.2.2.2.2.2 bannersShowing "b1" rfl rfl⟩

/-! ## Lemmas on the default filter selection -/

theorem lookup_cons_self (k v : String) (es : List (String × String)) :
    List.lookup k ((k, v) :: es) = some v := by
  simp [List.lookup]

theorem lookup_cons_ne (k k0 v : String) (es : List (String × String)) (h : k ≠ k0) :
    List.lookup k ((k0, v) :: es) = List.lookup k es := by
  have : (k == k0) = false := by simpa using h
  simp [List.lookup, this]

theorem lookup_map_setProp (obj : List (String × String)) (key value k : String) :
    (obj.map (fun kv => if kv.1 == key then (key, value) else kv)).lookup k =
      if k = key then (if obj.any (fun kv => kv.1 == key) then some value else none)
      else obj.lookup k := by
  induction obj with
  | nil => simp
  | cons kv obj ih =>
    obtain ⟨k0, v0⟩ := kv
    rw [List.map_cons, List.any_cons]
    dsimp only
    by_cases h0 : k0 = key
    · subst h0
      rw [if_pos (by simp)]
      by_cases hk : k = k0
      · subst hk
        rw [lookup_cons_self]
        simp
      · rw [lookup_cons_ne _ _ _ _ hk, lookup_cons_ne _ _ _ _ hk, ih, if_neg hk, if_neg hk]
    · have h0' : (k0 == key) = false := by simpa using h0
      rw [if_neg (by simp [h0]), h0', Bool.false_or]
      by_cases hk : k = k0
      · subst hk
        rw [lookup_cons_self, lookup_cons_self, if_neg h0]
      · rw [lookup_cons_ne _ _ _ _ hk, lookup_cons_ne _ _ _ _ hk, ih]

theorem lookup_append_singleton (obj : List (String × String)) (key value k : String) :
    (obj ++ [(key, value)]).lookup k =
      match obj.lookup k with
      | some v => some v
      | none => if k = key then some value else none := by
  induction obj with
  | nil =>
    by_cases hk : k = key
    · subst hk; simp [lookup_cons_self]
    · simp [lookup_cons_ne _ _ _ _ hk, hk]
  | cons kv obj ih =>
    obtain ⟨k0, v0⟩ := kv
    rw [List.cons_append]
    by_cases hk0 : k = k0
    · subst hk0; rw [lookup_cons_self, lookup_cons_self]
    · rw [lookup_cons_ne _ _ _ _ hk0, lookup_cons_ne _ _ _ _ hk0, ih]

theorem lookup_eq_none_of_not_any (obj : List (String × String)) (key : String)
    (h : obj.any (fun kv => kv.1 == key) = false) : obj.lookup key = none := by
  induction obj with
  | nil => rfl
  | cons kv obj ih =>
    obtain ⟨k0, v0⟩ := kv
    rw [List.any_cons, Bool.or_eq_false_iff] at h
    have hne : key ≠ k0 := by
      intro h'
      have := h.1
      simp [h'] at this
    rw [lookup_cons_ne _ _ _ _ hne, ih h.2]

theorem lookup_setProp (obj : List (String × String)) (key value k : String) :
    (Js.setProp obj key value).lookup k = if k = key then some value else obj.lookup k := by
  unfold Js.setProp
  by_cases hany : obj.any (fun kv => kv.1 == key) = true
  · rw [if_pos hany, lookup_map_setProp, if_pos hany]
  · have hany' : obj.any (fun kv => kv.1 == key) = false := Bool.eq_false_iff.2 hany
    rw [if_neg hany, lookup_append_singleton]
    by_cases hk : k = key
    · subst hk
      rw [lookup_eq_none_of_not_any obj k hany']
    · rw [if_neg hk]
      cases obj.lookup k <;> simp [hk]

/-- One pass of the loop body. -/
theorem selection_step (initialFilters : List (String × String)) (filter : ProductFilter) :
    (match filter.values with
      | some (first :: _) => Js.setProp initialFilters filter.name first
      | _ => initialFilters) =
    match filter.firstValue with
    | some first => Js.setProp initialFilters filter.name first
    | none => initialFilters := by
  unfold ProductFilter.firstValue
  rcases filter.values with _ | _ | ⟨first, rest⟩ <;> rfl

theorem selection_lookup (filters : List ProductFilter) (k : String) :
    (filters.foldl (fun initialFilters filter =>
        match filter.values with
        | some (first :: _) => Js.setProp initialFilters filter.name first
        | _ => initialFilters) []).lookup k =
      ((filters.filter (fun f => f.name == k && f.firstValue.isSome)).getLast?).bind
        ProductFilter.firstValue := by
  induction filters using List.reverseRecOn with
  | nil => rfl
  | append_singleton fs f ih =>
    rw [List.foldl_append, List.foldl_cons, List.foldl_nil, selection_step, List.filter_append]
    cases hv : f.firstValue with
    | none =>
      simp only [List.filter_cons, List.filter_nil, hv, Option.isSome_none, Bool.and_false,
        Bool.false_eq_true, if_false, List.append_nil]
      exact ih
    | some v =>
      simp only [lookup_setProp]
      by_cases hk : k = f.name
      · subst hk
        simp [List.filter_cons, hv]
      · have : (f.name == k) = false := by simpa using (Ne.symm hk)
        simp only [hk, if_false, List.filter_cons, this, Bool.false_and, Bool.false_eq_true,
          List.filter_nil, List.append_nil]
        exact ih

theorem selection_distinct (filters : List ProductFilter)
    (h : (filters.map (fun f => f.name)).Nodup) :
    filters.foldl (fun initialFilters filter =>
        match filter.values with
        | some (first :: _) => Js.setProp initialFilters filter.name first
        | _ => initialFilters) [] =
      filters.filterMap (fun f => f.firstValue.map (fun first => (f.name, first))) := by
  induction filters using List.reverseRecOn with
  | nil => rfl
  | append_singleton fs f ih =>
    rw [List.map_append, List.nodup_append] at h
    obtain ⟨hfs, _, hdisj⟩ := h
    rw [List.foldl_append, List.foldl_cons, List.foldl_nil, selection_step, ih hfs,
      List.filterMap_append]
    cases hv : f.firstValue with
    | none => simp [hv]
    | some v =>
      have hany : (List.filterMap (fun f => f.firstValue.map (fun first => (f.name, first))) fs).any
          (fun kv => kv.1 == f.name) = false := by
        rw [Bool.eq_false_iff]
        intro hany
        rw [List.any_eq_true] at hany
        obtain ⟨kv, hkv, hname⟩ := hany
        rw [List.mem_filterMap] at hkv
        obtain ⟨g, hg, hgv⟩ := hkv
        cases hgf : g.firstValue with
        | none => rw [hgf] at hgv; cases hgv
        | some u =>
          rw [hgf] at hgv
          simp only [Option.map_some', Option.some.injEq] at hgv
          subst hgv
          have hn : g.name = f.name := by simpa using hname
          exact hdisj (List.mem_map.2 ⟨g, hg, hn⟩) (by simp)
      simp [Js.setProp, hany, hv]

/-! ## The default filter selection (C15) -/

/-- C15 as stated fails when two filter definitions share a name: of two
definitions named "size" with first values "M" and "L" the selection maps the
name to "L", so the first definition is not mapped to its own first value; and a
definition with an empty values sequence still finds an entry under its name
when a later definition of that name has values. -/
theorem initialFilters_duplicate_counterexample :
    TodaysOffers.fetchOfferPrices_initialFilters twoSizes = [("size", "L")] ∧
      TodaysOffers.addToOffers_initialFilters twoSizes = [("size", "L")] ∧
      (∃ f ∈ twoSizes.filterList, f.values = some ["M"] ∧
        (TodaysOffers.fetchOfferPrices_initialFilters twoSizes).lookup f.name ≠ some "M") ∧
      TodaysOffers.fetchOfferPrices_initialFilters lateSize = [("size", "L")] ∧
      TodaysOffers.addToOffers_initialFilters lateSize = [("size", "L")] ∧
      (∃ f ∈ lateSize.filterList, f.values = some [] ∧
        (TodaysOffers.fetchOfferPrices_initialFilters lateSize).lookup f.name ≠ none) := by
  decide

/-- C15, amended: for every product, at both places where it is built, the
default filter selection holds under each filter name the first value of the
last definition of that name that has a non-empty values sequence, and nothing
under a name without such a definition; when the filter names are pairwise
distinct its entries are exactly the definitions with a non-empty values
sequence, each mapped to its first value, with no entry for a definition whose
values are empty or missing; a product with no filters yields the empty
selection. -/
theorem initialFilters_spec (product : Product) :
    (∀ k, (TodaysOffers.fetchOfferPrices_initialFilters product).lookup k =
        ((product.filterList.filter (fun f => f.name == k && f.firstValue.isSome)).getLast?).bind
          ProductFilter.firstValue) ∧
    (∀ k, (TodaysOffers.addToOffers_initialFilters product).lookup k =
        ((product.filterList.filter (fun f => f.name == k && f.firstValue.isSome)).getLast?).bind
          ProductFilter.firstValue) ∧
    ((product.filterList.map (fun f => f.name)).Nodup →
      (∀ k v, (k, v) ∈ TodaysOffers.fetchOfferPrices_initialFilters product ↔
          ∃ f ∈ product.filterList, f.name = k ∧ f.firstValue = some v) ∧
        (∀ k v, (k, v) ∈ TodaysOffers.addToOffers_initialFilters product ↔
          ∃ f ∈ product.filterList, f.name = k ∧ f.firstValue = some v)) ∧
    (product.filterList = [] →
      TodaysOffers.fetchOfferPrices_initialFilters product = [] ∧
        TodaysOffers.addToOffers_initialFilters product = []) := by
  have hmem : ∀ (filters : List ProductFilter) (k v : String),
      (k, v) ∈ filters.filterMap (fun f => f.firstValue.map (fun first => (f.name, first))) ↔
        ∃ f ∈ filters, f.name = k ∧ f.firstValue = some v := by
    intro filters k v
    rw [List.mem_filterMap]
    constructor
    · rintro ⟨f, hf, hfv⟩
      cases hv : f.firstValue with
      | none => rw [hv] at hfv; cases hfv
      | some u =>
        rw [hv] at hfv
        simp only [Option.map_some', Option.some.injEq, Prod.mk.injEq] at hfv
        exact ⟨f, hf, hfv.1, by rw [hv, hfv.2]⟩
    · rintro ⟨f, hf, hname, hv⟩
      exact ⟨f, hf, by simp [hv, hname]⟩
  unfold TodaysOffers.fetchOfferPrices_initialFilters TodaysOffers.addToOffers_initialFilters
    Product.filterList
  cases hf : product.filters with
  | none => simp
  | some filters =>
    simp only [Option.getD_some]
    refine ⟨fun k => selection_lookup filters k, fun k => selection_lookup filters k,
      fun h => ?_, ?_⟩
    · rw [selection_distinct filters h]
      exact ⟨hmem filters, hmem filters⟩
    · intro h
      subst h
      exact ⟨rfl, rfl⟩

/-- The amended C15 on a product with the filters size (M, L), colour (no
values) and width (wide): the selection is size M, width wide; and on the shoe,
which has no filters. -/
theorem initialFilters_spec_witness :
    (threeFilters.filterList.map (fun f => f.name)).Nodup ∧
      ((∀ k v, (k, v) ∈ TodaysOffers.fetchOfferPrices_initialFilters threeFilters ↔
          ∃ f ∈ threeFilters.filterList, f.name = k ∧ f.firstValue = some v) ∧
        (∀ k v, (k, v) ∈ TodaysOffers.addToOffers_initialFilters threeFilters ↔
          ∃ f ∈ threeFilters.filterList, f.name = k ∧ f.firstValue = some v)) ∧
      TodaysOffers.fetchOfferPrices_initialFilters threeFilters =
        [("size", "M"), ("width", "wide")] ∧
      TodaysOffers.addToOffers_initialFilters threeFilters =
        [("size", "M"), ("width", "wide")] ∧
      shoe.filterList = [] ∧
      (TodaysOffers.fetchOfferPrices_initialFilters shoe = [] ∧
        TodaysOffers.addToOffers_initialFilters shoe = []) :=
  ⟨by decide, (initialFilters_spec threeFilters).2.2.1 (by decide), by decide, by decide,
    by decide, (initialFilters_spec shoe).2.2.2 (by decide)⟩

/-! ## Memoised and isolated decoration (C16, C17) -/

theorem pricingRequests_eq_filter :
    ∀ offers : List Product,
      TodaysOffers.pricingRequests offers =
        (offers.filter (fun p => !p.displayPrice.isSome)).map (fun p =>
          Request.getPriceDetails p._id (TodaysOffers.fetchOfferPrices_initialFilters p))
  | [] => rfl
  | product :: offers => by
    unfold TodaysOffers.pricingRequests
    cases hd : product.displayPrice <;>
      simp [List.filter_cons, hd, pricingRequests_eq_filter offers]

/-- C16: `fetchOfferPrices` keeps every product that carries `displayPrice` as
it is and sends pricing requests for the other products only; hence decoration
is idempotent: whatever the pricing endpoint does, on the first pass or the
second, decorating a decorated list returns that list and sends no request. -/
theorem fetchOfferPrices_idempotent (env env' : Env) (offers : List Product)
    (history history' : List Request) :
    (∀ (j : Nat) (product : Product), offers[j]? = some product →
        product.displayPrice.isSome = true →
        (TodaysOffers.pricedOffers env history offers)[j]? = some product) ∧
      requestsOf (TodaysOffers.pricingEvents env history offers) =
        (offers.filter (fun p => !p.displayPrice.isSome)).map (fun p =>
          Request.getPriceDetails p._id (TodaysOffers.fetchOfferPrices_initialFilters p)) ∧
      TodaysOffers.pricedOffers env' history'
          (TodaysOffers.pricedOffers env history offers) =
        TodaysOffers.pricedOffers env history offers ∧
      TodaysOffers.pricingEvents env' history'
          (TodaysOffers.pricedOffers env history offers) = [] ∧
      (∀ (σ : Type) (next : List Product → Async σ),
        TodaysOffers.fetchOfferPrices (TodaysOffers.pricedOffers env history offers) next =
          next (TodaysOffers.pricedOffers env history offers)) ∧
      (∀ (σ : Type) (next : List Product → Async σ) (w : World σ),
        (TodaysOffers.fetchOfferPrices offers
            (fun once => TodaysOffers.fetchOfferPrices once next)).run env w =
          (TodaysOffers.fetchOfferPrices offers next).run env w) := by
  have hpriced := pricedOffers_priced env offers history
  refine ⟨?_, ?_, pricedOffers_of_priced env' _ history' hpriced,
    pricingEvents_of_priced env' _ history' hpriced,
    fun σ next => fetchOfferPrices_of_priced _ next hpriced, ?_⟩
  · intro j product hj hd
    rw [pricedOffers_getElem?, hj, Option.map_some', decorated_of_priced _ _ hd]
  · rw [requestsOf_pricingEvents, pricingRequests_eq_filter]
  · intro σ next w
    rw [fetchOfferPrices_run env offers next w, fetchOfferPrices_run env offers _ w,
      fetchOfferPrices_of_priced _ next (pricedOffers_priced env offers _)]

/-- Decorating twice on a concrete list: the hat without prices and the stale
shoe, which carries `displayPrice` 10 and is kept as it is. -/
theorem fetchOfferPrices_idempotent_witness :
    [hat, staleShoe][1]? = some staleShoe ∧ staleShoe.displayPrice.isSome = true ∧
      (TodaysOffers.pricedOffers adminEnv [] [hat, staleShoe])[1]? = some staleShoe ∧
      requestsOf (TodaysOffers.pricingEvents adminEnv [] [hat, staleShoe]) =
        [.getPriceDetails "7" [("size", "M")]] :=
  ⟨by decide, by decide,
    (fetchOfferPrices_idempotent adminEnv outageEnv [hat, staleShoe] [] []).1 1 staleShoe
      (by decide) (by decide),
    by
      rw [(fetchOfferPrices_idempotent adminEnv outageEnv [hat, staleShoe] [] []).2.1]
      decide⟩

/-- C17: for every product list and every behaviour of the pricing endpoint,
`fetchOfferPrices` never fails: it reaches its continuation with a list of the
same length whose entry `j` is product `j` decorated from the outcome of that
product's own lookup alone; a failed lookup gives that product with
`displayPrice`, `originalPrice` and `discount` 0; and changing the outcome of
the lookup of product `i` changes no other entry. -/
theorem fetchOfferPrices_isolated (env : Env) (offers : List Product)
    (history : List Request) :
    (TodaysOffers.pricedOffers env history offers).length = offers.length ∧
      (∀ j, (TodaysOffers.pricedOffers env history offers)[j]? =
        offers[j]?.map (fun product =>
          TodaysOffers.decorated product
            (env.server (history ++ TodaysOffers.pricingRequests (offers.take j))
              (.getPriceDetails product._id
                (TodaysOffers.fetchOfferPrices_initialFilters product))))) ∧
      (∀ (product : Product) (err : NetError), product.displayPrice = none →
        TodaysOffers.decorated product (.error err) =
          { product with displayPrice := some 0, originalPrice := some 0,
                         discount := some 0 }) ∧
      (∀ (product : Product) (priceDetails : PriceDetails), product.displayPrice = none →
        TodaysOffers.decorated product (.ok priceDetails) =
          TodaysOffers.fetchOfferPrices_priced product priceDetails) ∧
      (∀ (env' : Env) (i : Nat),
        (∀ (j : Nat) (product : Product), j ≠ i → offers[j]? = some product →
          env'.server (history ++ TodaysOffers.pricingRequests (offers.take j))
              (.getPriceDetails product._id
                (TodaysOffers.fetchOfferPrices_initialFilters product)) =
            env.server (history ++ TodaysOffers.pricingRequests (offers.take j))
              (.getPriceDetails product._id
                (TodaysOffers.fetchOfferPrices_initialFilters product))) →
        ∀ j, j ≠ i →
          (TodaysOffers.pricedOffers env' history offers)[j]? =
            (TodaysOffers.pricedOffers env history offers)[j]?) ∧
      (∀ (σ : Type) (next : List Product → Async σ) (w : World σ),
        ∃ w', (TodaysOffers.fetchOfferPrices offers next).run env w =
            (next (TodaysOffers.pricedOffers env (requestsOf w.trace) offers)).run env w' ∧
          w'.state = w.state) := by
  refine ⟨pricedOffers_length env offers history, pricedOffers_getElem? env offers history,
    ?_, ?_, ?_, ?_⟩
  · intro product err h
    simp [TodaysOffers.decorated, h, TodaysOffers.fetchOfferPrices_unpriced]
  · intro product priceDetails h
    simp [TodaysOffers.decorated, h]
  · intro env' i hagree j hj
    rw [pricedOffers_getElem?, pricedOffers_getElem?]
    cases hx : offers[j]? with
    | none => rfl
    | some product =>
      simp only [Option.map_some', hagree j product hj hx]
  · intro σ next w
    exact ⟨_, fetchOfferPrices_run env offers next w, rfl⟩

/-- Isolation on a concrete list: the outage server and the scenario server
answer the pricing lookups alike, so the entries agree; the hat's entry is the
hat decorated from its own answer. -/
theorem fetchOfferPrices_isolated_witness :
    hat.displayPrice = none ∧
      TodaysOffers.decorated hat (.error outageError) =
        { hat with displayPrice := some 0, originalPrice := some 0, discount := some 0 } ∧
      (∀ (j : Nat) (product : Product), j ≠ 0 → [hat, shoe][j]? = some product →
        outageEnv.server ([] ++ TodaysOffers.pricingRequests ([hat, shoe].take j))
            (.getPriceDetails product._id
              (TodaysOffers.fetchOfferPrices_initialFilters product)) =
          adminEnv.server ([] ++ TodaysOffers.pricingRequests ([hat, shoe].take j))
            (.getPriceDetails product._id
              (TodaysOffers.fetchOfferPrices_initialFilters product))) ∧
      (TodaysOffers.pricedOffers outageEnv [] [hat, shoe])[1]? =
        (TodaysOffers.pricedOffers adminEnv [] [hat, shoe])[1]? :=
  ⟨rfl, (fetchOfferPrices_isolated adminEnv [hat, shoe] []).2.2.1 hat outageError rfl,
    fun _ _ _ _ => rfl,
    (fetchOfferPrices_isolated adminEnv [hat, shoe] []).2.2.2.2.1 outageEnv 0
      (fun _ _ _ _ => rfl) 1 (by decide)⟩

/-! ## Validation and confirmation on the banner screen (C18, C19) -/

/-- C18: for every form whose title is empty or white space only, with or
without a token, `createBanner` and `updateBanner` set the error 'Banner title
is required' and do nothing else: no effect is performed (no token read, no
request), and every other part of the state, the banner list and the
`submitting` flag included, stays as it was. -/
theorem blank_title_rejected (env : Env) (s : BannerDashboard.State)
    (htitle : Js.trim s.formData.title = "") :
    ((BannerDashboard.createBanner s).exec env s).state =
        { s with error := "Banner title is required" } ∧
      ((BannerDashboard.createBanner s).exec env s).trace = [] ∧
      ((BannerDashboard.updateBanner s).exec env s).state =
        { s with error := "Banner title is required" } ∧
      ((BannerDashboard.updateBanner s).exec env s).trace = [] := by
  have ht := Js.truthy_trim_false _ htitle
  simp [BannerDashboard.createBanner, BannerDashboard.updateBanner, ht, Async.exec, Async.run]

/-- A title of two blanks, submitted by the logged-in administrator. -/
theorem blank_title_rejected_witness :
    Js.trim ({ bannersShowing with
        formData := { bannersShowing.formData with title := "  " } }).formData.title = "" ∧
      ((BannerDashboard.createBanner { bannersShowing with
          formData := { bannersShowing.formData with title := "  " } }).exec adminEnv
        { bannersShowing with
          formData := { bannersShowing.formData with title := "  " } }).state.banners =
        [saleBanner] ∧
      ((BannerDashboard.createBanner { bannersShowing with
          formData := { bannersShowing.formData with title := "  " } }).exec adminEnv
        { bannersShowing with
          formData := { bannersShowing.formData with title := "  " } }).trace = [] :=
  ⟨by decide,
    by
      rw [(blank_title_rejected adminEnv { bannersShowing with
        formData := { bannersShowing.formData with title := "  " } } (by decide)).1]
      rfl,
    (blank_title_rejected adminEnv { bannersShowing with
      formData := { bannersShowing.formData with title := "  " } } (by decide)).2.1⟩

/-- C19: for every banner id and state, when the user declines the confirmation
`deleteBanner` stops there: the dialog is its only effect, so no request is
issued and no token is read, and the state, with `banners`, `error` and
`success`, is unchanged. -/
theorem deleteBanner_declined (env : Env) (s : BannerDashboard.State) (bannerId : String)
    (hdeclined : env.confirm "Are you sure you want to delete this banner?" = false) :
    ((BannerDashboard.deleteBanner bannerId).exec env s).state = s ∧
      ((BannerDashboard.deleteBanner bannerId).exec env s).trace =
        [.confirm "Are you sure you want to delete this banner?" false] ∧
      requestsOf ((BannerDashboard.deleteBanner bannerId).exec env s).trace = [] ∧
      Event.tokenRead ∉ ((BannerDashboard.deleteBanner bannerId).exec env s).trace := by
  simp [BannerDashboard.deleteBanner, Async.exec, Async.run, hdeclined, requestsOf]

/-- A declined confirmation on the banner screen. -/
theorem deleteBanner_declined_witness :
    decliningEnv.confirm "Are you sure you want to delete this banner?" = false ∧
      ((BannerDashboard.deleteBanner "b1").exec decliningEnv bannersShowing).state =
        bannersShowing ∧
      requestsOf ((BannerDashboard.deleteBanner "b1").exec decliningEnv bannersShowing).trace =
        [] :=
  ⟨rfl, (deleteBanner_declined decliningEnv bannersShowing "b1" rfl).1,
    (deleteBanner_declined decliningEnv bannersShowing "b1" rfl).2.2.1⟩

/-! ## Reload after a successful banner mutation (C20) -/

/-- C20 as stated fails when the reload itself fails: the create call succeeds,
the homepage document cannot be fetched, and the banner list shown afterwards
is the list from before, next to both the load error and the success message. -/
theorem createBanner_reload_failure_counterexample :
    reloadDownEnv.server [] (.postBanner "admin-token"
        (BannerDashboard.createBanner_submitData bannersShowing)) = .ok rawBanner ∧
      requestsOf ((BannerDashboard.createBanner bannersShowing).exec reloadDownEnv
          bannersShowing).trace =
        [.postBanner "admin-token" (BannerDashboard.createBanner_submitData bannersShowing),
          .getHomepage, .getProducts] ∧
      ((BannerDashboard.createBanner bannersShowing).exec reloadDownEnv
          bannersShowing).state.banners = [saleBanner] ∧
      ((BannerDashboard.createBanner bannersShowing).exec reloadDownEnv
          bannersShowing).state.error = "Failed to load data. Please try again." ∧
      ((BannerDashboard.createBanner bannersShowing).exec reloadDownEnv
          bannersShowing).state.success = "Banner created successfully" := by
  decide


/-! ## The success branch of the banner triad -/

/-- A successful create call leads to the full reload, run with `submitting`
raised, and then to the closing steps. -/
theorem createBanner_run_ok (env : Env) (s : BannerDashboard.State) (token : String)
    (newBanner : Banner) (htitle : Js.trim s.formData.title ≠ "")
    (htoken : Js.nonEmpty? env.token = some token)
    (hpost : env.server [] (.postBanner token (BannerDashboard.createBanner_submitData s)) =
      .ok newBanner) :
    (BannerDashboard.createBanner s).exec env s =
      (BannerDashboard.loadInitialData false
        (.setState (fun prev => { prev with showCreateModal := false }) <|
          .setState (fun prev => { prev with success := "Banner created successfully" }) <|
          BannerDashboard.resetForm <|
          .setState (fun prev => { prev with submitting := false }) .done)).run env
        { state := { s with submitting := true }
          trace := [.tokenRead,
            .request (.postBanner token (BannerDashboard.createBanner_submitData s))]
          visible := [{ s with submitting := true }]
          timers := [] } := by
  have ht := (Js.truthy_trim_iff s.formData.title).2 htitle
  simp only [BannerDashboard.createBanner, ht, Bool.not_true, Bool.false_eq_true, if_false,
    Async.exec, Async.run_getToken, htoken, Async.run_setState, Async.run_await, requestsOf,
    List.nil_append, hpost, List.cons_append]

/-- A successful update call leads to the full reload, run with `submitting`
raised, and then to the closing steps. -/
theorem updateBanner_run_ok (env : Env) (s : BannerDashboard.State) (token : String)
    (banner updated : Banner) (htitle : Js.trim s.formData.title ≠ "")
    (hselected : s.selectedBanner = some banner)
    (htoken : Js.nonEmpty? env.token = some token)
    (hput : env.server []
      (.putBanner token banner._id (BannerDashboard.updateBanner_submitData s)) = .ok updated) :
    (BannerDashboard.updateBanner s).exec env s =
      (BannerDashboard.loadInitialData false
        (.setState (fun prev => { prev with showEditModal := false }) <|
          .setState (fun prev => { prev with success := "Banner updated successfully" }) <|
          BannerDashboard.resetForm <|
          .setState (fun prev => { prev with submitting := false }) .done)).run env
        { state := { s with submitting := true }
          trace := [.tokenRead,
            .request (.putBanner token banner._id (BannerDashboard.updateBanner_submitData s))]
          visible := [{ s with submitting := true }]
          timers := [] } := by
  have ht := (Js.truthy_trim_iff s.formData.title).2 htitle
  simp only [BannerDashboard.updateBanner, ht, Bool.not_true, Bool.false_eq_true, if_false,
    Async.exec, Async.run_getToken, htoken, Async.run_setState, hselected, Async.run_await,
    requestsOf, List.nil_append, hput, List.cons_append]

/-- A confirmed and successful delete call leads to the full reload and then to
the success message. -/
theorem deleteBanner_run_ok (env : Env) (s : BannerDashboard.State) (token bannerId : String)
    (hconfirm : env.confirm "Are you sure you want to delete this banner?" = true)
    (htoken : Js.nonEmpty? env.token = some token)
    (hdelete : env.server [] (.deleteBanner token bannerId) = .ok ()) :
    (BannerDashboard.deleteBanner bannerId).exec env s =
      (BannerDashboard.loadInitialData false
        (.setState (fun prev => { prev with success := "Banner deleted successfully" })
          .done)).run env
        { state := s
          trace := [.confirm "Are you sure you want to delete this banner?" true, .tokenRead,
            .request (.deleteBanner token bannerId)]
          visible := [s]
          timers := [] } := by
  simp only [BannerDashboard.deleteBanner, Async.exec, Async.run_confirm, hconfirm,
    Bool.not_true, Bool.false_eq_true, if_false, Async.run_getToken, htoken,
    Async.run_await, requestsOf, List.nil_append, hdelete, List.cons_append]

/-- C20, amended: for `createBanner`, `updateBanner` and `deleteBanner`, a
successful backend response is followed by the two fetches of a full
(non-silent) reload, issued while `loading` is raised and the success message
is not yet set; the success message is set afterwards; when both fetches
succeed the banner list shown afterwards is the normalised list of the reloaded
homepage document, and when one of them fails the banner list is left as it
was; in neither case does it depend on the body of the mutation's response. -/
theorem banner_success_reloads (env : Env) (token : String)
    (htoken : Js.nonEmpty? env.token = some token) :
    (∀ (s : BannerDashboard.State) (newBanner : Banner),
        Js.trim s.formData.title ≠ "" →
        env.server [] (.postBanner token (BannerDashboard.createBanner_submitData s)) = .ok newBanner →
        requestsOf ((BannerDashboard.createBanner s).exec env s).trace =
          [.postBanner token (BannerDashboard.createBanner_submitData s), .getHomepage, .getProducts] ∧
        ((BannerDashboard.createBanner s).exec env s).visible =
          [{ s with submitting := true }, { s with submitting := true, loading := true },
            { s with submitting := true, loading := true }] ∧
        ((BannerDashboard.createBanner s).exec env s).state.success = "Banner created successfully" ∧
        (∀ doc products,
          env.server [.postBanner token (BannerDashboard.createBanner_submitData s)] .getHomepage = .ok doc →
          env.server [.postBanner token (BannerDashboard.createBanner_submitData s), .getHomepage] .getProducts = .ok products →
          ((BannerDashboard.createBanner s).exec env s).state.banners =
            (doc.banners.getD []).map BannerDashboard.processBanner) ∧
        ((∀ doc products,
            ¬ (env.server [.postBanner token (BannerDashboard.createBanner_submitData s)] .getHomepage = .ok doc ∧
              env.server [.postBanner token (BannerDashboard.createBanner_submitData s), .getHomepage] .getProducts = .ok products)) →
          ((BannerDashboard.createBanner s).exec env s).state.banners = s.banners)) ∧
    (∀ (s : BannerDashboard.State) (banner updated : Banner),
        Js.trim s.formData.title ≠ "" →
        s.selectedBanner = some banner →
        env.server [] (.putBanner token banner._id (BannerDashboard.updateBanner_submitData s)) = .ok updated →
        requestsOf ((BannerDashboard.updateBanner s).exec env s).trace =
          [.putBanner token banner._id (BannerDashboard.updateBanner_submitData s), .getHomepage, .getProducts] ∧
        ((BannerDashboard.updateBanner s).exec env s).visible =
          [{ s with submitting := true }, { s with submitting := true, loading := true },
            { s with submitting := true, loading := true }] ∧
        ((BannerDashboard.updateBanner s).exec env s).state.success = "Banner updated successfully" ∧
        (∀ doc products,
          env.server [.putBanner token banner._id (BannerDashboard.updateBanner_submitData s)] .getHomepage = .ok doc →
          env.server [.putBanner token banner._id (BannerDashboard.updateBanner_submitData s), .getHomepage] .getProducts = .ok products →
          ((BannerDashboard.updateBanner s).exec env s).state.banners =
            (doc.banners.getD []).map BannerDashboard.processBanner) ∧
        ((∀ doc products,
            ¬ (env.server [.putBanner token banner._id (BannerDashboard.updateBanner_submitData s)] .getHomepage = .ok doc ∧
              env.server [.putBanner token banner._id (BannerDashboard.updateBanner_submitData s), .getHomepage] .getProducts = .ok products)) →
          ((BannerDashboard.updateBanner s).exec env s).state.banners = s.banners)) ∧
    (∀ (s : BannerDashboard.State) (bannerId : String),
        env.confirm "Are you sure you want to delete this banner?" = true →
        env.server [] (.deleteBanner token bannerId) = .ok () →
        requestsOf ((BannerDashboard.deleteBanner bannerId).exec env s).trace =
          [.deleteBanner token bannerId, .getHomepage, .getProducts] ∧
        ((BannerDashboard.deleteBanner bannerId).exec env s).visible =
          [s, { s with loading := true },
            { s with loading := true }] ∧
        ((BannerDashboard.deleteBanner bannerId).exec env s).state.success = "Banner deleted successfully" ∧
        (∀ doc products,
          env.server [.deleteBanner token bannerId] .getHomepage = .ok doc →
          env.server [.deleteBanner token bannerId, .getHomepage] .getProducts = .ok products →
          ((BannerDashboard.deleteBanner bannerId).exec env s).state.banners =
            (doc.banners.getD []).map BannerDashboard.processBanner) ∧
        ((∀ doc products,
            ¬ (env.server [.deleteBanner token bannerId] .getHomepage = .ok doc ∧
              env.server [.deleteBanner token bannerId, .getHomepage] .getProducts = .ok products)) →
          ((BannerDashboard.deleteBanner bannerId).exec env s).state.banners = s.banners)) := by
  refine ⟨?_, ?_, ?_⟩
  · intro s newBanner htitle hpost
    rw [createBanner_run_ok env s token newBanner htitle htoken hpost]
    obtain ⟨w', hrun, hreq, -, hvis, -, hok, hfail⟩ := banner_loadInitialData_run env false
      (.setState (fun prev => { prev with showCreateModal := false }) <|
        .setState (fun prev => { prev with success := "Banner created successfully" }) <|
        BannerDashboard.resetForm <|
        .setState (fun prev => { prev with submitting := false }) .done)
      { state := { s with submitting := true }
        trace := [.tokenRead,
          .request (.postBanner token (BannerDashboard.createBanner_submitData s))]
        visible := [{ s with submitting := true }]
        timers := [] }
    rw [hrun]
    simp only [requestsOf, List.nil_append, List.cons_append] at hreq hok hfail
    refine ⟨?_, ?_, ?_, ?_, ?_⟩
    · simpa only [BannerDashboard.resetForm, Async.run_setState, Async.run_done] using hreq
    · simp only [BannerDashboard.resetForm, Async.run_setState, Async.run_done, hvis]
      rfl
    · simp only [BannerDashboard.resetForm, Async.run_setState, Async.run_done]
    · intro doc products h1 h2
      simp only [BannerDashboard.resetForm, Async.run_setState, Async.run_done, hok doc products h1 h2]
    · intro h
      simp only [BannerDashboard.resetForm, Async.run_setState, Async.run_done, hfail h]
  · intro s banner updated htitle hselected hput
    rw [updateBanner_run_ok env s token banner updated htitle hselected htoken hput]
    obtain ⟨w', hrun, hreq, -, hvis, -, hok, hfail⟩ := banner_loadInitialData_run env false
      (.setState (fun prev => { prev with showEditModal := false }) <|
        .setState (fun prev => { prev with success := "Banner updated successfully" }) <|
        BannerDashboard.resetForm <|
        .setState (fun prev => { prev with submitting := false }) .done)
      { state := { s with submitting := true }
        trace := [.tokenRead,
          .request (.putBanner token banner._id (BannerDashboard.updateBanner_submitData s))]
        visible := [{ s with submitting := true }]
        timers := [] }
    rw [hrun]
    simp only [requestsOf, List.nil_append, List.cons_append] at hreq hok hfail
    refine ⟨?_, ?_, ?_, ?_, ?_⟩
    · simpa only [BannerDashboard.resetForm, Async.run_setState, Async.run_done] using hreq
    · simp only [BannerDashboard.resetForm, Async.run_setState, Async.run_done, hvis]
      rfl
    · simp only [BannerDashboard.resetForm, Async.run_setState, Async.run_done]
    · intro doc products h1 h2
      simp only [BannerDashboard.resetForm, Async.run_setState, Async.run_done, hok doc products h1 h2]
    · intro h
      simp only [BannerDashboard.resetForm, Async.run_setState, Async.run_done, hfail h]
  · intro s bannerId hconfirm hdelete
    rw [deleteBanner_run_ok env s token bannerId hconfirm htoken hdelete]
    obtain ⟨w', hrun, hreq, -, hvis, -, hok, hfail⟩ := banner_loadInitialData_run env false
      (.setState (fun prev => { prev with success := "Banner deleted successfully" }) .done)
      { state := s
        trace := [.confirm "Are you sure you want to delete this banner?" true, .tokenRead,
          .request (.deleteBanner token bannerId)]
        visible := [s]
        timers := [] }
    rw [hrun]
    simp only [requestsOf, List.nil_append, List.cons_append] at hreq hok hfail
    refine ⟨?_, ?_, ?_, ?_, ?_⟩
    · simpa only [Async.run_setState, Async.run_done] using hreq
    · simp only [Async.run_setState, Async.run_done, hvis]
      rfl
    · simp only [Async.run_setState, Async.run_done]
    · intro doc products h1 h2
      simp only [Async.run_setState, Async.run_done, hok doc products h1 h2]
    · intro h
      simp only [Async.run_setState, Async.run_done, hfail h]

/-- The amended C20 on a concrete screen: the create call is accepted, the
reload delivers one banner without description and with an empty image, and the
list shown is that banner normalised. -/
theorem banner_success_reloads_witness :
    Js.nonEmpty? bannerEnv.token = some "admin-token" ∧
      Js.trim bannersShowing.formData.title ≠ "" ∧
      bannerEnv.server [] (.postBanner "admin-token"
        (BannerDashboard.createBanner_submitData bannersShowing)) = .ok rawBanner ∧
      bannerEnv.server [.postBanner "admin-token"
        (BannerDashboard.createBanner_submitData bannersShowing)] .getHomepage =
        .ok { featuredProducts := [], todayOffers := [], banners := some [rawBanner] } ∧
      ((BannerDashboard.createBanner bannersShowing).exec bannerEnv
          bannersShowing).state.banners =
        (((some [rawBanner] : Option (List Banner)).getD []).map
          BannerDashboard.processBanner) ∧
      ((some [rawBanner] : Option (List Banner)).getD []).map BannerDashboard.processBanner =
        [{ rawBanner with description := some "", image := none }] ∧
      ((BannerDashboard.createBanner bannersShowing).exec bannerEnv
          bannersShowing).state.success = "Banner created successfully" :=
  ⟨by decide, by decide, rfl, rfl,
    ((banner_success_reloads bannerEnv "admin-token" (by decide)).1 bannersShowing rawBanner
      (by decide) rfl).2.2.2.1
      { featuredProducts := [], todayOffers := [], banners := some [rawBanner] } [shoe, hat]
      rfl rfl,
    by decide,
    ((banner_success_reloads bannerEnv "admin-token" (by decide)).1 bannersShowing rawBanner
      (by decide) rfl).2.2.1⟩

/-! ## The two copies of the pricing computation (C28, C30) -/

theorem percentage_range (normalPrice effectivePrice : ℚ)
    (h : normalPrice > effectivePrice ∧ effectivePrice > 0) :
    0 ≤ Js.mathRound ((normalPrice - effectivePrice) / normalPrice * 100) ∧
      Js.mathRound ((normalPrice - effectivePrice) / normalPrice * 100) ≤ 100 := by
  obtain ⟨h1, h2⟩ := h
  have hn : 0 < normalPrice := lt_trans h2 h1
  have hx0 : 0 ≤ (normalPrice - effectivePrice) / normalPrice * 100 := by
    apply mul_nonneg _ (by norm_num)
    exact div_nonneg (by linarith) hn.le
  have hx1 : (normalPrice - effectivePrice) / normalPrice * 100 < 100 := by
    have : (normalPrice - effectivePrice) / normalPrice < 1 := by
      rw [div_lt_one hn]
      linarith
    linarith
  unfold Js.mathRound
  constructor
  · exact Int.floor_nonneg.2 (by linarith)
  · have : ⌊(normalPrice - effectivePrice) / normalPrice * 100 + 1 / 2⌋ < 101 := by
      rw [Int.floor_lt]
      push_cast
      linarith
    omega

/-- The `discount` expression of `fetchOfferPrices`: an integer from 0 to 100,
positive only for a normal price above a positive effective price. -/
theorem fetchOfferPrices_discount_range (priceDetails : PriceDetails) :
    ∃ d : ℤ, TodaysOffers.fetchOfferPrices_discount priceDetails = (d : ℚ) ∧ 0 ≤ d ∧ d ≤ 100 ∧
      (0 < d → Js.orZero priceDetails.normalPrice > Js.orZero priceDetails.effectivePrice ∧
        Js.orZero priceDetails.effectivePrice > 0) := by
  obtain ⟨e, n⟩ := priceDetails
  unfold TodaysOffers.fetchOfferPrices_discount
  cases n with
  | none => exact ⟨0, by simp, le_refl _, by norm_num, fun h => absurd h (lt_irrefl _)⟩
  | some n =>
    cases e with
    | none => exact ⟨0, by simp, le_refl _, by norm_num, fun h => absurd h (lt_irrefl _)⟩
    | some e =>
      by_cases h : n > e ∧ e > 0
      · exact ⟨_, by simp only [if_pos h], (percentage_range n e h).1,
          (percentage_range n e h).2, fun _ => h⟩
      · exact ⟨0, by simp only [if_neg h, Int.cast_zero], le_refl _, by norm_num,
          fun h' => absurd h' (lt_irrefl _)⟩

/-- The `discount` expression of `addToOffers`: the same range. -/
theorem addToOffers_discount_range (priceDetails : PriceDetails) :
    ∃ d : ℤ, TodaysOffers.addToOffers_discount priceDetails = (d : ℚ) ∧ 0 ≤ d ∧ d ≤ 100 ∧
      (0 < d → Js.orZero priceDetails.normalPrice > Js.orZero priceDetails.effectivePrice ∧
        Js.orZero priceDetails.effectivePrice > 0) := by
  obtain ⟨e, n⟩ := priceDetails
  unfold TodaysOffers.addToOffers_discount
  cases n with
  | none => exact ⟨0, by simp, le_refl _, by norm_num, fun h => absurd h (lt_irrefl _)⟩
  | some n =>
    cases e with
    | none => exact ⟨0, by simp, le_refl _, by norm_num, fun h => absurd h (lt_irrefl _)⟩
    | some e =>
      by_cases h : n > e ∧ e > 0
      · exact ⟨_, by simp only [if_pos h], (percentage_range n e h).1,
          (percentage_range n e h).2, fun _ => h⟩
      · exact ⟨0, by simp only [if_neg h, Int.cast_zero], le_refl _, by norm_num,
          fun h' => absurd h' (lt_irrefl _)⟩

/-- C30: for every pricing response over exact numbers, and for a failed lookup,
the `discount` attached by `fetchOfferPrices` and by `addToOffers` is an integer
`d` with `0 <= d <= 100`, and `d > 0` only when the attached `originalPrice` is
above the attached `displayPrice` and that one is above 0. -/
theorem discount_bounds (product : Product) (priceDetails : PriceDetails) :
    (∃ d : ℤ, ∃ originalPrice displayPrice : ℚ,
        (TodaysOffers.fetchOfferPrices_priced product priceDetails).discount = some (d : ℚ) ∧
        (TodaysOffers.fetchOfferPrices_priced product priceDetails).originalPrice =
          some originalPrice ∧
        (TodaysOffers.fetchOfferPrices_priced product priceDetails).displayPrice =
          some displayPrice ∧
        0 ≤ d ∧ d ≤ 100 ∧ (0 < d → originalPrice > displayPrice ∧ displayPrice > 0)) ∧
    (∃ d : ℤ, ∃ originalPrice displayPrice : ℚ,
        (TodaysOffers.addToOffers_priced product priceDetails).discount = some (d : ℚ) ∧
        (TodaysOffers.addToOffers_priced product priceDetails).originalPrice =
          some originalPrice ∧
        (TodaysOffers.addToOffers_priced product priceDetails).displayPrice =
          some displayPrice ∧
        0 ≤ d ∧ d ≤ 100 ∧ (0 < d → originalPrice > displayPrice ∧ displayPrice > 0)) ∧
    (TodaysOffers.fetchOfferPrices_unpriced product).discount = some ((0 : ℤ) : ℚ) := by
  obtain ⟨d1, h1, hlo1, hhi1, hpos1⟩ := fetchOfferPrices_discount_range priceDetails
  obtain ⟨d2, h2, hlo2, hhi2, hpos2⟩ := addToOffers_discount_range priceDetails
  refine ⟨⟨d1, _, _, ?_, rfl, rfl, hlo1, hhi1, hpos1⟩,
    ⟨d2, _, _, ?_, rfl, rfl, hlo2, hhi2, hpos2⟩, ?_⟩
  · simp [TodaysOffers.fetchOfferPrices_priced, h1]
  · simp [TodaysOffers.addToOffers_priced, h2]
  · simp [TodaysOffers.fetchOfferPrices_unpriced]

/-- C28: for every product without `displayPrice` and every successful pricing
response, `addToOffers` sends the same default filter selection and attaches the
same `displayPrice`, `originalPrice` and `discount` as `fetchOfferPrices`
computes for that product and response: the appended item is the entry
`fetchOfferPrices` returns. -/
theorem pricing_computations_agree (env : Env) (history : List Request) (product : Product)
    (priceDetails : PriceDetails) (hplain : product.displayPrice = none)
    (hresponse : env.server history
      (.getPriceDetails product._id (TodaysOffers.fetchOfferPrices_initialFilters product)) =
      .ok priceDetails) :
    TodaysOffers.addToOffers_initialFilters product =
        TodaysOffers.fetchOfferPrices_initialFilters product ∧
      (TodaysOffers.addToOffers_priced product priceDetails).displayPrice =
        (TodaysOffers.fetchOfferPrices_priced product priceDetails).displayPrice ∧
      (TodaysOffers.addToOffers_priced product priceDetails).originalPrice =
        (TodaysOffers.fetchOfferPrices_priced product priceDetails).originalPrice ∧
      (TodaysOffers.addToOffers_priced product priceDetails).discount =
        (TodaysOffers.fetchOfferPrices_priced product priceDetails).discount ∧
      TodaysOffers.addToOffers_priced product priceDetails =
        TodaysOffers.decorated product (.ok priceDetails) ∧
      TodaysOffers.pricedOffers env history [product] =
        [TodaysOffers.addToOffers_priced product priceDetails] := by
  have hdiscount : TodaysOffers.addToOffers_discount priceDetails =
      TodaysOffers.fetchOfferPrices_discount priceDetails := by
    unfold TodaysOffers.addToOffers_discount TodaysOffers.fetchOfferPrices_discount
    rfl
  have hpriced : TodaysOffers.addToOffers_priced product priceDetails =
      TodaysOffers.fetchOfferPrices_priced product priceDetails := by
    unfold TodaysOffers.addToOffers_priced TodaysOffers.fetchOfferPrices_priced
    rw [hdiscount]
  refine ⟨?_, by rw [hpriced], by rw [hpriced], by rw [hpriced], ?_, ?_⟩
  · unfold TodaysOffers.addToOffers_initialFilters TodaysOffers.fetchOfferPrices_initialFilters
    rfl
  · rw [hpriced]
    simp [TodaysOffers.decorated, hplain]
  · rw [hpriced]
    simp [TodaysOffers.pricedOffers, TodaysOffers.decorated, hplain, hresponse]

/-- The agreement on the hat, priced 150 against 200 by the scenario server. -/
theorem pricing_computations_agree_witness :
    hat.displayPrice = none ∧
      adminEnv.server []
        (.getPriceDetails hat._id (TodaysOffers.fetchOfferPrices_initialFilters hat)) =
        .ok { effectivePrice := some 150, normalPrice := some 200 } ∧
      TodaysOffers.addToOffers_initialFilters hat =
        TodaysOffers.fetchOfferPrices_initialFilters hat ∧
      TodaysOffers.pricedOffers adminEnv [] [hat] =
        [TodaysOffers.addToOffers_priced hat
          { effectivePrice := some 150, normalPrice := some 200 }] :=
  ⟨rfl, rfl,
    (pricing_computations_agree adminEnv [] hat
      { effectivePrice := some 150, normalPrice := some 200 } rfl rfl).1,
    (pricing_computations_agree adminEnv [] hat
      { effectivePrice := some 150, normalPrice := some 200 } rfl rfl).2.2.2.2.2⟩

/-! ## The image input (C27) -/

/-- What `handleImageChange` does with a picked file: a file above 5 MB sets
the error and leaves the form alone, any other file is stored with its preview. -/
theorem handleImageChange_cases (createObjectURL : File → String) (file : File)
    (s : BannerDashboard.State) :
    (file.size > 5 * 1024 * 1024 →
      BannerDashboard.handleImageChange createObjectURL (some file) s =
        { s with error := "Image must be smaller than 5MB" }) ∧
    (file.size ≤ 5 * 1024 * 1024 →
      BannerDashboard.handleImageChange createObjectURL (some file) s =
        { s with formData :=
            { s.formData with image := some file, imagePreview := createObjectURL file } }) := by
  constructor
  · intro h
    simp [BannerDashboard.handleImageChange, h]
  · intro h
    have : ¬ file.size > 5 * 1024 * 1024 := not_lt.2 h
    simp [BannerDashboard.handleImageChange, this]

/-- C27 fails on the code: a file of exactly 5 MB is not smaller than 5 MB, yet
`handleImageChange` stores it in `formData.image` with a preview and sets no
error. -/
theorem handleImageChange_boundary :
    ¬ fiveMegabytes.size < 5 * 1024 * 1024 ∧
      (BannerDashboard.handleImageChange objectUrl (some fiveMegabytes)
        bannersShowing).formData.image = some fiveMegabytes ∧
      (BannerDashboard.handleImageChange objectUrl (some fiveMegabytes)
        bannersShowing).formData.imagePreview = "blob:banner.png" ∧
      (BannerDashboard.handleImageChange objectUrl (some fiveMegabytes)
        bannersShowing).error = bannersShowing.error := by
  decide

/-! ## Loads (C22, C23) -/

/-- C22: from every prior state of the banner screen, a silent load of which a
fetch fails, by a transport error or a non-success status, changes nothing of
the state (banners, products, error and loading included) and performs no effect
besides its two requests: no error is shown or logged. -/
theorem silent_load_failure_keeps_state (env : Env) (w : World BannerDashboard.State)
    (hfails : ∀ doc products,
      ¬ (env.server (requestsOf w.trace) .getHomepage = .ok doc ∧
        env.server (requestsOf w.trace ++ [.getHomepage]) .getProducts = .ok products)) :
    ((BannerDashboard.loadInitialData true .done).run env w).state = w.state ∧
      ((BannerDashboard.loadInitialData true .done).run env w).trace =
        w.trace ++ [.request .getHomepage, .request .getProducts] := by
  simp only [BannerDashboard.loadInitialData, Async.run, requestsOf_append, requestsOf,
    List.append_nil, Bool.not_true, if_false, Bool.false_eq_true]
  cases hH : env.server (requestsOf w.trace) .getHomepage <;>
  cases hP : env.server (requestsOf w.trace ++ [.getHomepage]) .getProducts <;>
  first
    | exact absurd ⟨hH, hP⟩ (hfails _ _)
    | simp [Async.run]

/-- A silent load in front of the server that cannot deliver the homepage
document. -/
theorem silent_load_failure_keeps_state_witness :
    (∀ doc products,
      ¬ (reloadDownEnv.server (requestsOf []) .getHomepage = .ok doc ∧
        reloadDownEnv.server (requestsOf [] ++ [.getHomepage]) .getProducts = .ok products)) ∧
      ((BannerDashboard.loadInitialData true .done).run reloadDownEnv
        { state := bannersShowing, trace := [], visible := [], timers := [] }).state =
        bannersShowing :=
  ⟨fun _ _ h => (by cases h.1),
    (silent_load_failure_keeps_state reloadDownEnv
      { state := bannersShowing, trace := [], visible := [], timers := [] }
      (fun _ _ h => (by cases h.1))).1⟩

/-- A successful load on the featured screen replaces collection and catalog,
lowers `loading` and leaves `error` as it was. -/
theorem featured_load_success (env : Env) (w : World FeaturedProducts.State)
    (doc : HomepageDoc) (products : List Product)
    (hH : env.server (requestsOf w.trace) .getHomepage = .ok doc)
    (hP : env.server (requestsOf w.trace ++ [.getHomepage]) .getProducts = .ok products) :
    ((FeaturedProducts.fetchHomepageData .done).run env w).state =
      { w.state with homepage := { featuredProducts := doc.featuredProducts },
                     products := products, loading := false } := by
  simp only [FeaturedProducts.fetchHomepageData, Async.run, requestsOf_append, requestsOf,
    List.append_nil, hH, hP]

/-- C23 fails on the code: on the featured and offers screens, from the state a
failed first load leaves behind, pressing Retry with every fetch succeeding
loads collection and catalog and lowers `loading`, but the recorded error is
never cleared, so the error view is rendered again, not the collection. -/
theorem retry_keeps_error_view :
    FeaturedProducts.view featuredFailed = .error "Network Error" ∧
      ((FeaturedProducts.fetchHomepageData .done).exec adminEnv
        featuredFailed).state.homepage.featuredProducts = [hat, shoe] ∧
      ((FeaturedProducts.fetchHomepageData .done).exec adminEnv
        featuredFailed).state.products = [shoe, hat] ∧
      ((FeaturedProducts.fetchHomepageData .done).exec adminEnv
        featuredFailed).state.loading = false ∧
      ((FeaturedProducts.fetchHomepageData .done).exec adminEnv
        featuredFailed).state.error = some "Network Error" ∧
      FeaturedProducts.view ((FeaturedProducts.fetchHomepageData .done).exec adminEnv
        featuredFailed).state = .error "Network Error" ∧
      ((TodaysOffers.fetchHomepageData .done).exec adminEnv offersFailed).state.products =
        [shoe, hat] ∧
      ((TodaysOffers.fetchHomepageData .done).exec adminEnv offersFailed).state.loading =
        false ∧
      TodaysOffers.view ((TodaysOffers.fetchHomepageData .done).exec adminEnv
        offersFailed).state = .error "Network Error" := by
  decide

/-! ## The state shown while a mutating call is pending (C24, C25) -/

/-- Execution only ever adds to the trace and to the states shown at
suspensions. -/
theorem Async.run_extends {σ : Type} (env : Env) (task : Async σ) :
    ∀ w : World σ, ∃ events shown,
      (task.run env w).trace = w.trace ++ events ∧
      (task.run env w).visible = w.visible ++ shown := by
  induction task with
  | done => intro w; exact ⟨[], [], by simp [Async.run], by simp [Async.run]⟩
  | setState update next ih => intro w; simpa [Async.run] using ih _
  | getToken next ih =>
    intro w
    obtain ⟨events, shown, ht, hv⟩ := ih env.token { w with trace := w.trace ++ [.tokenRead] }
    exact ⟨.tokenRead :: events, shown, by simp [Async.run, ht], by simp [Async.run, hv]⟩
  | alert message next ih =>
    intro w
    obtain ⟨events, shown, ht, hv⟩ := ih { w with trace := w.trace ++ [.alert message] }
    exact ⟨.alert message :: events, shown, by simp [Async.run, ht], by simp [Async.run, hv]⟩
  | confirm message next ih =>
    intro w
    obtain ⟨events, shown, ht, hv⟩ := ih (env.confirm message)
      { w with trace := w.trace ++ [.confirm message (env.confirm message)] }
    exact ⟨.confirm message (env.confirm message) :: events, shown,
      by simp [Async.run, ht], by simp [Async.run, hv]⟩
  | consoleError message next ih =>
    intro w
    obtain ⟨events, shown, ht, hv⟩ := ih { w with trace := w.trace ++ [.consoleError message] }
    exact ⟨.consoleError message :: events, shown, by simp [Async.run, ht],
      by simp [Async.run, hv]⟩
  | await request next ih =>
    intro w
    obtain ⟨events, shown, ht, hv⟩ := ih (env.server (requestsOf w.trace) request)
      { w with trace := w.trace ++ [.request request], visible := w.visible ++ [w.state] }
    exact ⟨.request request :: events, w.state :: shown, by simp [Async.run, ht],
      by simp [Async.run, hv]⟩
  | setTimeout delay callback next _ ih =>
    intro w
    obtain ⟨events, shown, ht, hv⟩ := ih
      { w with trace := w.trace ++ [.timer delay], timers := w.timers ++ [(delay, callback)] }
    exact ⟨.timer delay :: events, shown, by simp [Async.run, ht], by simp [Async.run, hv]⟩

/-- C24: on the featured and offers screens, with a token present and for a
product not in the rendered collection, the add call is the first request after
the token read (on the offers screen: after the pricing lookup, when that
succeeds), and the state shown while it is pending is the previous state with
the collection extended at the end by one element - the product itself on the
featured screen, the product with `displayPrice`, `originalPrice` and `discount`
attached on the offers screen - and nothing else changed. -/
theorem add_pending_state (env : Env) (token : String) (product : Product)
    (htoken : Js.nonEmpty? env.token = some token) :
    (∀ (s : FeaturedProducts.State) (w : World FeaturedProducts.State),
        (∀ x ∈ s.homepage.featuredProducts, x._id ≠ product._id) →
        ∃ events shown,
          ((FeaturedProducts.addToFeatured s product).run env w).trace =
            w.trace ++ .tokenRead :: .request (.postFeatured token product._id .add) ::
              events ∧
          ((FeaturedProducts.addToFeatured s product).run env w).visible =
            w.visible ++
              { w.state with homepage :=
                  { featuredProducts := w.state.homepage.featuredProducts ++ [product] } } ::
              shown) ∧
    (∀ (s : TodaysOffers.State) (w : World TodaysOffers.State) (priceDetails : PriceDetails),
        (∀ x ∈ s.homepage.todayOffers, x._id ≠ product._id) →
        env.server (requestsOf w.trace)
          (.getPriceDetails product._id (TodaysOffers.addToOffers_initialFilters product)) =
          .ok priceDetails →
        ∃ events shown,
          ((TodaysOffers.addToOffers s product).run env w).trace =
            w.trace ++ .tokenRead ::
              .request (.getPriceDetails product._id
                (TodaysOffers.addToOffers_initialFilters product)) ::
              .request (.postOffers token product._id .add) :: events ∧
          ((TodaysOffers.addToOffers s product).run env w).visible =
            w.visible ++ w.state ::
              { w.state with homepage :=
                  { todayOffers := w.state.homepage.todayOffers ++
                      [{ product with
                          displayPrice := some (priceDetails.effectivePrice.getD 0)
                          originalPrice := some (priceDetails.normalPrice.getD 0)
                          discount := some (TodaysOffers.addToOffers_discount priceDetails) }] } } ::
              shown) := by
  constructor
  · intro s w habsent
    obtain ⟨events, shown, ht, hv⟩ : ∃ events shown,
        ((FeaturedProducts.addToFeatured s product).run env w).trace =
          (w.trace ++ [.tokenRead] ++ [.request (.postFeatured token product._id .add)]) ++
            events ∧
        ((FeaturedProducts.addToFeatured s product).run env w).visible =
          (w.visible ++ [{ w.state with homepage := { w.state.homepage with
            featuredProducts := w.state.homepage.featuredProducts ++ [product] } }]) ++
            shown := by
      simp only [FeaturedProducts.addToFeatured, find_absent _ _ habsent, if_true,
        Async.run_getToken, htoken, Async.run_setState, Async.run_await]
      exact Async.run_extends env _ _
    exact ⟨events, shown, by rw [ht]; simp, by rw [hv]; simp⟩
  · intro s w priceDetails habsent hprice
    obtain ⟨events, shown, ht, hv⟩ : ∃ events shown,
        ((TodaysOffers.addToOffers s product).run env w).trace =
          (w.trace ++ [.tokenRead] ++
            [.request (.getPriceDetails product._id
              (TodaysOffers.addToOffers_initialFilters product))] ++
            [.request (.postOffers token product._id .add)]) ++ events ∧
        ((TodaysOffers.addToOffers s product).run env w).visible =
          (w.visible ++ [w.state] ++ [{ w.state with homepage := { w.state.homepage with
            todayOffers := w.state.homepage.todayOffers ++
              [TodaysOffers.addToOffers_priced product priceDetails] } }]) ++ shown := by
      simp only [FeaturedProducts.addToFeatured, TodaysOffers.addToOffers,
        find_absent _ _ habsent, if_true, Async.run_getToken, htoken, Async.run_setState,
        Async.run_await, requestsOf_append, requestsOf, List.append_nil, hprice]
      exact Async.run_extends env _ _
    refine ⟨events, shown, by rw [ht]; simp, ?_⟩
    rw [hv]
    cases he : priceDetails.effectivePrice <;> cases hn : priceDetails.normalPrice <;>
      simp [TodaysOffers.addToOffers_priced, Js.orZero, he, hn]

/-- The pending state on concrete screens showing the hat: the shoe is appended
after it. -/
theorem add_pending_state_witness :
    Js.nonEmpty? adminEnv.token = some "admin-token" ∧
      (∀ x ∈ (featuredShowing [hat]).homepage.featuredProducts, x._id ≠ shoe._id) ∧
      (∃ events shown,
        ((FeaturedProducts.addToFeatured (featuredShowing [hat]) shoe).run adminEnv
            { state := featuredShowing [hat], trace := [], visible := [], timers := [] }).trace =
          [] ++ .tokenRead :: .request (.postFeatured "admin-token" shoe._id .add) :: events ∧
        ((FeaturedProducts.addToFeatured (featuredShowing [hat]) shoe).run adminEnv
            { state := featuredShowing [hat], trace := [], visible := [],
              timers := [] }).visible =
          [] ++ { featuredShowing [hat] with homepage :=
              { featuredProducts :=
                  (featuredShowing [hat]).homepage.featuredProducts ++ [shoe] } } :: shown) ∧
      (∀ x ∈ (offersShowing [hat]).homepage.todayOffers, x._id ≠ shoe._id) ∧
      (∃ events shown,
        ((TodaysOffers.addToOffers (offersShowing [hat]) shoe).run adminEnv
            { state := offersShowing [hat], trace := [], visible := [], timers := [] }).trace =
          [] ++ .tokenRead ::
            .request (.getPriceDetails shoe._id
              (TodaysOffers.addToOffers_initialFilters shoe)) ::
            .request (.postOffers "admin-token" shoe._id .add) :: events ∧
        ((TodaysOffers.addToOffers (offersShowing [hat]) shoe).run adminEnv
            { state := offersShowing [hat], trace := [], visible := [], timers := [] }).visible =
          [] ++ offersShowing [hat] ::
            { offersShowing [hat] with homepage :=
                { todayOffers := (offersShowing [hat]).homepage.todayOffers ++
                    [{ shoe with
                        displayPrice := some ((some 150 : Option ℚ).getD 0)
                        originalPrice := some ((some 200 : Option ℚ).getD 0)
                        discount := some (TodaysOffers.addToOffers_discount
                          { effectivePrice := some 150, normalPrice := some 200 }) }] } } ::
            shown) :=
  ⟨by decide, by decide,
    (add_pending_state adminEnv "admin-token" shoe (by decide)).1 (featuredShowing [hat])
      { state := featuredShowing [hat], trace := [], visible := [], timers := [] } (by decide),
    by decide,
    (add_pending_state adminEnv "admin-token" shoe (by decide)).2 (offersShowing [hat])
      { state := offersShowing [hat], trace := [], visible := [], timers := [] }
      { effectivePrice := some 150, normalPrice := some 200 } (by decide) rfl⟩

/-- C25: on the featured and offers screens, with a token present and for every
id, the remove call is the first request after the token read, and the state
shown while it is pending is the previous state with the collection filtered:
every element of that id is gone, the other elements stay in their order, and
the collection is the previous one when the id was absent. -/
theorem remove_pending_state (env : Env) (token productId : String)
    (htoken : Js.nonEmpty? env.token = some token) :
    (∀ w : World FeaturedProducts.State,
        (∃ events shown,
          ((FeaturedProducts.removeFromFeatured productId).run env w).trace =
            w.trace ++ .tokenRead :: .request (.postFeatured token productId .remove) ::
              events ∧
          ((FeaturedProducts.removeFromFeatured productId).run env w).visible =
            w.visible ++
              { w.state with homepage :=
                  { featuredProducts := w.state.homepage.featuredProducts.filter
                      (fun p => p._id != productId) } } :: shown) ∧
        (∀ p ∈ w.state.homepage.featuredProducts.filter (fun p => p._id != productId),
          p._id ≠ productId) ∧
        (w.state.homepage.featuredProducts.filter (fun p => p._id != productId)).Sublist
          w.state.homepage.featuredProducts ∧
        (∀ p ∈ w.state.homepage.featuredProducts, p._id ≠ productId →
          p ∈ w.state.homepage.featuredProducts.filter (fun p => p._id != productId)) ∧
        ((∀ p ∈ w.state.homepage.featuredProducts, p._id ≠ productId) →
          w.state.homepage.featuredProducts.filter (fun p => p._id != productId) =
            w.state.homepage.featuredProducts)) ∧
    (∀ w : World TodaysOffers.State,
        (∃ events shown,
          ((TodaysOffers.removeFromOffers productId).run env w).trace =
            w.trace ++ .tokenRead :: .request (.postOffers token productId .remove) ::
              events ∧
          ((TodaysOffers.removeFromOffers productId).run env w).visible =
            w.visible ++
              { w.state with homepage :=
                  { todayOffers := w.state.homepage.todayOffers.filter
                      (fun p => p._id != productId) } } :: shown) ∧
        (∀ p ∈ w.state.homepage.todayOffers.filter (fun p => p._id != productId),
          p._id ≠ productId) ∧
        (w.state.homepage.todayOffers.filter (fun p => p._id != productId)).Sublist
          w.state.homepage.todayOffers ∧
        (∀ p ∈ w.state.homepage.todayOffers, p._id ≠ productId →
          p ∈ w.state.homepage.todayOffers.filter (fun p => p._id != productId)) ∧
        ((∀ p ∈ w.state.homepage.todayOffers, p._id ≠ productId) →
          w.state.homepage.todayOffers.filter (fun p => p._id != productId) =
            w.state.homepage.todayOffers)) := by
  have hfilter : ∀ xs : List Product,
      (∀ p ∈ xs.filter (fun p => p._id != productId), p._id ≠ productId) ∧
      (xs.filter (fun p => p._id != productId)).Sublist xs ∧
      (∀ p ∈ xs, p._id ≠ productId → p ∈ xs.filter (fun p => p._id != productId)) ∧
      ((∀ p ∈ xs, p._id ≠ productId) → xs.filter (fun p => p._id != productId) = xs) := by
    intro xs
    refine ⟨?_, List.filter_sublist _, ?_, ?_⟩
    · intro p hp
      simpa using (List.mem_filter.1 hp).2
    · intro p hp hne
      exact List.mem_filter.2 ⟨hp, by simpa using hne⟩
    · intro h
      rw [List.filter_eq_self]
      intro p hp
      simpa using h p hp
  constructor
  · intro w
    refine ⟨?_, hfilter _⟩
    obtain ⟨events, shown, ht, hv⟩ : ∃ events shown,
        ((FeaturedProducts.removeFromFeatured productId).run env w).trace =
          (w.trace ++ [.tokenRead] ++ [.request (.postFeatured token productId .remove)]) ++
            events ∧
        ((FeaturedProducts.removeFromFeatured productId).run env w).visible =
          (w.visible ++ [{ w.state with homepage := { w.state.homepage with
            featuredProducts := w.state.homepage.featuredProducts.filter
              (fun p => p._id != productId) } }]) ++ shown := by
      simp only [FeaturedProducts.removeFromFeatured, Async.run_getToken, htoken,
        Async.run_setState, Async.run_await]
      exact Async.run_extends env _ _
    exact ⟨events, shown, by rw [ht]; simp, by rw [hv]; simp⟩
  · intro w
    refine ⟨?_, hfilter _⟩
    obtain ⟨events, shown, ht, hv⟩ : ∃ events shown,
        ((TodaysOffers.removeFromOffers productId).run env w).trace =
          (w.trace ++ [.tokenRead] ++ [.request (.postOffers token productId .remove)]) ++
            events ∧
        ((TodaysOffers.removeFromOffers productId).run env w).visible =
          (w.visible ++ [{ w.state with homepage := { w.state.homepage with
            todayOffers := w.state.homepage.todayOffers.filter
              (fun p => p._id != productId) } }]) ++ shown := by
      simp only [TodaysOffers.removeFromOffers, Async.run_getToken, htoken,
        Async.run_setState, Async.run_await]
      exact Async.run_extends env _ _
    exact ⟨events, shown, by rw [ht]; simp, by rw [hv]; simp⟩

/-- The pending state of a removal on concrete screens showing hat and shoe: the
shoe (id "1") is filtered out, and removing the absent id "5" shows both. -/
theorem remove_pending_state_witness :
    Js.nonEmpty? adminEnv.token = some "admin-token" ∧
      (∃ events shown,
        ((FeaturedProducts.removeFromFeatured "1").run adminEnv
            { state := featuredShowing [hat, shoe], trace := [], visible := [],
              timers := [] }).trace =
          [] ++ .tokenRead :: .request (.postFeatured "admin-token" "1" .remove) :: events ∧
        ((FeaturedProducts.removeFromFeatured "1").run adminEnv
            { state := featuredShowing [hat, shoe], trace := [], visible := [],
              timers := [] }).visible =
          [] ++ { featuredShowing [hat, shoe] with homepage :=
              { featuredProducts := (featuredShowing [hat, shoe]).homepage.featuredProducts.filter
                  (fun p => p._id != "1") } } :: shown) ∧
      (featuredShowing [hat, shoe]).homepage.featuredProducts.filter (fun p => p._id != "1") =
        [hat] ∧
      (∀ p ∈ (offersShowing [hat, shoe]).homepage.todayOffers, p._id ≠ "5") ∧
      (offersShowing [hat, shoe]).homepage.todayOffers.filter (fun p => p._id != "5") =
        (offersShowing [hat, shoe]).homepage.todayOffers :=
  ⟨by decide,
    ((remove_pending_state adminEnv "admin-token" "1" (by decide)).1
      { state := featuredShowing [hat, shoe], trace := [], visible := [], timers := [] }).1,
    by decide, by decide,
    ((remove_pending_state adminEnv "admin-token" "5" (by decide)).2
      { state := offersShowing [hat, shoe], trace := [], visible := [], timers := [] }).2.2.2.2
      (by decide)⟩

/-! ## A failed pricing lookup in `addToOffers` (C29) -/

theorem mem_pricingRequests (offers : List Product) (r : Request)
    (h : r ∈ TodaysOffers.pricingRequests offers) :
    ∃ id selectedFilters, r = .getPriceDetails id selectedFilters := by
  rw [pricingRequests_eq_filter, List.mem_map] at h
  obtain ⟨p, _, hp⟩ := h
  exact ⟨_, _, hp.symm⟩

/-- The reload of the offers screen in detail: its requests are the homepage
document, then pricing lookups and the catalog; its first suspension shows the
previous state with `loading` raised; and a homepage document that fails to
arrive leaves the collection alone. -/
theorem offers_fetchHomepageData_detail (env : Env) (next : Async TodaysOffers.State)
    (w : World TodaysOffers.State) :
    ∃ w', (TodaysOffers.fetchHomepageData next).run env w = next.run env w' ∧
      (∃ rest, requestsOf w'.trace = requestsOf w.trace ++ .getHomepage :: rest ∧
        ∀ r ∈ rest, r = .getProducts ∨ ∃ id selectedFilters,
          r = .getPriceDetails id selectedFilters) ∧
      (∃ shown, w'.visible = w.visible ++ { w.state with loading := true } :: shown) ∧
      (∀ e ∈ w.trace, e ∈ w'.trace) ∧
      (∀ err, env.server (requestsOf w.trace) .getHomepage = .error err →
        w'.state.homepage = w.state.homepage) ∧
      (∀ F, env.server (requestsOf w.trace) .getHomepage = .ok F →
        w'.state.homepage.todayOffers =
          TodaysOffers.pricedOffers env (requestsOf w.trace ++ [.getHomepage]) F.todayOffers) := by
  have hrest : ∀ (offers : List Product) (r : Request),
      r ∈ TodaysOffers.pricingRequests offers ++ [.getProducts] →
      r = .getProducts ∨ ∃ id selectedFilters, r = .getPriceDetails id selectedFilters := by
    intro offers r hr
    rcases List.mem_append.1 hr with h | h
    · exact Or.inr (mem_pricingRequests offers r h)
    · exact Or.inl (by simpa using h)
  simp only [TodaysOffers.fetchHomepageData, Async.run]
  cases hh : env.server (requestsOf w.trace) .getHomepage with
  | error err =>
    refine ⟨_, rfl, ⟨[], ?_, by simp⟩, ⟨[], by simp⟩, ?_, ?_, ?_⟩
    · simp [requestsOf_append, requestsOf]
    · intro e he; simp [he]
    · intro err' _; rfl
    · intro F hF; cases hF
  | ok data =>
    simp only [fetchOfferPrices_run, Async.run]
    cases hp : env.server (requestsOf (w.trace ++ [Event.request Request.getHomepage] ++
        TodaysOffers.pricingEvents env
          (requestsOf (w.trace ++ [Event.request Request.getHomepage])) data.todayOffers))
        .getProducts with
    | error err =>
      refine ⟨_, rfl,
        ⟨TodaysOffers.pricingRequests data.todayOffers ++ [.getProducts], ?_, hrest _⟩,
        ⟨_, by simp only [List.append_assoc, List.singleton_append]; rfl⟩, ?_, ?_, ?_⟩
      · simp [requestsOf_append, requestsOf, requestsOf_pricingEvents]
      · intro e he; simp [he]
      · intro err' h; cases h
      · intro F hF; cases hF; simp [requestsOf_append, requestsOf]
    | ok products =>
      refine ⟨_, rfl,
        ⟨TodaysOffers.pricingRequests data.todayOffers ++ [.getProducts], ?_, hrest _⟩,
        ⟨_, by simp only [List.append_assoc, List.singleton_append]; rfl⟩, ?_, ?_, ?_⟩
      · simp [requestsOf_append, requestsOf, requestsOf_pricingEvents]
      · intro e he; simp [he]
      · intro err' h; cases h
      · intro F hF; cases hF; simp [requestsOf_append, requestsOf]

/-- A failed pricing lookup in `addToOffers` leads straight to the reload and
the alert, run from the unchanged state. -/
theorem addToOffers_run_price_error (env : Env) (s : TodaysOffers.State) (product : Product)
    (token : String) (err : NetError) (w : World TodaysOffers.State)
    (habsent : ∀ x ∈ s.homepage.todayOffers, x._id ≠ product._id)
    (htoken : Js.nonEmpty? env.token = some token)
    (hprice : env.server (requestsOf w.trace)
      (.getPriceDetails product._id (TodaysOffers.addToOffers_initialFilters product)) =
      .error err) :
    (TodaysOffers.addToOffers s product).run env w =
      (TodaysOffers.fetchHomepageData
        (.alert ("Error adding today's offer: " ++ err.display) .done)).run env
        { state := w.state
          trace := w.trace ++
            [.tokenRead,
              .request (.getPriceDetails product._id
                (TodaysOffers.addToOffers_initialFilters product))]
          visible := w.visible ++ [w.state]
          timers := w.timers } := by
  simp only [TodaysOffers.addToOffers, find_absent _ _ habsent, if_true, Async.run,
    htoken, requestsOf_append, requestsOf, List.append_nil, hprice, List.append_assoc,
    List.singleton_append, fetchOfferPrices_run, List.cons_append, List.nil_append]

/-- C29: in `addToOffers`, for a product not in the rendered collection and a
token present, a failed price-details lookup is followed by the reload and the
alert: the requests after the lookup are the homepage document and what the
reload asks for (pricing lookups, the catalog), never the add call; the state
shown at the reload still holds the previous collection, nothing appended; and
the collection at the end is the reloaded one, or the previous one when the
homepage document does not arrive - no item with zero prices is put in. -/
theorem addToOffers_price_failure (env : Env) (s : TodaysOffers.State) (product : Product)
    (token : String) (err : NetError) (w : World TodaysOffers.State)
    (habsent : ∀ x ∈ s.homepage.todayOffers, x._id ≠ product._id)
    (htoken : Js.nonEmpty? env.token = some token)
    (hprice : env.server (requestsOf w.trace)
      (.getPriceDetails product._id (TodaysOffers.addToOffers_initialFilters product)) =
      .error err) :
    (∃ rest,
        requestsOf ((TodaysOffers.addToOffers s product).run env w).trace =
          requestsOf w.trace ++
            .getPriceDetails product._id (TodaysOffers.addToOffers_initialFilters product) ::
            .getHomepage :: rest ∧
        ∀ r ∈ rest, r = .getProducts ∨ ∃ id selectedFilters,
          r = .getPriceDetails id selectedFilters) ∧
      .alert ("Error adding today's offer: " ++ err.display) ∈
        ((TodaysOffers.addToOffers s product).run env w).trace ∧
      (∃ shown, ((TodaysOffers.addToOffers s product).run env w).visible =
        w.visible ++ w.state :: { w.state with loading := true } :: shown) ∧
      (∀ err', env.server
          (requestsOf w.trace ++
            [.getPriceDetails product._id (TodaysOffers.addToOffers_initialFilters product)])
          .getHomepage = .error err' →
        ((TodaysOffers.addToOffers s product).run env w).state.homepage.todayOffers =
          w.state.homepage.todayOffers) ∧
      (∀ F, env.server
          (requestsOf w.trace ++
            [.getPriceDetails product._id (TodaysOffers.addToOffers_initialFilters product)])
          .getHomepage = .ok F →
        ((TodaysOffers.addToOffers s product).run env w).state.homepage.todayOffers =
          TodaysOffers.pricedOffers env
            (requestsOf w.trace ++
              [.getPriceDetails product._id (TodaysOffers.addToOffers_initialFilters product),
                .getHomepage])
            F.todayOffers) := by
  rw [addToOffers_run_price_error env s product token err w habsent htoken hprice]
  obtain ⟨w', hrun, ⟨rest, hreq, hrest⟩, ⟨shown, hvis⟩, _, hkeep, hload⟩ :=
    offers_fetchHomepageData_detail env
      (.alert ("Error adding today's offer: " ++ err.display) .done)
      { state := w.state
        trace := w.trace ++
          [.tokenRead,
            .request (.getPriceDetails product._id
              (TodaysOffers.addToOffers_initialFilters product))]
        visible := w.visible ++ [w.state]
        timers := w.timers }
  rw [hrun]
  simp only [requestsOf_append, requestsOf, List.append_nil] at hreq hkeep hload
  simp only [Async.run_alert, Async.run_done]
  refine ⟨⟨rest, ?_, hrest⟩, by simp, ⟨shown, ?_⟩, ?_, ?_⟩
  · simp [requestsOf_append, requestsOf, hreq]
  · rw [hvis]; simp
  · intro err' h
    rw [hkeep err' h]
  · intro F h
    rw [hload F h]
    simp

/-- C29 with the pricing lookup down: adding the shoe to the offers showing the
hat asks for the shoe's price, then for the homepage document, never for the add
call, and ends in the alert. -/
theorem addToOffers_price_failure_witness :
    (∀ x ∈ (offersShowing [hat]).homepage.todayOffers, x._id ≠ shoe._id) ∧
    Js.nonEmpty? priceDownEnv.token = some "admin-token" ∧
    priceDownEnv.server (requestsOf [])
        (.getPriceDetails shoe._id (TodaysOffers.addToOffers_initialFilters shoe)) =
      .error (.transport "Network Error") ∧
    (∃ rest,
      requestsOf ((TodaysOffers.addToOffers (offersShowing [hat]) shoe).run priceDownEnv
          { state := offersShowing [hat], trace := [], visible := [], timers := [] }).trace =
        requestsOf [] ++
          .getPriceDetails shoe._id (TodaysOffers.addToOffers_initialFilters shoe) ::
          .getHomepage :: rest ∧
      ∀ r ∈ rest, r = .getProducts ∨ ∃ id selectedFilters,
        r = .getPriceDetails id selectedFilters) ∧
    .alert ("Error adding today's offer: " ++ (NetError.transport "Network Error").display) ∈
      ((TodaysOffers.addToOffers (offersShowing [hat]) shoe).run priceDownEnv
        { state := offersShowing [hat], trace := [], visible := [], timers := [] }).trace :=
  ⟨by decide, by decide, by decide,
    (addToOffers_price_failure priceDownEnv (offersShowing [hat]) shoe "admin-token"
      (.transport "Network Error")
      { state := offersShowing [hat], trace := [], visible := [], timers := [] }
      (by decide) (by decide) (by decide)).1,
    (addToOffers_price_failure priceDownEnv (offersShowing [hat]) shoe "admin-token"
      (.transport "Network Error")
      { state := offersShowing [hat], trace := [], visible := [], timers := [] }
      (by decide) (by decide) (by decide)).2.1⟩

/-! ## The multipart bodies (C26) -/

/-- A body made of title, description, at most one image part and the product
part of the selection is exclusive. -/
theorem exclusive_head_tail (title description : String) (part : FormData)
    (selectedProduct : Option Product)
    (hpart : part = [] ∨ (∃ v, part = [("image", v)]) ∨ ∃ v, part = [("imageUrl", v)]) :
    ExclusiveBody selectedProduct
      ([("title", FormValue.text title), ("description", FormValue.text description)] ++ part ++
        match selectedProduct with
        | some selectedProduct => [("searchProduct", FormValue.text selectedProduct._id)]
        | none => []) := by
  unfold ExclusiveBody partCount
  rcases hpart with h | ⟨v, h⟩ | ⟨v, h⟩ <;> subst h <;> cases selectedProduct <;>
    simp [List.filter_cons]


/-- The requests of the `catch` of `updateBannerProduct`: the two fetches of the
silent reload. -/
theorem updateBannerProduct_failed_requests (env : Env) (message : String)
    (w : World BannerDashboard.State) :
    requestsOf
        ((BannerDashboard.loadInitialData true
          (.setState (fun prev => { prev with
              error := "Failed to update banner product: " ++ message }) <|
            .consoleError "Product update error:" <|
            .setState (fun prev => { prev with submitting := false }) .done)).run env
          w).trace = requestsOf w.trace ++ [.getHomepage, .getProducts] := by
  obtain ⟨w', hrun, hreq, _, _, _, _, _⟩ := banner_loadInitialData_run env true
    (.setState (fun prev => { prev with
        error := "Failed to update banner product: " ++ message }) <|
      .consoleError "Product update error:" <|
      .setState (fun prev => { prev with submitting := false }) .done) w
  rw [hrun]
  simp only [Async.run_setState, Async.run_consoleError, Async.run_done, requestsOf_append,
    requestsOf, List.append_nil, hreq]



/-- Every update call issued by `updateBannerProduct` carries a body with one
image source at most and the chosen product. -/
theorem updateBannerProduct_bodies (env : Env) (s : BannerDashboard.State) :
    ∀ r ∈ requestsOf ((BannerDashboard.updateBannerProduct s).exec env s).trace,
      ∀ (token bannerId : String) (body : FormData), r = .putBanner token bannerId body →
        ExclusiveBody s.selectedProduct body := by
  have fin := fun message w => updateBannerProduct_failed_requests env message w
  simp only [BannerDashboard.updateBannerProduct, Async.exec, Async.run_getToken]
  cases htoken : Js.nonEmpty? env.token with
  | none =>
    simp only [Async.run_setState, Async.run_done, requestsOf_append, requestsOf]
    simp
  | some token =>
    simp only [Async.run_setState]
    cases hs : s.selectedBanner with
    | none =>
      simp only [fin, requestsOf_append, requestsOf]
      simp
    | some banner =>
      simp only []
      cases himage : Js.nonEmpty? banner.image with
      | none =>
        simp only [Async.run_await]
        generalize env.server _ (Request.putBanner _ _ _) = response
        cases response <;>
          simp only [fin, Async.run_setState, Async.run_setTimeout, Async.run_done,
            requestsOf_append, requestsOf] <;>
          intro r hr t id body hb <;> subst hb <;>
          simp only [List.nil_append, List.append_nil, List.mem_append, List.mem_cons,
            List.mem_singleton, List.not_mem_nil, Request.putBanner.injEq, reduceCtorEq,
            or_false, false_or] at hr <;>
          obtain ⟨_, _, rfl⟩ := hr <;>
          exact exclusive_head_tail _ _ [] _ (Or.inl rfl)
      | some image =>
        simp only []
        split
        · simp only [Async.run_await]
          generalize env.server _ (Request.fetchImage _) = fetched
          cases fetched with
          | error err =>
            simp only [fin, requestsOf_append, requestsOf]
            intro r hr t id body hb
            subst hb
            simp at hr
          | ok blob =>
            simp only [Async.run_await]
            generalize env.server _ (Request.putBanner _ _ _) = response
            cases response <;>
              simp only [fin, Async.run_setState, Async.run_setTimeout, Async.run_done,
                requestsOf_append, requestsOf] <;>
              intro r hr t id body hb <;> subst hb <;>
              simp only [List.nil_append, List.append_nil, List.mem_append, List.mem_cons,
                List.mem_singleton, List.not_mem_nil, Request.putBanner.injEq, reduceCtorEq,
                or_false, false_or] at hr <;>
              obtain ⟨_, _, rfl⟩ := hr <;>
              exact exclusive_head_tail _ _ [("image", .blob blob)] _ (Or.inr (Or.inl ⟨_, rfl⟩))
        · simp only [Async.run_await]
          generalize env.server _ (Request.putBanner _ _ _) = response
          cases response <;>
            simp only [fin, Async.run_setState, Async.run_setTimeout, Async.run_done,
              requestsOf_append, requestsOf] <;>
            intro r hr t id body hb <;> subst hb <;>
            simp only [List.nil_append, List.append_nil, List.mem_append, List.mem_cons,
              List.mem_singleton, List.not_mem_nil, Request.putBanner.injEq, reduceCtorEq,
              or_false, false_or] at hr <;>
            obtain ⟨_, _, rfl⟩ := hr <;>
            exact exclusive_head_tail _ _ [("imageUrl", .text image)] _ (Or.inr (Or.inr ⟨_, rfl⟩))

/-- C26: for every form state and selected banner, the bodies built by
`createBanner` and `updateBanner`, and the body of every update call issued by
`updateBannerProduct`, never hold both an `image` part and an `imageUrl` part,
and hold one `searchProduct` part (the selected product's id) when a product is
selected and none otherwise. -/
theorem multipart_body_exclusive (env : Env) (s : BannerDashboard.State) :
    ExclusiveBody s.selectedProduct (BannerDashboard.createBanner_submitData s) ∧
    ExclusiveBody s.selectedProduct (BannerDashboard.updateBanner_submitData s) ∧
    ∀ r ∈ requestsOf ((BannerDashboard.updateBannerProduct s).exec env s).trace,
      ∀ (token bannerId : String) (body : FormData), r = .putBanner token bannerId body →
        ExclusiveBody s.selectedProduct body := by
  refine ⟨?_, ?_, updateBannerProduct_bodies env s⟩
  · unfold BannerDashboard.createBanner_submitData
    cases s.formData.image with
    | none => exact exclusive_head_tail _ _ [] _ (Or.inl rfl)
    | some image =>
      exact exclusive_head_tail _ _ [("image", .file image)] _ (Or.inr (Or.inl ⟨_, rfl⟩))
  · unfold BannerDashboard.updateBanner_submitData
    cases s.formData.image with
    | some image =>
      exact exclusive_head_tail _ _ [("image", .file image)] _ (Or.inr (Or.inl ⟨_, rfl⟩))
    | none =>
      cases Js.nonEmpty? (s.selectedBanner.bind (fun b => b.image)) with
      | none => exact exclusive_head_tail _ _ [] _ (Or.inl rfl)
      | some image =>
        exact exclusive_head_tail _ _ [("imageUrl", .text image)] _ (Or.inr (Or.inr ⟨_, rfl⟩))

/-- C26 on the two-banner screen: the product update of the banner with a hosted
image sends the image address and the shoe, and that body is exclusive. -/
theorem multipart_body_exclusive_witness :
    Request.putBanner "admin-token" "b3"
        [("title", .text "Spring"), ("description", .text "Fresh arrivals"),
         ("imageUrl", .text "https://cdn.example/spring.png"), ("searchProduct", .text "1")] ∈
      requestsOf ((BannerDashboard.updateBannerProduct photoShowing).exec bannerEnv
        photoShowing).trace ∧
    ExclusiveBody photoShowing.selectedProduct
      [("title", .text "Spring"), ("description", .text "Fresh arrivals"),
       ("imageUrl", .text "https://cdn.example/spring.png"), ("searchProduct", .text "1")] :=
  ⟨by decide,
    (multipart_body_exclusive bannerEnv photoShowing).2.2
      (.putBanner "admin-token" "b3"
        [("title", .text "Spring"), ("description", .text "Fresh arrivals"),
         ("imageUrl", .text "https://cdn.example/spring.png"), ("searchProduct", .text "1")])
      (by decide) _ _ _ rfl⟩

/-! ## The merge of a product update (C21) -/

/-- A key the second object lacks keeps the first object's value in a spread. -/
theorem lookup_spread_of_absent (b : List (String × String)) (k : String)
    (h : ∀ kv ∈ b, kv.1 ≠ k) :
    ∀ a : List (String × String), (Js.spread a b).lookup k = a.lookup k := by
  induction b with
  | nil => intro a; rfl
  | cons kv b ih =>
    intro a
    have hne : k ≠ kv.1 := fun hk => h kv (List.mem_cons_self _ _) hk.symm
    have := ih (fun kv' hkv' => h kv' (List.mem_cons_of_mem _ hkv')) (Js.setProp a kv.1 kv.2)
    unfold Js.spread at this ⊢
    rw [List.foldl_cons, this, lookup_setProp, if_neg hne]

/-- A key the second object binds once takes that value in a spread. -/
theorem lookup_spread_of_mem (a b : List (String × String)) (k v : String)
    (hmem : (k, v) ∈ b) (hnodup : (b.map Prod.fst).Nodup) :
    (Js.spread a b).lookup k = some v := by
  obtain ⟨pre, post, rfl⟩ := List.append_of_mem hmem
  have hpost : ∀ kv ∈ post, kv.1 ≠ k := by
    intro kv hkv hk
    rw [List.map_append, List.map_cons, List.nodup_append] at hnodup
    have hcons := (List.nodup_cons.1 hnodup.2.1).1
    exact hcons (List.mem_map.2 ⟨kv, hkv, hk⟩)
  have := lookup_spread_of_absent post k hpost (Js.setProp (Js.spread a pre) k v)
  unfold Js.spread at this ⊢
  rw [List.foldl_append, List.foldl_cons, this, lookup_setProp, if_pos rfl]

/-- The banner list after a product update whose calls succeed. -/
theorem updateBannerProduct_run_ok (env : Env) (s : BannerDashboard.State) (token : String)
    (banner updated : Banner)
    (htoken : Js.nonEmpty? env.token = some token)
    (hselected : s.selectedBanner = some banner)
    (hfetch : ∀ history image, Js.nonEmpty? banner.image = some image →
      Js.startsWith image "data:image/" = true →
      ∃ blob, env.server history (.fetchImage image) = .ok blob)
    (hput : ∀ history body, env.server history (.putBanner token banner._id body) = .ok updated) :
    ((BannerDashboard.updateBannerProduct s).exec env s).state.banners =
      s.banners.map (fun b =>
        if b._id == banner._id then
          BannerDashboard.updateBannerProduct_merged banner updated s.selectedProduct
        else b) := by
  simp only [BannerDashboard.updateBannerProduct, Async.exec, Async.run_getToken, htoken,
    Async.run_setState, hselected]
  cases himage : Js.nonEmpty? banner.image with
  | none =>
    simp only [Async.run_await, hput, Async.run_setState, Async.run_setTimeout, Async.run_done]
  | some image =>
    simp only []
    split
    · rename_i hp
      obtain ⟨blob, hb⟩ := hfetch (requestsOf ([] ++ [Event.tokenRead])) image himage hp
      simp only [Async.run_await, hb, hput, Async.run_setState, Async.run_setTimeout,
        Async.run_done]
    · simp only [Async.run_await, hput, Async.run_setState, Async.run_setTimeout,
        Async.run_done]

/-- The operand test of `a || b` on an optional string: `some s` with `s`
non-empty passes, the absent and the empty string do not. -/
theorem nonEmpty?_cases (a : Option String) :
    (∀ t, a = some t → t ≠ "" → Js.nonEmpty? a = some t) ∧
      ((a = none ∨ a = some "") → Js.nonEmpty? a = none) := by
  refine ⟨?_, ?_⟩
  · intro t ha ht
    subst ha
    have : t.data ≠ [] := fun h => ht (String.ext h)
    simp [Js.nonEmpty?, Js.truthy, this]
  · rintro (rfl | rfl) <;> rfl

/-- C21: after `updateBannerProduct` with the token present, a banner selected
and its calls succeeding, the banner list has the same length and order: every
banner whose id differs from the selected banner's is unchanged in its place,
and a banner with the selected id is the selected banner overlaid with the
response - `_id` the original id, `searchProduct` the selected product (absent
when the selection was cleared), each of `title`, `description`, `image` the
response's value when non-empty and the original's otherwise, every further
field the response omits the original's, every further field the response
holds the response's. -/
theorem updateBannerProduct_merge (env : Env) (s : BannerDashboard.State) (token : String)
    (banner updated : Banner)
    (htoken : Js.nonEmpty? env.token = some token)
    (hselected : s.selectedBanner = some banner)
    (hfetch : ∀ history image, Js.nonEmpty? banner.image = some image →
      Js.startsWith image "data:image/" = true →
      ∃ blob, env.server history (.fetchImage image) = .ok blob)
    (hput : ∀ history body, env.server history (.putBanner token banner._id body) = .ok updated) :
    ((BannerDashboard.updateBannerProduct s).exec env s).state.banners.length =
        s.banners.length ∧
      (∀ (i : Nat) (b : Banner), s.banners[i]? = some b → b._id ≠ banner._id →
        ((BannerDashboard.updateBannerProduct s).exec env s).state.banners[i]? = some b) ∧
      (∃ merged : Banner,
        (∀ (i : Nat) (b : Banner), s.banners[i]? = some b → b._id = banner._id →
          ((BannerDashboard.updateBannerProduct s).exec env s).state.banners[i]? =
            some merged) ∧
        merged._id = banner._id ∧
        merged.searchProduct = s.selectedProduct ∧
        ((∀ t, updated.title = some t → t ≠ "" → merged.title = some t) ∧
          ((updated.title = none ∨ updated.title = some "") → merged.title = banner.title)) ∧
        ((∀ t, updated.description = some t → t ≠ "" → merged.description = some t) ∧
          ((updated.description = none ∨ updated.description = some "") →
            merged.description = banner.description)) ∧
        ((∀ t, updated.image = some t → t ≠ "" → merged.image = some t) ∧
          ((updated.image = none ∨ updated.image = some "") → merged.image = banner.image)) ∧
        (∀ k, (∀ kv ∈ updated.extra, kv.1 ≠ k) →
          merged.extra.lookup k = banner.extra.lookup k) ∧
        (∀ k v, (k, v) ∈ updated.extra → (updated.extra.map Prod.fst).Nodup →
          merged.extra.lookup k = some v)) := by
  have hrun := updateBannerProduct_run_ok env s token banner updated htoken hselected hfetch hput
  have hfield : ∀ a b : Option String,
      (∀ t, a = some t → t ≠ "" → BannerDashboard.orElse a b = some t) ∧
        ((a = none ∨ a = some "") → BannerDashboard.orElse a b = b) := by
    intro a b
    refine ⟨fun t ha ht => ?_, fun ha => ?_⟩
    · unfold BannerDashboard.orElse
      rw [(nonEmpty?_cases a).1 t ha ht]
    · unfold BannerDashboard.orElse
      rw [(nonEmpty?_cases a).2 ha]
  refine ⟨by rw [hrun, List.length_map], ?_,
    BannerDashboard.updateBannerProduct_merged banner updated s.selectedProduct, ?_, rfl, rfl,
    hfield _ _, hfield _ _, hfield _ _,
    fun k h => lookup_spread_of_absent updated.extra k h banner.extra,
    fun k v hmem hnodup => lookup_spread_of_mem banner.extra updated.extra k v hmem hnodup⟩
  · intro i b hb hne
    rw [hrun, List.getElem?_map, hb]
    simp [hne]
  · intro i b hb heq
    rw [hrun, List.getElem?_map, hb]
    simp [heq]

/-- C21 on the two-banner screen: after the product update of the second banner
the list still has two entries and the first banner is untouched; the second
takes the response's title and timestamp and keeps its own description, image
address and position. -/
theorem updateBannerProduct_merge_witness :
    Js.nonEmpty? bannerEnv.token = some "admin-token" ∧
    photoShowing.selectedBanner = some photoBanner ∧
    (∀ history body,
      bannerEnv.server history (.putBanner "admin-token" photoBanner._id body) =
        .ok rawBanner) ∧
    ((BannerDashboard.updateBannerProduct photoShowing).exec bannerEnv
        photoShowing).state.banners.length = photoShowing.banners.length ∧
    ((BannerDashboard.updateBannerProduct photoShowing).exec bannerEnv
        photoShowing).state.banners[0]? = some saleBanner ∧
    ((BannerDashboard.updateBannerProduct photoShowing).exec bannerEnv
        photoShowing).state.banners =
      [saleBanner,
       { _id := "b3", title := some "New", description := some "Fresh arrivals",
         image := some "https://cdn.example/spring.png", searchProduct := some shoe,
         extra := [("createdAt", "2024-01-01"), ("position", "2")] }] :=
  ⟨by decide, rfl, fun _ _ => rfl,
    (updateBannerProduct_merge bannerEnv photoShowing "admin-token" photoBanner rawBanner
      (by decide) rfl
      (fun _ image himage hdata => by
        have h : Js.nonEmpty? photoBanner.image = some "https://cdn.example/spring.png" := by
          decide
        rw [h] at himage
        cases himage
        exact absurd hdata (by decide))
      (fun _ _ => rfl)).1,
    (updateBannerProduct_merge bannerEnv photoShowing "admin-token" photoBanner rawBanner
      (by decide) rfl
      (fun _ image himage hdata => by
        have h : Js.nonEmpty? photoBanner.image = some "https://cdn.example/spring.png" := by
          decide
        rw [h] at himage
        cases himage
        exact absurd hdata (by decide))
      (fun _ _ => rfl)).2.1 0 saleBanner rfl (by decide),
    by decide⟩

end Abinexis
